import Mathlib

/-!
# ShaderTrap executor: a shallow embedding of `libshadertrap/src/executor.cc`

The executor walks a list of parsed commands, keeps one table per resource kind
that maps script identifiers to OpenGL handles, and implements the assertion
commands (`assert-pixels`, `assert-equal`, `assert-similar-histogram`) on data
read back from the device.

Modelling conventions used throughout.

* `size_t`, `uint64_t`, `GLuint` values are natural numbers.  Widths and heights
  come from a `GLint`, so products such as `width * height * 4` and the histogram
  counters stay far below `2 ^ 64`; no wraparound is modelled for them.  The index
  of `assert-pixels`, whose `height - y - 1` can wrap, is also given modulo `2 ^ 64`
  (`startOfPixelIndex`, `assertPixelsAccesses`).
* `std::uint8_t` is `Fin 256`.
* A `std::vector<std::uint8_t>` (or a mapped buffer pointer) is modelled by its
  element function on indices; the source only reads indices below the size it
  allocated whenever the rectangle / loop bounds are inside the image it read back
  (for `assert-pixels` that image has the size of the bound renderbuffer).
* `double` is modelled by `Dbl`: a finite value is a rational, and the non-finite
  values `±inf` and `NaN` are kept, because the source divides by the pixel count
  without a guard.  The operations of `Dbl` give the unrounded result; the rounding
  of the machine is the separate step `Dbl.round`, applied after every operation in
  the definitions with the suffix `Rounded` (`roundBinary64` is the rounding of IEEE
  754 binary64).  Statements about `maxEmd` and `VisitAssertSimilarEmdHistogram` are
  statements in exact arithmetic; statements about `maxEmdRounded` and
  `VisitAssertSimilarEmdHistogramRounded` are about the machine.
* OpenGL is an external collaborator: `Device` is a snapshot of the answers the
  driver gives to the queries the executor makes.  The error checks of `GL_SAFECALL`
  are modelled as passing; the `GL_CHECKERR` after a failed `glMapBufferRange` is
  decided by the device.
* A handler either returns a `bool`, or the process dies (`assert`, `crash`,
  `errcode_crash`, `std::out_of_range` from `unordered_map::at`): `Outcome`.
-/

namespace shadertrap

/-! ## Basic types -/

/-- RGBA: `#define CHANNELS (4)`. -/
def CHANNELS : Nat := 4

/-- A `std::uint8_t`. -/
abbrev Byte := Fin 256

/-- An OpenGL object name. -/
abbrev GLuint := Nat

/-- The start token of a command (the source location handed to the message consumer). -/
abbrev Token := String

/-- Severity levels of `MessageConsumer`; the executor only ever uses `kError`. -/
inductive Severity
  | kError
  | kWarning
deriving DecidableEq, Repr

/-- One call of `message_consumer_->Message(severity, token, text)`. -/
structure Message where
  severity : Severity
  token : Token
  text : String
deriving DecidableEq, Repr

/-- The ways a handler can end the process instead of returning. -/
inductive Fatal
  | outOfRange
  | assertFailed (what : String)
  | crash (what : String)
  | errcodeCrash (what : String)
deriving DecidableEq, Repr

/-- How a handler ends: it returns a `bool`, or the process dies. -/
inductive Outcome
  | returned (result : Bool)
  | fatal (why : Fatal)
deriving DecidableEq, Repr

/-- What an assertion handler does: how it ends and the messages it emitted, in order. -/
structure Result where
  outcome : Outcome
  messages : List Message
deriving DecidableEq, Repr

/-! ## Doubles -/

/-- A `double`: a finite value (an exact rational), an infinity, or NaN.  The operations below
give the unrounded result of a finite operation; `Dbl.round` is the rounding step. -/
inductive Dbl
  | fin (q : ℚ)
  | inf (negative : Bool)
  | nan
deriving DecidableEq

namespace Dbl

/-- Conversion `static_cast<double>(n)` of an unsigned integer. -/
def ofNat (n : Nat) : Dbl := fin (n : ℚ)

/-- Negation. -/
def neg : Dbl → Dbl
  | fin a => fin (-a)
  | inf s => inf (!s)
  | nan => nan

/-- IEEE addition (`inf + -inf` is NaN). -/
def add : Dbl → Dbl → Dbl
  | fin a, fin b => fin (a + b)
  | fin _, inf s => inf s
  | inf s, fin _ => inf s
  | inf s, inf t => if s = t then inf s else nan
  | nan, _ => nan
  | _, nan => nan

/-- IEEE subtraction. -/
def sub (a b : Dbl) : Dbl := add a (neg b)

/-- IEEE division; a zero divisor is the positive zero that a conversion from an unsigned
integer produces, so `0 / 0` is NaN and `a / 0` is an infinity with the sign of `a`. -/
def div : Dbl → Dbl → Dbl
  | fin a, fin b =>
    if b = 0 then (if a = 0 then nan else inf (decide (a < 0))) else fin (a / b)
  | fin _, inf _ => fin 0
  | inf s, fin b => inf (xor s (decide (b < 0)))
  | inf _, inf _ => nan
  | nan, _ => nan
  | _, nan => nan

/-- Absolute value `std::fabs`. -/
def fabs : Dbl → Dbl
  | fin a => fin |a|
  | inf _ => inf false
  | nan => nan

/-- Comparison `a < b`; every comparison with NaN is false. -/
def lt : Dbl → Dbl → Bool
  | fin a, fin b => decide (a < b)
  | fin _, inf s => !s
  | inf s, fin _ => s
  | inf s, inf t => s && !t
  | nan, _ => false
  | _, nan => false

/-- Comparison `a > b`. -/
def gt (a b : Dbl) : Bool := lt b a

/-- Comparison `a <= b`; every comparison with NaN is false. -/
def le : Dbl → Dbl → Bool
  | fin a, fin b => decide (a ≤ b)
  | fin _, inf s => !s
  | inf s, fin _ => s
  | inf s, inf t => s || !t
  | nan, _ => false
  | _, nan => false

/-- The function `std::max(a, b)`, which is `(a < b) ? b : a`. -/
def max (a b : Dbl) : Dbl := if lt a b then b else a

end Dbl

/-! ## Histograms and the Earth Mover Distance (`executor.cc` lines 202-245) -/

/-- The two-level vector `histogram[index]`: `channel ↦ bin ↦ count`. -/
abbrev Histogram := Nat → Nat → Nat

/-- The statement `histogram[channel][bin]++`. -/
def Histogram.increment (h : Histogram) (channel bin : Nat) : Histogram :=
  fun c b => if c = channel ∧ b = bin then h c b + 1 else h c b

/-- The bin count `num_bins`. -/
def num_bins : Nat := 256

/-- The histogram loops over `y`, `x` and `channel`, starting from all-zero bins. -/
def buildHistogram (width height : Nat) (data : Nat → Byte) : Histogram :=
  (List.range height).foldl (fun h y =>
    (List.range width).foldl (fun h x =>
      (List.range 4).foldl (fun h channel =>
        Histogram.increment h channel (data (y * width * 4 + x * 4 + channel)).val) h) h)
    (fun _ _ => 0)

/-- One iteration of the loop over bins: the state is `(diff_total, diff_accum)`. -/
def emdStep (hist0 hist1 : Histogram) (n0 n1 channel : Nat) (acc : Dbl × Dbl) (i : Nat) :
    Dbl × Dbl :=
  let hist_normalized_0 := Dbl.div (Dbl.ofNat (hist0 channel i)) (Dbl.ofNat n0)
  let hist_normalized_1 := Dbl.div (Dbl.ofNat (hist1 channel i)) (Dbl.ofNat n1)
  let diff_accum := Dbl.add acc.2 (Dbl.sub hist_normalized_0 hist_normalized_1)
  let diff_total := Dbl.add acc.1 (Dbl.fabs diff_accum)
  (diff_total, diff_accum)

/-- The value `emd` of one channel: `diff_total / num_bins` after the loop over bins.
`n0` and `n1` are `width[0] * height[0]` and `width[1] * height[1]`. -/
def channelEmd (hist0 hist1 : Histogram) (n0 n1 channel : Nat) : Dbl :=
  Dbl.div ((List.range num_bins).foldl (emdStep hist0 hist1 n0 n1 channel)
    (Dbl.fin 0, Dbl.fin 0)).1 (Dbl.ofNat num_bins)

/-- The loop over channels: `max_emd = std::max(max_emd, emd)` starting from `0`. -/
def maxEmdOfHistograms (hist0 hist1 : Histogram) (n0 n1 : Nat) : Dbl :=
  (List.range 4).foldl (fun max_emd channel =>
    Dbl.max max_emd (channelEmd hist0 hist1 n0 n1 channel)) (Dbl.fin 0)

/-- The value `max_emd` the source computes from the two readback buffers (lines 202-245). -/
def maxEmd (width0 height0 width1 height1 : Nat) (data0 data1 : Nat → Byte) : Dbl :=
  maxEmdOfHistograms (buildHistogram width0 height0 data0) (buildHistogram width1 height1 data1)
    (width0 * height0) (width1 * height1)

/-! ## Rounding of `double` operations

The operations of `Dbl` return the unrounded result of an operation.  On the machine every
conversion and every arithmetic operation of the distance loop delivers the unrounded result
rounded to the format; `Dbl.round rnd` is that rounding step, with `rnd` the rounding of the
finite values, and `roundBinary64` is the rounding of IEEE 754 binary64 (round to nearest,
ties to even).  The definitions with the suffix `Rounded` are the distance loop with the
rounding step after each operation; `emdStep`, `channelEmd`, `maxEmd` are the same loop for
the identity rounding. -/

/-- Round a rational to the nearest integer, a tie to the even neighbour. -/
def roundHalfEven (q : ℚ) : ℤ :=
  let f := ⌊q⌋
  let r := q - f
  if r < 1 / 2 then f else if 1 / 2 < r then f + 1 else if f % 2 = 0 then f else f + 1

/-- The loop of `natLog2`: halve `n` until it is below `2`, at most `fuel` times. -/
def log2Loop : Nat → Nat → Nat
  | 0, _ => 0
  | fuel + 1, n => if 2 ≤ n then log2Loop fuel (n / 2) + 1 else 0

/-- The position of the leading bit of `n`: the `k` with `2 ^ k ≤ n < 2 ^ (k + 1)`
(`0` for `n = 0`). -/
def natLog2 (n : Nat) : Nat := log2Loop n n

/-- The binary exponent of a rational `x ≠ 0`: the `e` with `2 ^ e ≤ |x| < 2 ^ (e + 1)`. -/
def floorLog2 (x : ℚ) : ℤ :=
  if 2 ^ (natLog2 x.num.natAbs) * x.den ≤ 2 ^ (natLog2 x.den) * x.num.natAbs then
    (natLog2 x.num.natAbs : ℤ) - (natLog2 x.den : ℤ)
  else (natLog2 x.num.natAbs : ℤ) - (natLog2 x.den : ℤ) - 1

/-- The rational `2 ^ e`. -/
def pow2 (e : ℤ) : ℚ :=
  if 0 ≤ e then ((2 ^ e.toNat : ℕ) : ℚ) else 1 / ((2 ^ (-e).toNat : ℕ) : ℚ)

/-- Rounding of an unrounded result to IEEE 754 binary64, round to nearest, ties to even:
a value of binary exponent `e` is rounded to a multiple of `2 ^ (e - 52)` (53 significant
bits), and the exponent is at least `-1022` (subnormal values).  Overflow to an infinity
needs a magnitude of `2 ^ 1024`; no value of the distance loop comes near it, and it is not
modelled. -/
def roundBinary64 (x : ℚ) : ℚ :=
  if x = 0 then 0
  else
    let e := Max.max (floorLog2 x) (-1022)
    let ulp := pow2 (e - 52)
    (roundHalfEven (x / ulp) : ℚ) * ulp

/-- The rounding step of an operation: a finite unrounded result is rounded by `rnd`, an
infinity or a NaN stays. -/
def Dbl.round (rnd : ℚ → ℚ) : Dbl → Dbl
  | .fin q => .fin (rnd q)
  | .inf s => .inf s
  | .nan => .nan

/-- One iteration of the loop over bins (lines 234-241) with every conversion, division,
subtraction and addition rounded; the state is `(diff_total, diff_accum)`. -/
def emdStepRounded (rnd : ℚ → ℚ) (hist0 hist1 : Histogram) (n0 n1 channel : Nat)
    (acc : Dbl × Dbl) (i : Nat) : Dbl × Dbl :=
  let hist_normalized_0 := Dbl.round rnd (Dbl.div (Dbl.round rnd (Dbl.ofNat (hist0 channel i)))
    (Dbl.round rnd (Dbl.ofNat n0)))
  let hist_normalized_1 := Dbl.round rnd (Dbl.div (Dbl.round rnd (Dbl.ofNat (hist1 channel i)))
    (Dbl.round rnd (Dbl.ofNat n1)))
  let diff_accum := Dbl.round rnd (Dbl.add acc.2
    (Dbl.round rnd (Dbl.sub hist_normalized_0 hist_normalized_1)))
  let diff_total := Dbl.round rnd (Dbl.add acc.1 (Dbl.fabs diff_accum))
  (diff_total, diff_accum)

/-- The value `emd` of one channel, `diff_total / num_bins` after the loop over bins, with
every operation rounded. -/
def channelEmdRounded (rnd : ℚ → ℚ) (hist0 hist1 : Histogram) (n0 n1 channel : Nat) : Dbl :=
  Dbl.round rnd (Dbl.div ((List.range num_bins).foldl
    (emdStepRounded rnd hist0 hist1 n0 n1 channel) (Dbl.fin 0, Dbl.fin 0)).1
    (Dbl.round rnd (Dbl.ofNat num_bins)))

/-- The loop over channels, `max_emd = std::max(max_emd, emd)` starting from `0`, on the
rounded per-channel values (`std::max` returns one of its arguments: no rounding). -/
def maxEmdOfHistogramsRounded (rnd : ℚ → ℚ) (hist0 hist1 : Histogram) (n0 n1 : Nat) : Dbl :=
  (List.range 4).foldl (fun max_emd channel =>
    Dbl.max max_emd (channelEmdRounded rnd hist0 hist1 n0 n1 channel)) (Dbl.fin 0)

/-- The value `max_emd` the source computes from the two readback buffers (lines 202-245) on
a machine whose `double` operations round by `rnd`. -/
def maxEmdRounded (rnd : ℚ → ℚ) (width0 height0 width1 height1 : Nat)
    (data0 data1 : Nat → Byte) : Dbl :=
  maxEmdOfHistogramsRounded rnd (buildHistogram width0 height0 data0)
    (buildHistogram width1 height1 data1) (width0 * height0) (width1 * height1)

/-! ## The resource registry -/

/-- A `std::unordered_map<std::string, α>`, as the list of its entries. -/
structure Table (α : Type) where
  entries : List (String × α)

namespace Table

/-- The empty map. -/
def empty {α : Type} : Table α := ⟨[]⟩

/-- The value stored under `id`, if any; `unordered_map::at` throws when this is `none`. -/
def find {α : Type} (t : Table α) (id : String) : Option α := List.lookup id t.entries

/-- The member `unordered_map::count`: `1` when the key is present, `0` otherwise. -/
def count {α : Type} (t : Table α) (id : String) : Nat := if (t.find id).isSome then 1 else 0

/-- The member `unordered_map::insert`: a key already present keeps its old value. -/
def insert {α : Type} (t : Table α) (id : String) (value : α) : Table α :=
  if (t.find id).isSome then t else ⟨t.entries ++ [(id, value)]⟩

end Table

/-- The shader stage enum `CommandDeclareShader::Kind`. -/
inductive ShaderKind
  | VERTEX
  | FRAGMENT
  | COMPUTE
deriving DecidableEq, Repr

/-- The command `DECLARE_SHADER`. -/
structure CommandDeclareShader where
  result_identifier : String
  kind : ShaderKind
  shader_text : String
deriving DecidableEq, Repr

/-- The command `COMPILE_SHADER`. -/
structure CommandCompileShader where
  result_identifier : String
  shader_identifier : String
deriving DecidableEq, Repr

/-- The command `CREATE_BUFFER`. -/
structure CommandCreateBuffer where
  result_identifier : String
  size_bytes : Nat
  has_initial_data : Bool
  initial_data : List Byte
deriving DecidableEq, Repr

/-- The command `CREATE_SAMPLER`. -/
structure CommandCreateSampler where
  result_identifier : String
deriving DecidableEq, Repr

/-- The command `CREATE_EMPTY_TEXTURE_2D`. -/
structure CommandCreateEmptyTexture2D where
  result_identifier : String
  width : Nat
  height : Nat
deriving DecidableEq, Repr

/-- The command `CREATE_PROGRAM`. -/
structure CommandCreateProgram where
  result_identifier : String
  compiled_shader_identifiers : List String
deriving DecidableEq, Repr

/-- The command `CREATE_RENDERBUFFER`. -/
structure CommandCreateRenderbuffer where
  result_identifier : String
  width : Nat
  height : Nat
deriving DecidableEq, Repr

/-- The command `ASSERT_EQUAL`. -/
structure CommandAssertEqual where
  start_token : Token
  buffer_identifier_1 : String
  buffer_identifier_2 : String
deriving DecidableEq, Repr

/-- The command `ASSERT_PIXELS`. -/
structure CommandAssertPixels where
  start_token : Token
  expected_r : Byte
  expected_g : Byte
  expected_b : Byte
  expected_a : Byte
  renderbuffer_identifier : String
  rectangle_x : Nat
  rectangle_y : Nat
  rectangle_width : Nat
  rectangle_height : Nat
deriving DecidableEq, Repr

/-- The command `ASSERT_SIMILAR_EMD_HISTOGRAM`; the tolerance is a `float`. -/
structure CommandAssertSimilarEmdHistogram where
  start_token : Token
  buffer_identifier_1 : String
  buffer_identifier_2 : String
  tolerance : Dbl
deriving DecidableEq

/-- The command `DUMP_RENDERBUFFER`. -/
structure CommandDumpRenderbuffer where
  renderbuffer_identifier : String
  filename : String
deriving DecidableEq, Repr

/-- The member tables of `Executor`. -/
structure Executor where
  declared_shaders_ : Table CommandDeclareShader
  compiled_shaders_ : Table GLuint
  created_programs_ : Table GLuint
  created_buffers_ : Table GLuint
  created_renderbuffers_ : Table GLuint
  created_samplers_ : Table GLuint
  created_textures_ : Table GLuint

/-! ## Calls into the device -/

/-- The constant `GL_SHADER_STORAGE_BUFFER`. -/
def GL_SHADER_STORAGE_BUFFER : Nat := 0x90D2
/-- The constant `GL_UNIFORM_BUFFER`. -/
def GL_UNIFORM_BUFFER : Nat := 0x8A11
/-- The constant `GL_ARRAY_BUFFER`. -/
def GL_ARRAY_BUFFER : Nat := 0x8892
/-- The constant `GL_ELEMENT_ARRAY_BUFFER`. -/
def GL_ELEMENT_ARRAY_BUFFER : Nat := 0x8893
/-- The constant `GL_TEXTURE0`. -/
def GL_TEXTURE0 : Nat := 0x84C0
/-- The constant `GL_TEXTURE_2D`. -/
def GL_TEXTURE_2D : Nat := 0x0DE1
/-- The constant `GL_ALL_BARRIER_BITS`. -/
def GL_ALL_BARRIER_BITS : Nat := 0xFFFFFFFF
/-- The constant `GL_FLOAT`. -/
def GL_FLOAT : Nat := 0x1406
/-- The constant `GL_UNSIGNED_INT`. -/
def GL_UNSIGNED_INT : Nat := 0x1405
/-- The constant `GL_COLOR_ATTACHMENT0`. -/
def GL_COLOR_ATTACHMENT0 : Nat := 0x8CE0
/-- The constant `GL_COLOR_BUFFER_BIT`. -/
def GL_COLOR_BUFFER_BIT : Nat := 0x4000
/-- The constant `GL_TRIANGLES`. -/
def GL_TRIANGLES : Nat := 4
/-- The constant `GL_TEXTURE_MAG_FILTER`. -/
def GL_TEXTURE_MAG_FILTER : Nat := 0x2800
/-- The constant `GL_TEXTURE_MIN_FILTER`. -/
def GL_TEXTURE_MIN_FILTER : Nat := 0x2801
/-- The constant `GL_NEAREST`. -/
def GL_NEAREST : Nat := 0x2600
/-- The constant `GL_LINEAR`. -/
def GL_LINEAR : Nat := 0x2601

/-- The state-changing OpenGL calls the binding, parameter, uniform and run handlers issue,
with the arguments they pass.  Casts between integer types (`static_cast<GLuint>`,
`static_cast<GLsizei>`, ...) are the identity: the values are slots, counts and sizes that
fit the target type.  A `float` argument is a `Dbl`. -/
inductive GLCall
  | glBindBufferBase (target index : Nat) (buffer : GLuint)
  | glBindSampler (unit : Nat) (sampler : GLuint)
  | glActiveTexture (texture : Nat)
  | glBindTexture (target : Nat) (texture : GLuint)
  | glSamplerParameteri (sampler : GLuint) (pname param : Nat)
  | glTexParameteri (target pname param : Nat)
  | glMemoryBarrier (barriers : Nat)
  | glUseProgram (program : GLuint)
  | glDispatchCompute (num_groups_x num_groups_y num_groups_z : Nat)
  | glFlush
  | glBindBuffer (target : Nat) (buffer : GLuint)
  | glEnableVertexAttribArray (index : Nat)
  | glVertexAttribPointer (index size type stride offset : Nat)
  | glDisableVertexAttribArray (index : Nat)
  | glGenFramebuffers (framebuffer : GLuint)
  | glBindFramebuffer (framebuffer : GLuint)
  | glDeleteFramebuffers (framebuffer : GLuint)
  | glFramebufferRenderbuffer (attachment : Nat) (renderbuffer : GLuint)
  | glFramebufferTexture (attachment : Nat) (texture : GLuint) (level : Nat)
  | glDrawBuffers (n : Nat) (bufs : List Nat)
  | glClearColor (red green blue alpha : Dbl)
  | glClear (mask : Nat)
  | glDrawElements (mode count type : Nat)
  | glProgramUniform1f (program : GLuint) (location : Nat) (v0 : Dbl)
  | glProgramUniform2f (program : GLuint) (location : Nat) (v0 v1 : Dbl)
  | glProgramUniform3f (program : GLuint) (location : Nat) (v0 v1 v2 : Dbl)
  | glProgramUniform4f (program : GLuint) (location : Nat) (v0 v1 v2 v3 : Dbl)
  | glProgramUniform1i (program : GLuint) (location : Nat) (v0 : Int)
  | glProgramUniform1fv (program : GLuint) (location count : Nat) (value : List Dbl)
  | glProgramUniform2fv (program : GLuint) (location count : Nat) (value : List Dbl)
  | glProgramUniform3fv (program : GLuint) (location count : Nat) (value : List Dbl)
  | glProgramUniform4fv (program : GLuint) (location count : Nat) (value : List Dbl)
  | glProgramUniform1iv (program : GLuint) (location count : Nat) (value : List Int)
deriving DecidableEq

/-- What a binding, parameter, uniform or run handler does: how it ends, and the device calls
it issued before that, in order. -/
structure Trace where
  outcome : Outcome
  calls : List GLCall
deriving DecidableEq

/-! ## The device -/

/-- The answers of the OpenGL driver to the queries the executor makes, at the time of one
command.  Pixel data is what `glReadPixels` writes: row-major RGBA8, bottom row first. -/
structure Device where
  /-- Width reported for a renderbuffer bound to `GL_RENDERBUFFER`. -/
  renderbufferWidth : GLuint → Nat
  /-- Height reported for a renderbuffer bound to `GL_RENDERBUFFER`. -/
  renderbufferHeight : GLuint → Nat
  /-- The renderbuffer bound to `GL_RENDERBUFFER` when the command starts. -/
  boundRenderbuffer : GLuint
  /-- Whether `glCheckFramebufferStatus` answers `GL_FRAMEBUFFER_COMPLETE` for a framebuffer
  with these renderbuffers as color attachments 0, 1, ... -/
  framebufferComplete : List GLuint → Bool
  /-- The bytes `glReadPixels(0, 0, width, height, GL_RGBA, GL_UNSIGNED_BYTE)` stores when the
  read buffer is the attachment holding the given renderbuffer. -/
  readPixels : GLuint → Nat → Nat → Nat → Byte
  /-- The value of `GL_BUFFER_SIZE` of a buffer. -/
  bufferSize : GLuint → Nat
  /-- The pointer `glMapBufferRange` returns for a buffer: `none` is the null pointer. -/
  mapBufferRange : GLuint → Option (Nat → Byte)
  /-- Whether `glGetError` reports an error right after a failed `glMapBufferRange` on a
  buffer; `GL_CHECKERR` ends the process when it does. -/
  mapBufferError : GLuint → Bool
  /-- The names handed out by `glGenBuffers`, `glGenSamplers`, `glGenTextures`,
  `glGenRenderbuffers`. -/
  genBuffers : GLuint
  genSamplers : GLuint
  genTextures : GLuint
  genRenderbuffers : GLuint
  /-- The name `glCreateShader(kind)` returns. -/
  createShader : Nat → GLuint
  /-- The value of `GL_COMPILE_STATUS` after compiling the given text in that shader. -/
  compileStatus : GLuint → String → Int
  /-- The name `glCreateProgram()` returns. -/
  createProgram : GLuint
  /-- The value of `GL_LINK_STATUS` after attaching these shaders and linking. -/
  linkStatus : GLuint → List GLuint → Int
  /-- The error code of `lodepng::encode(filename, data, width, height)`. -/
  pngEncode : String → (Nat → Byte) → Nat → Nat → Nat
  /-- The name handed out by `glGenFramebuffers`. -/
  genFramebuffers : GLuint
  /-- Whether `glCheckFramebufferStatus` answers `GL_FRAMEBUFFER_COMPLETE` in `run-graphics`,
  after these attachment calls. -/
  drawFramebufferComplete : List GLCall → Bool

/-- The text of the crash on an incomplete framebuffer. -/
def framebufferProblem : String :=
  "Problem with OpenGL framebuffer after specifying color render buffer"

/-! ## `VisitAssertSimilarEmdHistogram` -/

/-- The text of the width diagnostic (shared by `assert-equal` and the histogram assertion). -/
def widthsText (id1 id2 : String) (width0 width1 : Nat) : String :=
  "The widths of " ++ id1 ++ " and " ++ id2 ++ " do not match: " ++ toString width0 ++ " vs. "
    ++ toString width1

/-- The text of the height diagnostic. -/
def heightsText (id1 id2 : String) (height0 height1 : Nat) : String :=
  "The heights of " ++ id1 ++ " and " ++ id2 ++ " do not match: " ++ toString height0 ++ " vs. "
    ++ toString height1

/-- The text of the histogram diagnostic; `to_string` is `std::to_string`. -/
def histogramText (to_string : Dbl → String) (max_emd tolerance : Dbl) : String :=
  "Histogram EMD value of " ++ to_string max_emd ++ " is greater than tolerance of "
    ++ to_string tolerance

/-- The handler `Executor::VisitAssertSimilarEmdHistogram`. -/
def VisitAssertSimilarEmdHistogram (to_string : Dbl → String) (ex : Executor) (dev : Device)
    (cmd : CommandAssertSimilarEmdHistogram) : Result :=
  match ex.created_renderbuffers_.find cmd.buffer_identifier_1,
      ex.created_renderbuffers_.find cmd.buffer_identifier_2 with
  | some rb0, some rb1 =>
    let width0 := dev.renderbufferWidth rb0
    let height0 := dev.renderbufferHeight rb0
    let width1 := dev.renderbufferWidth rb1
    let height1 := dev.renderbufferHeight rb1
    if width0 ≠ width1 then
      ⟨.returned false, [⟨.kError, cmd.start_token,
        widthsText cmd.buffer_identifier_1 cmd.buffer_identifier_2 width0 width1⟩]⟩
    else if height0 ≠ height1 then
      ⟨.returned false, [⟨.kError, cmd.start_token,
        heightsText cmd.buffer_identifier_1 cmd.buffer_identifier_2 height0 height1⟩]⟩
    else if !dev.framebufferComplete [rb0, rb1] then
      ⟨.fatal (.crash framebufferProblem), []⟩
    else
      let data0 := dev.readPixels rb0 width0 height0
      let data1 := dev.readPixels rb1 width1 height1
      let max_emd := maxEmd width0 height0 width1 height1 data0 data1
      if Dbl.gt max_emd cmd.tolerance then
        ⟨.returned true, [⟨.kError, cmd.start_token,
          histogramText to_string max_emd cmd.tolerance⟩]⟩
      else
        ⟨.returned true, []⟩
  | _, _ => ⟨.fatal .outOfRange, []⟩

/-- The handler `Executor::VisitAssertSimilarEmdHistogram` on a machine whose `double`
operations round by `rnd`: the same statements, with `max_emd` computed by the rounded loop.
The comparison `max_emd > tolerance` is exact on doubles. -/
def VisitAssertSimilarEmdHistogramRounded (rnd : ℚ → ℚ) (to_string : Dbl → String)
    (ex : Executor) (dev : Device) (cmd : CommandAssertSimilarEmdHistogram) : Result :=
  match ex.created_renderbuffers_.find cmd.buffer_identifier_1,
      ex.created_renderbuffers_.find cmd.buffer_identifier_2 with
  | some rb0, some rb1 =>
    let width0 := dev.renderbufferWidth rb0
    let height0 := dev.renderbufferHeight rb0
    let width1 := dev.renderbufferWidth rb1
    let height1 := dev.renderbufferHeight rb1
    if width0 ≠ width1 then
      ⟨.returned false, [⟨.kError, cmd.start_token,
        widthsText cmd.buffer_identifier_1 cmd.buffer_identifier_2 width0 width1⟩]⟩
    else if height0 ≠ height1 then
      ⟨.returned false, [⟨.kError, cmd.start_token,
        heightsText cmd.buffer_identifier_1 cmd.buffer_identifier_2 height0 height1⟩]⟩
    else if !dev.framebufferComplete [rb0, rb1] then
      ⟨.fatal (.crash framebufferProblem), []⟩
    else
      let data0 := dev.readPixels rb0 width0 height0
      let data1 := dev.readPixels rb1 width1 height1
      let max_emd := maxEmdRounded rnd width0 height0 width1 height1 data0 data1
      if Dbl.gt max_emd cmd.tolerance then
        ⟨.returned true, [⟨.kError, cmd.start_token,
          histogramText to_string max_emd cmd.tolerance⟩]⟩
      else
        ⟨.returned true, []⟩
  | _, _ => ⟨.fatal .outOfRange, []⟩

/-! ## `VisitAssertEqual`: renderbuffers -/

/-- The loop over `component` with its `break`: the value of `all_match` afterwards. -/
def allMatchLoop (data0 data1 : Nat → Byte) (offset : Nat) : List Nat → Bool
  | [] => true
  | component :: rest =>
    if data0 (offset + component) ≠ data1 (offset + component) then false
    else allMatchLoop data0 data1 offset rest

/-- The text of the pixel mismatch diagnostic of `assert-equal`. -/
def pixelMismatchText (id1 id2 : String) (x y : Nat) (data0 data1 : Nat → Byte) (offset : Nat) :
    String :=
  "Pixel mismatch at position (" ++ toString x ++ ", " ++ toString y ++ "): " ++ id1 ++ "["
    ++ toString x ++ "][" ++ toString y ++ "] == (" ++ toString (data0 offset).val ++ ", "
    ++ toString (data0 (offset + 1)).val ++ ", " ++ toString (data0 (offset + 2)).val ++ ", "
    ++ toString (data0 (offset + 3)).val ++ "), vs. " ++ id2 ++ "[" ++ toString x ++ "]["
    ++ toString y ++ "] == (" ++ toString (data1 offset).val ++ ", "
    ++ toString (data1 (offset + 1)).val ++ ", " ++ toString (data1 (offset + 2)).val ++ ", "
    ++ toString (data1 (offset + 3)).val ++ ")"

/-- The body of the pixel loops of `CheckEqualRenderbuffers` at `(x, y)`; the state is
`(result, messages so far)`. -/
def equalPixelStep (cmd : CommandAssertEqual) (width0 height0 : Nat) (data0 data1 : Nat → Byte)
    (y : Nat) (st : Bool × List Message) (x : Nat) : Bool × List Message :=
  let offset := (height0 - y - 1) * width0 * 4 + x * 4
  let all_match := allMatchLoop data0 data1 offset (List.range 4)
  if !all_match then
    (false, st.2 ++ [⟨.kError, cmd.start_token,
      pixelMismatchText cmd.buffer_identifier_1 cmd.buffer_identifier_2 x y data0 data1 offset⟩])
  else st

/-- The pixel loops of `CheckEqualRenderbuffers` (lines 756-790). -/
def equalPixelLoops (cmd : CommandAssertEqual) (width0 height0 : Nat) (data0 data1 : Nat → Byte) :
    Bool × List Message :=
  (List.range height0).foldl (fun st y =>
    (List.range width0).foldl (equalPixelStep cmd width0 height0 data0 data1 y) st) (true, [])

/-- The helper `Executor::CheckEqualRenderbuffers`. -/
def CheckEqualRenderbuffers (ex : Executor) (dev : Device) (cmd : CommandAssertEqual) : Result :=
  if ex.created_renderbuffers_.count cmd.buffer_identifier_1 = 0 then
    ⟨.fatal (.assertFailed "Expected a renderbuffer"), []⟩
  else if ex.created_renderbuffers_.count cmd.buffer_identifier_2 = 0 then
    ⟨.fatal (.assertFailed "Expected a renderbuffer"), []⟩
  else
    match ex.created_renderbuffers_.find cmd.buffer_identifier_1,
        ex.created_renderbuffers_.find cmd.buffer_identifier_2 with
    | some rb0, some rb1 =>
      let width0 := dev.renderbufferWidth rb0
      let height0 := dev.renderbufferHeight rb0
      let width1 := dev.renderbufferWidth rb1
      let height1 := dev.renderbufferHeight rb1
      if width0 ≠ width1 then
        ⟨.returned false, [⟨.kError, cmd.start_token,
          widthsText cmd.buffer_identifier_1 cmd.buffer_identifier_2 width0 width1⟩]⟩
      else if height0 ≠ height1 then
        ⟨.returned false, [⟨.kError, cmd.start_token,
          heightsText cmd.buffer_identifier_1 cmd.buffer_identifier_2 height0 height1⟩]⟩
      else if !dev.framebufferComplete [rb0, rb1] then
        ⟨.fatal (.crash framebufferProblem), []⟩
      else
        let data0 := dev.readPixels rb0 width0 height0
        let data1 := dev.readPixels rb1 width1 height1
        let st := equalPixelLoops cmd width0 height0 data0 data1
        ⟨.returned st.1, st.2⟩
    | _, _ => ⟨.fatal .outOfRange, []⟩

/-! ## `VisitAssertEqual`: buffers -/

/-- The text of the length diagnostic. -/
def lengthsText (id1 id2 : String) (size0 size1 : Nat) : String :=
  "The lengths of " ++ id1 ++ " and " ++ id2 ++ " do not match: " ++ toString size0 ++ " vs. "
    ++ toString size1

/-- The text of the byte mismatch diagnostic. -/
def byteMismatchText (id1 id2 : String) (index : Nat) (value_1 value_2 : Byte) : String :=
  "Byte mismatch at index " ++ toString index ++ ": " ++ id1 ++ "[" ++ toString index ++ "] == "
    ++ toString value_1.val ++ ", " ++ id2 ++ "[" ++ toString index ++ "] == "
    ++ toString value_2.val

/-- The body of the byte loop of `CheckEqualBuffers`; the state is `(result, messages)`. -/
def equalByteStep (cmd : CommandAssertEqual) (mapped0 mapped1 : Nat → Byte)
    (st : Bool × List Message) (index : Nat) : Bool × List Message :=
  let value_1 := mapped0 index
  let value_2 := mapped1 index
  if value_1 ≠ value_2 then
    (false, st.2 ++ [⟨.kError, cmd.start_token,
      byteMismatchText cmd.buffer_identifier_1 cmd.buffer_identifier_2 index value_1 value_2⟩])
  else st

/-- The byte loop of `CheckEqualBuffers` (lines 837-857). -/
def equalByteLoop (cmd : CommandAssertEqual) (size0 : Nat) (mapped0 mapped1 : Nat → Byte) :
    Bool × List Message :=
  (List.range size0).foldl (equalByteStep cmd mapped0 mapped1) (true, [])

/-- The helper `Executor::CheckEqualBuffers`. -/
def CheckEqualBuffers (ex : Executor) (dev : Device) (cmd : CommandAssertEqual) : Result :=
  if ex.created_buffers_.count cmd.buffer_identifier_1 = 0 then
    ⟨.fatal (.assertFailed "Expected a buffer"), []⟩
  else if ex.created_buffers_.count cmd.buffer_identifier_2 = 0 then
    ⟨.fatal (.assertFailed "Expected a buffer"), []⟩
  else
    match ex.created_buffers_.find cmd.buffer_identifier_1,
        ex.created_buffers_.find cmd.buffer_identifier_2 with
    | some b0, some b1 =>
      let size0 := dev.bufferSize b0
      let size1 := dev.bufferSize b1
      if size0 ≠ size1 then
        ⟨.returned false, [⟨.kError, cmd.start_token,
          lengthsText cmd.buffer_identifier_1 cmd.buffer_identifier_2 size0 size1⟩]⟩
      else
        match dev.mapBufferRange b0 with
        | none =>
          if dev.mapBufferError b0 then ⟨.fatal (.crash "glMapBufferRange"), []⟩
          else ⟨.returned false, []⟩
        | some mapped0 =>
          match dev.mapBufferRange b1 with
          | none =>
            if dev.mapBufferError b1 then ⟨.fatal (.crash "glMapBufferRange"), []⟩
            else ⟨.returned false, []⟩
          | some mapped1 =>
            let st := equalByteLoop cmd size0 mapped0 mapped1
            ⟨.returned st.1, st.2⟩
    | _, _ => ⟨.fatal .outOfRange, []⟩

/-- The handler `Executor::VisitAssertEqual`. -/
def VisitAssertEqual (ex : Executor) (dev : Device) (cmd : CommandAssertEqual) : Result :=
  if ex.created_renderbuffers_.count cmd.buffer_identifier_1 ≠ 0 then
    CheckEqualRenderbuffers ex dev cmd
  else if ex.created_buffers_.count cmd.buffer_identifier_1 = 0 then
    ⟨.fatal (.assertFailed "created_buffers_.count(GetBufferIdentifier1()) != 0"), []⟩
  else CheckEqualBuffers ex dev cmd

/-! ## `VisitAssertPixels` -/

/-- The byte `start_of_pixel[k]` that `assert-pixels` reads for script pixel `(x, y)`:
`data[(height - y - 1) * width * 4 + x * 4 + k]`. -/
def startOfPixel (width height : Nat) (data : Nat → Byte) (x y k : Nat) : Byte :=
  data ((height - y - 1) * width * 4 + x * 4 + k)

/-- The text of the diagnostic of `assert-pixels`. -/
def expectedPixelText (cmd : CommandAssertPixels) (r g b a : Byte) (x y : Nat) : String :=
  "Expected pixel (" ++ toString cmd.expected_r.val ++ ", " ++ toString cmd.expected_g.val ++ ", "
    ++ toString cmd.expected_b.val ++ ", " ++ toString cmd.expected_a.val ++ "), got ("
    ++ toString r.val ++ ", " ++ toString g.val ++ ", " ++ toString b.val ++ ", "
    ++ toString a.val ++ ") at " ++ cmd.renderbuffer_identifier ++ "[" ++ toString x ++ "]["
    ++ toString y ++ "]"

/-- The body of the pixel loops of `VisitAssertPixels` at `(x, y)`; the state is the list of
messages so far. -/
def assertPixelStep (cmd : CommandAssertPixels) (width height : Nat) (data : Nat → Byte)
    (y : Nat) (msgs : List Message) (x : Nat) : List Message :=
  let r := startOfPixel width height data x y 0
  let g := startOfPixel width height data x y 1
  let b := startOfPixel width height data x y 2
  let a := startOfPixel width height data x y 3
  if cmd.expected_r ≠ r ∨ cmd.expected_g ≠ g ∨ cmd.expected_b ≠ b ∨ cmd.expected_a ≠ a then
    msgs ++ [⟨.kError, cmd.start_token, expectedPixelText cmd r g b a x y⟩]
  else msgs

/-- The pixel loops of `VisitAssertPixels` (lines 83-119): `y` runs over
`[rectangle_y, rectangle_y + rectangle_height)` and `x` over
`[rectangle_x, rectangle_x + rectangle_width)`. -/
def assertPixelLoops (cmd : CommandAssertPixels) (width height : Nat) (data : Nat → Byte) :
    List Message :=
  (List.range' cmd.rectangle_y cmd.rectangle_height).foldl (fun msgs y =>
    (List.range' cmd.rectangle_x cmd.rectangle_width).foldl
      (assertPixelStep cmd width height data y) msgs) []

/-- The handler `Executor::VisitAssertPixels`.  The width and height are those the driver
reports for the renderbuffer bound to `GL_RENDERBUFFER`: the handler does not bind one. -/
def VisitAssertPixels (ex : Executor) (dev : Device) (cmd : CommandAssertPixels) : Result :=
  match ex.created_renderbuffers_.find cmd.renderbuffer_identifier with
  | none => ⟨.fatal .outOfRange, []⟩
  | some rb =>
    let width := dev.renderbufferWidth dev.boundRenderbuffer
    let height := dev.renderbufferHeight dev.boundRenderbuffer
    if !dev.framebufferComplete [rb] then
      ⟨.fatal (.crash framebufferProblem), []⟩
    else
      let data := dev.readPixels rb width height
      ⟨.returned true, assertPixelLoops cmd width height data⟩

/-- The value of a `size_t` expression: the integer result modulo `2 ^ 64`. -/
def sizeT (n : ℤ) : Nat := (n % 2 ^ 64).toNat

/-- The index `(height - y - 1) * width * 4 + x * 4` of `start_of_pixel` in `data`
(line 90), as the `size_t` arithmetic of the source computes it. -/
def startOfPixelIndex (width height x y : Nat) : Nat :=
  sizeT (((height : ℤ) - (y : ℤ) - 1) * (width : ℤ) * 4 + (x : ℤ) * 4)

/-- The indexes of `data` that the pixel loops of `VisitAssertPixels` read, in the order of
the loops: `start_of_pixel[0]` to `start_of_pixel[3]` for each `(x, y)` of the rectangle. -/
def assertPixelReads (cmd : CommandAssertPixels) (width height : Nat) : List Nat :=
  (List.range' cmd.rectangle_y cmd.rectangle_height).flatMap (fun y =>
    (List.range' cmd.rectangle_x cmd.rectangle_width).flatMap (fun x =>
      (List.range 4).map (fun k => startOfPixelIndex width height x y + k)))

/-- The memory accesses of `Executor::VisitAssertPixels`: the length
`width * height * CHANNELS` of the vector `data` it allocates (line 78) and the indexes of
`data` its loops read; `none` when the handler ends before the allocation. -/
def assertPixelsAccesses (ex : Executor) (dev : Device) (cmd : CommandAssertPixels) :
    Option (Nat × List Nat) :=
  match ex.created_renderbuffers_.find cmd.renderbuffer_identifier with
  | none => none
  | some rb =>
    let width := dev.renderbufferWidth dev.boundRenderbuffer
    let height := dev.renderbufferHeight dev.boundRenderbuffer
    if !dev.framebufferComplete [rb] then none
    else some (width * height * CHANNELS, assertPixelReads cmd width height)

/-! ## `VisitDumpRenderbuffer` -/

/-- The assignment `v[index] = value` on a vector. -/
def writeAt (v : Nat → Byte) (index : Nat) (value : Byte) : Nat → Byte :=
  fun j => if j = index then value else v j

/-- The row flip of `VisitDumpRenderbuffer` (lines 451-457): the value of `flipped_data`
after the loops, starting from a zero-filled vector. -/
def flippedData (width height : Nat) (data : Nat → Byte) : Nat → Byte :=
  (List.range height).foldl (fun flipped h =>
    (List.range (width * CHANNELS)).foldl (fun flipped col =>
      writeAt flipped (h * width * CHANNELS + col)
        (data ((height - h - 1) * width * CHANNELS + col))) flipped) (fun _ => 0)

/-- The handler `Executor::VisitDumpRenderbuffer`; the image handed to the encoder is
`flippedData width height data` with the width and height. -/
def VisitDumpRenderbuffer (ex : Executor) (dev : Device) (cmd : CommandDumpRenderbuffer) :
    Outcome :=
  match ex.created_renderbuffers_.find cmd.renderbuffer_identifier with
  | none => .fatal .outOfRange
  | some rb =>
    let width := dev.renderbufferWidth dev.boundRenderbuffer
    let height := dev.renderbufferHeight dev.boundRenderbuffer
    if !dev.framebufferComplete [rb] then .fatal (.crash framebufferProblem)
    else
      let data := dev.readPixels rb width height
      let flipped_data := flippedData width height data
      let png_error := dev.pngEncode cmd.filename flipped_data width height
      if png_error ≠ 0 then .fatal (.crash "lodepng") else .returned true

/-! ## Creation and declaration commands -/

/-- What a state-changing handler does: how it ends, and the executor afterwards. -/
structure Step where
  outcome : Outcome
  executor : Executor

/-- The constant `GL_NONE`. -/
def GL_NONE : Nat := 0
/-- The constant `GL_VERTEX_SHADER`. -/
def GL_VERTEX_SHADER : Nat := 0x8B31
/-- The constant `GL_FRAGMENT_SHADER`. -/
def GL_FRAGMENT_SHADER : Nat := 0x8B30
/-- The constant `GL_COMPUTE_SHADER`. -/
def GL_COMPUTE_SHADER : Nat := 0x91B9

/-- The handler `Executor::VisitDeclareShader`. -/
def VisitDeclareShader (ex : Executor) (cmd : CommandDeclareShader) : Step :=
  if ex.declared_shaders_.count cmd.result_identifier ≠ 0 then
    ⟨.fatal (.assertFailed "Shader with this name already declared."), ex⟩
  else
    ⟨.returned true,
      { ex with declared_shaders_ := ex.declared_shaders_.insert cmd.result_identifier cmd }⟩

/-- The handler `Executor::VisitCompileShader`. -/
def VisitCompileShader (ex : Executor) (dev : Device) (cmd : CommandCompileShader) : Step :=
  if ex.declared_shaders_.count cmd.shader_identifier ≠ 1 then
    ⟨.fatal (.assertFailed "Shader not declared."), ex⟩
  else if ex.compiled_shaders_.count cmd.result_identifier ≠ 0 then
    ⟨.fatal (.assertFailed "Identifier already in use for compiled shader."), ex⟩
  else
    match ex.declared_shaders_.find cmd.shader_identifier with
    | none => ⟨.fatal .outOfRange, ex⟩
    | some shader_declaration =>
      let shader_kind :=
        match shader_declaration.kind with
        | .VERTEX => GL_VERTEX_SHADER
        | .FRAGMENT => GL_FRAGMENT_SHADER
        | .COMPUTE => GL_COMPUTE_SHADER
      let shader := dev.createShader shader_kind
      let status := dev.compileStatus shader shader_declaration.shader_text
      if status = 0 then ⟨.fatal (.errcodeCrash "Shader compilation failed"), ex⟩
      else
        ⟨.returned true,
          { ex with compiled_shaders_ := ex.compiled_shaders_.insert cmd.result_identifier shader }⟩

/-- The handler `Executor::VisitCreateBuffer`. -/
def VisitCreateBuffer (ex : Executor) (dev : Device) (cmd : CommandCreateBuffer) : Step :=
  let buffer := dev.genBuffers
  ⟨.returned true,
    { ex with created_buffers_ := ex.created_buffers_.insert cmd.result_identifier buffer }⟩

/-- The handler `Executor::VisitCreateSampler`. -/
def VisitCreateSampler (ex : Executor) (dev : Device) (cmd : CommandCreateSampler) : Step :=
  let sampler := dev.genSamplers
  ⟨.returned true,
    { ex with created_samplers_ := ex.created_samplers_.insert cmd.result_identifier sampler }⟩

/-- The handler `Executor::VisitCreateEmptyTexture2D`. -/
def VisitCreateEmptyTexture2D (ex : Executor) (dev : Device)
    (cmd : CommandCreateEmptyTexture2D) : Step :=
  let texture := dev.genTextures
  ⟨.returned true,
    { ex with created_textures_ := ex.created_textures_.insert cmd.result_identifier texture }⟩

/-- The loop of `VisitCreateProgram` over the compiled shaders: the handles attached, or the
failure of the `assert` inside the loop. -/
def attachShaders (ex : Executor) : List String → Option (List GLuint)
  | [] => some []
  | id :: rest =>
    if ex.compiled_shaders_.count id ≠ 1 then none
    else
      match ex.compiled_shaders_.find id, attachShaders ex rest with
      | some shader, some attached => some (shader :: attached)
      | _, _ => none

/-- The handler `Executor::VisitCreateProgram`. -/
def VisitCreateProgram (ex : Executor) (dev : Device) (cmd : CommandCreateProgram) : Step :=
  if ex.created_programs_.count cmd.result_identifier ≠ 0 then
    ⟨.fatal (.assertFailed "Identifier already in use for created program."), ex⟩
  else
    let program := dev.createProgram
    if program = 0 then ⟨.fatal (.crash "glCreateProgram()"), ex⟩
    else
      match attachShaders ex cmd.compiled_shader_identifiers with
      | none => ⟨.fatal (.assertFailed "Compiled shader not found."), ex⟩
      | some attached =>
        let status := dev.linkStatus program attached
        if status = 0 then ⟨.fatal (.errcodeCrash "Program linking failed"), ex⟩
        else
          ⟨.returned true,
            { ex with created_programs_ :=
                ex.created_programs_.insert cmd.result_identifier program }⟩

/-- The handler `Executor::VisitCreateRenderbuffer`. -/
def VisitCreateRenderbuffer (ex : Executor) (dev : Device) (cmd : CommandCreateRenderbuffer) :
    Step :=
  let render_buffer := dev.genRenderbuffers
  ⟨.returned true,
    { ex with created_renderbuffers_ :=
        ex.created_renderbuffers_.insert cmd.result_identifier render_buffer }⟩

/-! ## Binding, parameter and uniform commands -/

/-- The command `BIND_SAMPLER`. -/
structure CommandBindSampler where
  sampler_identifier : String
  texture_unit : Nat
deriving DecidableEq, Repr

/-- The command `BIND_STORAGE_BUFFER` (`command_bind_storage_buffer.h`); the binding is a
`uint32_t`. -/
structure CommandBindStorageBuffer where
  start_token : Token
  storage_buffer_identifier : String
  binding : Nat
deriving DecidableEq, Repr

/-- The command `BIND_TEXTURE`. -/
structure CommandBindTexture where
  texture_identifier : String
  texture_unit : Nat
deriving DecidableEq, Repr

/-- The command `BIND_UNIFORM_BUFFER`. -/
structure CommandBindUniformBuffer where
  uniform_buffer_identifier : String
  binding : Nat
deriving DecidableEq, Repr

/-- The enum `CommandSetSamplerOrTextureParameter::TextureParameter`. -/
inductive TextureParameter
  | kMagFilter
  | kMinFilter
deriving DecidableEq, Repr

/-- The enum `CommandSetSamplerOrTextureParameter::TextureParameterValue`. -/
inductive TextureParameterValue
  | kNearest
  | kLinear
deriving DecidableEq, Repr

/-- The command `SET_SAMPLER_OR_TEXTURE_PARAMETER`. -/
structure CommandSetSamplerOrTextureParameter where
  target_texture_or_sampler : String
  parameter : TextureParameter
  parameter_value : TextureParameterValue
deriving DecidableEq, Repr

/-- The enum `UniformValue::ElementType`. -/
inductive ElementType
  | kFloat
  | kVec2
  | kVec3
  | kVec4
  | kInt
deriving DecidableEq, Repr

/-- The number of components of one element of a shape. -/
def ElementType.arity : ElementType → Nat
  | .kFloat => 1
  | .kVec2 => 2
  | .kVec3 => 3
  | .kVec4 => 4
  | .kInt => 1

/-- A `UniformValue`: the element shape, whether it is an array and of which size, and the
flat data `GetFloatData()` / `GetIntData()` point to. -/
structure UniformValue where
  element_type : ElementType
  is_array : Bool
  array_size : Nat
  float_data : List Dbl
  int_data : List Int
deriving DecidableEq

/-- The element `GetFloatData()[i]`. -/
def UniformValue.floatAt (v : UniformValue) (i : Nat) : Dbl := v.float_data.getD i (Dbl.fin 0)

/-- The element `GetIntData()[i]`. -/
def UniformValue.intAt (v : UniformValue) (i : Nat) : Int := v.int_data.getD i 0

/-- The command `SET_UNIFORM`. -/
structure CommandSetUniform where
  program_identifier : String
  location : Nat
  value : UniformValue
deriving DecidableEq

/-- The handler `Executor::VisitBindSampler`. -/
def VisitBindSampler (ex : Executor) (cmd : CommandBindSampler) : Trace :=
  match ex.created_samplers_.find cmd.sampler_identifier with
  | none => ⟨.fatal .outOfRange, []⟩
  | some sampler => ⟨.returned true, [.glBindSampler cmd.texture_unit sampler]⟩

/-- The handler `Executor::VisitBindStorageBuffer`: the argument
`created_buffers_.at(...)` is evaluated before `glBindBufferBase` is called. -/
def VisitBindStorageBuffer (ex : Executor) (cmd : CommandBindStorageBuffer) : Trace :=
  match ex.created_buffers_.find cmd.storage_buffer_identifier with
  | none => ⟨.fatal .outOfRange, []⟩
  | some buffer =>
    ⟨.returned true, [.glBindBufferBase GL_SHADER_STORAGE_BUFFER cmd.binding buffer]⟩

/-- The handler `Executor::VisitBindTexture`. -/
def VisitBindTexture (ex : Executor) (cmd : CommandBindTexture) : Trace :=
  match ex.created_textures_.find cmd.texture_identifier with
  | none => ⟨.fatal .outOfRange, [.glActiveTexture (GL_TEXTURE0 + cmd.texture_unit)]⟩
  | some texture =>
    ⟨.returned true,
      [.glActiveTexture (GL_TEXTURE0 + cmd.texture_unit), .glBindTexture GL_TEXTURE_2D texture]⟩

/-- The handler `Executor::VisitBindUniformBuffer`. -/
def VisitBindUniformBuffer (ex : Executor) (cmd : CommandBindUniformBuffer) : Trace :=
  match ex.created_buffers_.find cmd.uniform_buffer_identifier with
  | none => ⟨.fatal .outOfRange, []⟩
  | some buffer => ⟨.returned true, [.glBindBufferBase GL_UNIFORM_BUFFER cmd.binding buffer]⟩

/-- The handler `Executor::VisitSetSamplerOrTextureParameter`. -/
def VisitSetSamplerOrTextureParameter (ex : Executor)
    (cmd : CommandSetSamplerOrTextureParameter) : Trace :=
  let parameter :=
    match cmd.parameter with
    | .kMagFilter => GL_TEXTURE_MAG_FILTER
    | .kMinFilter => GL_TEXTURE_MIN_FILTER
  let parameter_value :=
    match cmd.parameter_value with
    | .kNearest => GL_NEAREST
    | .kLinear => GL_LINEAR
  if ex.created_samplers_.count cmd.target_texture_or_sampler > 0 then
    match ex.created_samplers_.find cmd.target_texture_or_sampler with
    | none => ⟨.fatal .outOfRange, []⟩
    | some sampler => ⟨.returned true, [.glSamplerParameteri sampler parameter parameter_value]⟩
  else if ¬ ex.created_textures_.count cmd.target_texture_or_sampler > 0 then
    ⟨.fatal (.assertFailed "Unknown texture or sampler."), []⟩
  else
    match ex.created_textures_.find cmd.target_texture_or_sampler with
    | none => ⟨.fatal .outOfRange, []⟩
    | some texture =>
      ⟨.returned true,
        [.glBindTexture GL_TEXTURE_2D texture,
         .glTexParameteri GL_TEXTURE_2D parameter parameter_value]⟩

/-- The `switch` of `VisitSetUniform`: the device call chosen for a uniform value. -/
def uniformCall (program : GLuint) (uniform_location : Nat) (uniform_value : UniformValue) :
    GLCall :=
  match uniform_value.element_type with
  | .kFloat =>
    if uniform_value.is_array then
      .glProgramUniform1fv program uniform_location uniform_value.array_size
        uniform_value.float_data
    else .glProgramUniform1f program uniform_location (uniform_value.floatAt 0)
  | .kVec2 =>
    if uniform_value.is_array then
      .glProgramUniform2fv program uniform_location uniform_value.array_size
        uniform_value.float_data
    else
      .glProgramUniform2f program uniform_location (uniform_value.floatAt 0)
        (uniform_value.floatAt 1)
  | .kVec3 =>
    if uniform_value.is_array then
      .glProgramUniform3fv program uniform_location uniform_value.array_size
        uniform_value.float_data
    else
      .glProgramUniform3f program uniform_location (uniform_value.floatAt 0)
        (uniform_value.floatAt 1) (uniform_value.floatAt 2)
  | .kVec4 =>
    if uniform_value.is_array then
      .glProgramUniform4fv program uniform_location uniform_value.array_size
        uniform_value.float_data
    else
      .glProgramUniform4f program uniform_location (uniform_value.floatAt 0)
        (uniform_value.floatAt 1) (uniform_value.floatAt 2) (uniform_value.floatAt 3)
  | .kInt =>
    if uniform_value.is_array then
      .glProgramUniform1iv program uniform_location uniform_value.array_size
        uniform_value.int_data
    else .glProgramUniform1i program uniform_location (uniform_value.intAt 0)

/-- The handler `Executor::VisitSetUniform`. -/
def VisitSetUniform (ex : Executor) (cmd : CommandSetUniform) : Trace :=
  match ex.created_programs_.find cmd.program_identifier with
  | none => ⟨.fatal .outOfRange, []⟩
  | some program => ⟨.returned true, [uniformCall program cmd.location cmd.value]⟩

/-! ## Run commands -/

/-- The command `RUN_COMPUTE`. -/
structure CommandRunCompute where
  program_identifier : String
  num_groups_x : Nat
  num_groups_y : Nat
  num_groups_z : Nat
deriving DecidableEq, Repr

/-- A `VertexAttributeInfo`. -/
structure VertexAttributeInfo where
  buffer_identifier : String
  offset_bytes : Nat
  stride_bytes : Nat
  dimension : Nat
deriving DecidableEq, Repr

/-- A map keyed by `size_t` (vertex data, framebuffer attachments), as the list of its
entries in iteration order. -/
structure SlotMap (α : Type) where
  entries : List (Nat × α)

namespace SlotMap

/-- The value stored at a slot, if any; the member `at` throws when this is `none`. -/
def find {α : Type} (m : SlotMap α) (slot : Nat) : Option α := List.lookup slot m.entries

/-- The member `count`. -/
def count {α : Type} (m : SlotMap α) (slot : Nat) : Nat := if (m.find slot).isSome then 1 else 0

/-- The member `size`. -/
def size {α : Type} (m : SlotMap α) : Nat := m.entries.length

end SlotMap

/-- The enum `CommandRunGraphics::Topology`. -/
inductive Topology
  | kTriangles
deriving DecidableEq, Repr

/-- The command `RUN_GRAPHICS`. -/
structure CommandRunGraphics where
  program_identifier : String
  vertex_data : SlotMap VertexAttributeInfo
  index_data_buffer_identifier : String
  vertex_count : Nat
  topology : Topology
  framebuffer_attachments : SlotMap String

/-- The handler `Executor::VisitRunCompute`. -/
def VisitRunCompute (ex : Executor) (cmd : CommandRunCompute) : Trace :=
  match ex.created_programs_.find cmd.program_identifier with
  | none => ⟨.fatal .outOfRange, [.glMemoryBarrier GL_ALL_BARRIER_BITS]⟩
  | some program =>
    ⟨.returned true,
      [.glMemoryBarrier GL_ALL_BARRIER_BITS, .glUseProgram program,
       .glDispatchCompute cmd.num_groups_x cmd.num_groups_y cmd.num_groups_z, .glFlush]⟩

/-- The first loop of `VisitRunGraphics` over the vertex data, continuing the list of calls
issued so far; `returned true` stands for reaching the end of the loop. -/
def bindVertexData (ex : Executor) (calls : List GLCall) :
    List (Nat × VertexAttributeInfo) → Trace
  | [] => ⟨.returned true, calls⟩
  | entry :: rest =>
    match ex.created_buffers_.find entry.2.buffer_identifier with
    | none => ⟨.fatal .outOfRange, calls⟩
    | some buffer =>
      bindVertexData ex
        (calls ++ [.glBindBuffer GL_ARRAY_BUFFER buffer, .glEnableVertexAttribArray entry.1,
          .glVertexAttribPointer entry.1 entry.2.dimension GL_FLOAT entry.2.stride_bytes
            entry.2.offset_bytes]) rest

/-- The loop computing `max_location`: the largest key, starting from `0`. -/
def maxLocation (framebuffer_attachments : SlotMap String) : Nat :=
  framebuffer_attachments.entries.foldl (fun max_location entry => Max.max max_location entry.1) 0

/-- The state of the loop over the slots `0..max_location`: the attachment calls issued, the
vector `draw_buffers`, and whether an `at` has thrown. -/
structure AttachState where
  calls : List GLCall
  draw_buffers : List Nat
  failed : Bool
deriving DecidableEq

/-- One iteration of the loop of `VisitRunGraphics` over the slots (lines 512-528). -/
def attachStep (ex : Executor) (framebuffer_attachments : SlotMap String) (st : AttachState)
    (i : Nat) : AttachState :=
  if st.failed then st
  else if framebuffer_attachments.count i > 0 then
    let color_attachment := GL_COLOR_ATTACHMENT0 + i
    match framebuffer_attachments.find i with
    | none => { st with failed := true }
    | some output_buffer =>
      if ex.created_renderbuffers_.count output_buffer ≠ 0 then
        match ex.created_renderbuffers_.find output_buffer with
        | none => { st with failed := true }
        | some renderbuffer =>
          ⟨st.calls ++ [.glFramebufferRenderbuffer color_attachment renderbuffer],
            st.draw_buffers ++ [color_attachment], false⟩
      else
        match ex.created_textures_.find output_buffer with
        | none => { st with failed := true }
        | some texture =>
          ⟨st.calls ++ [.glFramebufferTexture color_attachment texture 0],
            st.draw_buffers ++ [color_attachment], false⟩
  else ⟨st.calls, st.draw_buffers ++ [GL_NONE], false⟩

/-- The loop of `VisitRunGraphics` over the slots `0..max_location`. -/
def attachLoop (ex : Executor) (framebuffer_attachments : SlotMap String) : AttachState :=
  (List.range (maxLocation framebuffer_attachments + 1)).foldl
    (attachStep ex framebuffer_attachments) ⟨[], [], false⟩

/-- The handler `Executor::VisitRunGraphics`. -/
def VisitRunGraphics (ex : Executor) (dev : Device) (cmd : CommandRunGraphics) : Trace :=
  match bindVertexData ex [.glMemoryBarrier GL_ALL_BARRIER_BITS] cmd.vertex_data.entries with
  | ⟨.fatal why, calls⟩ => ⟨.fatal why, calls⟩
  | ⟨.returned _, calls⟩ =>
    match ex.created_programs_.find cmd.program_identifier with
    | none => ⟨.fatal .outOfRange, calls⟩
    | some program =>
      let framebuffer_object_id := dev.genFramebuffers
      let calls := calls ++ [.glUseProgram program, .glGenFramebuffers framebuffer_object_id,
        .glBindFramebuffer framebuffer_object_id]
      if ¬ cmd.framebuffer_attachments.size ≤ 32 then
        ⟨.fatal (.assertFailed "Too many renderbuffers."), calls⟩
      else
        let st := attachLoop ex cmd.framebuffer_attachments
        if st.failed then ⟨.fatal .outOfRange, calls ++ st.calls⟩
        else if !dev.drawFramebufferComplete st.calls then
          ⟨.fatal (.crash framebufferProblem), calls ++ st.calls⟩
        else
          let calls := calls ++ st.calls ++
            [.glDrawBuffers st.draw_buffers.length st.draw_buffers,
             .glClearColor (Dbl.fin 0) (Dbl.fin 0) (Dbl.fin 0) (Dbl.fin 1),
             .glClear GL_COLOR_BUFFER_BIT]
          match ex.created_buffers_.find cmd.index_data_buffer_identifier with
          | none => ⟨.fatal .outOfRange, calls⟩
          | some index_buffer =>
            let topology :=
              match cmd.topology with
              | .kTriangles => GL_TRIANGLES
            ⟨.returned true,
              calls ++ [.glBindBuffer GL_ELEMENT_ARRAY_BUFFER index_buffer,
                .glDrawElements topology cmd.vertex_count GL_UNSIGNED_INT, .glFlush]
              ++ cmd.vertex_data.entries.map (fun entry => .glDisableVertexAttribArray entry.1)
              ++ [.glDeleteFramebuffers framebuffer_object_id]⟩

/-! ## Dispatch and runs -/

/-- A parsed command: one alternative per command class. -/
inductive Command
  | assertEqual (c : CommandAssertEqual)
  | assertPixels (c : CommandAssertPixels)
  | assertSimilarEmdHistogram (c : CommandAssertSimilarEmdHistogram)
  | bindSampler (c : CommandBindSampler)
  | bindStorageBuffer (c : CommandBindStorageBuffer)
  | bindTexture (c : CommandBindTexture)
  | bindUniformBuffer (c : CommandBindUniformBuffer)
  | compileShader (c : CommandCompileShader)
  | createBuffer (c : CommandCreateBuffer)
  | createSampler (c : CommandCreateSampler)
  | createEmptyTexture2D (c : CommandCreateEmptyTexture2D)
  | createProgram (c : CommandCreateProgram)
  | createRenderbuffer (c : CommandCreateRenderbuffer)
  | declareShader (c : CommandDeclareShader)
  | dumpRenderbuffer (c : CommandDumpRenderbuffer)
  | runCompute (c : CommandRunCompute)
  | runGraphics (c : CommandRunGraphics)
  | setSamplerOrTextureParameter (c : CommandSetSamplerOrTextureParameter)
  | setUniform (c : CommandSetUniform)

/-- Modelled from the spec: the dispatch `Command::Accept`, whose bodies are not among the
sources, routes each command to its handler.  The handlers that only call `count` and `at`
on the tables leave the executor as it is. -/
def Accept (to_string : Dbl → String) (ex : Executor) (dev : Device) : Command → Step
  | .assertEqual c => ⟨(VisitAssertEqual ex dev c).outcome, ex⟩
  | .assertPixels c => ⟨(VisitAssertPixels ex dev c).outcome, ex⟩
  | .assertSimilarEmdHistogram c => ⟨(VisitAssertSimilarEmdHistogram to_string ex dev c).outcome, ex⟩
  | .bindSampler c => ⟨(VisitBindSampler ex c).outcome, ex⟩
  | .bindStorageBuffer c => ⟨(VisitBindStorageBuffer ex c).outcome, ex⟩
  | .bindTexture c => ⟨(VisitBindTexture ex c).outcome, ex⟩
  | .bindUniformBuffer c => ⟨(VisitBindUniformBuffer ex c).outcome, ex⟩
  | .compileShader c => VisitCompileShader ex dev c
  | .createBuffer c => VisitCreateBuffer ex dev c
  | .createSampler c => VisitCreateSampler ex dev c
  | .createEmptyTexture2D c => VisitCreateEmptyTexture2D ex dev c
  | .createProgram c => VisitCreateProgram ex dev c
  | .createRenderbuffer c => VisitCreateRenderbuffer ex dev c
  | .declareShader c => VisitDeclareShader ex c
  | .dumpRenderbuffer c => ⟨VisitDumpRenderbuffer ex dev c, ex⟩
  | .runCompute c => ⟨(VisitRunCompute ex c).outcome, ex⟩
  | .runGraphics c => ⟨(VisitRunGraphics ex dev c).outcome, ex⟩
  | .setSamplerOrTextureParameter c => ⟨(VisitSetSamplerOrTextureParameter ex c).outcome, ex⟩
  | .setUniform c => ⟨(VisitSetUniform ex c).outcome, ex⟩

/-- Modelled from the spec: the driver calls the dispatcher once per command, in list order,
each command seeing the device as it is then; a fatal outcome ends the run.  The value is
the executor when the run ends. -/
def runCommands (to_string : Dbl → String) (ex : Executor) : List (Device × Command) → Executor
  | [] => ex
  | (dev, cmd) :: rest =>
    match Accept to_string ex dev cmd with
    | ⟨.returned _, ex1⟩ => runCommands to_string ex1 rest
    | ⟨.fatal _, ex1⟩ => ex1

/-! ## Concrete devices and executors used to instantiate the theorems -/

/-- A driver whose renderbuffers have the given sizes and readback bytes, whose buffers have
the given contents, and for which every other call succeeds. -/
def testDevice (dims : GLuint → Nat × Nat) (pixels : GLuint → Nat → Byte)
    (buffers : GLuint → List Byte) : Device where
  renderbufferWidth := fun rb => (dims rb).1
  renderbufferHeight := fun rb => (dims rb).2
  boundRenderbuffer := 1
  framebufferComplete := fun _ => true
  readPixels := fun rb _ _ => pixels rb
  bufferSize := fun b => (buffers b).length
  mapBufferRange := fun b => some (fun i => (buffers b).getD i 0)
  mapBufferError := fun _ => false
  genBuffers := 10
  genSamplers := 11
  genTextures := 12
  genRenderbuffers := 13
  createShader := fun _ => 14
  compileStatus := fun _ _ => 1
  createProgram := 15
  linkStatus := fun _ _ => 1
  pngEncode := fun _ _ _ _ => 0
  genFramebuffers := 16
  drawFramebufferComplete := fun _ => true

/-- An executor that has created renderbuffers `a`, `b` and buffers `buf`, `buf2`. -/
def testExecutor : Executor where
  declared_shaders_ := ⟨[]⟩
  compiled_shaders_ := ⟨[]⟩
  created_programs_ := ⟨[]⟩
  created_buffers_ := ⟨[("buf", 3), ("buf2", 4)]⟩
  created_renderbuffers_ := ⟨[("a", 1), ("b", 2)]⟩
  created_samplers_ := ⟨[]⟩
  created_textures_ := ⟨[]⟩

/-- What `glReadPixels(0, 0, w, h, GL_RGBA, GL_UNSIGNED_BYTE)` stores for an attachment whose
image is `nativeWidth` pixels wide and holds the bytes `native` (rows from the bottom): the
lower left `w × h` region, row after row. -/
def readRegion (nativeWidth : Nat) (native : Nat → Byte) (w : Nat) : Nat → Byte :=
  fun i => native (((i / 4) / w * nativeWidth + (i / 4) % w) * 4 + i % 4)

/-- The bytes of a `2 × 2` image, rows from the bottom: pixel `p` of that order holds
`(4p, 4p + 1, 4p + 2, 4p + 3)`. -/
def countingImage : Nat → Byte :=
  fun i => ([0, 1, 2, 3, 4, 5, 6, 7, 8, 9, 10, 11, 12, 13, 14, 15] : List Byte).getD i 0

/-- The driver after `CREATE_RENDERBUFFER a` (2 × 2, handle 1) followed by
`CREATE_RENDERBUFFER b` (1 × 1, handle 2) and rendering: `VisitCreateRenderbuffer` binds the
renderbuffer it creates (line 398), so `b` is the one bound to `GL_RENDERBUFFER`; `a` holds
`countingImage`, `b` is black. -/
def lastCreatedBoundDevice : Device where
  renderbufferWidth := fun rb => if rb = 1 then 2 else 1
  renderbufferHeight := fun rb => if rb = 1 then 2 else 1
  boundRenderbuffer := 2
  framebufferComplete := fun _ => true
  readPixels := fun rb w _ => if rb = 1 then readRegion 2 countingImage w else fun _ => 0
  bufferSize := fun _ => 0
  mapBufferRange := fun _ => none
  mapBufferError := fun _ => false
  genBuffers := 10
  genSamplers := 11
  genTextures := 12
  genRenderbuffers := 13
  createShader := fun _ => 14
  compileStatus := fun _ _ => 1
  createProgram := 15
  linkStatus := fun _ _ => 1
  pngEncode := fun _ _ _ _ => 0
  genFramebuffers := 16
  drawFramebufferComplete := fun _ => true

/-- The same driver with renderbuffer `a` bound to `GL_RENDERBUFFER`. -/
def namedBoundDevice : Device :=
  { lastCreatedBoundDevice with boundRenderbuffer := 1 }

/-- A `3 × 1` image of three black transparent pixels. -/
def blackRow : Nat → Byte := fun _ => 0

/-- A `3 × 1` image whose pixels have all four channels equal to `0`, `1` and `2`. -/
def rampRow : Nat → Byte := fun i => if i < 4 then 0 else if i < 8 then 1 else 2

/-- A driver whose renderbuffers are `3 × 1`: `a` (handle 1) holds `blackRow`, every other
one `rampRow`. -/
def rowsDevice : Device :=
  testDevice (fun _ => (3, 1)) (fun rb => if rb = 1 then blackRow else rampRow) (fun _ => [])

/-- A rendering of a double that shows its exact value as a fraction (`std::to_string`
prints six decimals). -/
def showDbl : Dbl → String
  | .fin q => toString q.num ++ "/" ++ toString q.den
  | .inf false => "inf"
  | .inf true => "-inf"
  | .nan => "nan"

/-! ## Specification-side definitions for the draw targets -/

/-- The draw target of slot `i`: color attachment `i` when the slot has an entry, `GL_NONE`
when it has none. -/
def drawTarget (framebuffer_attachments : SlotMap String) (i : Nat) : Nat :=
  if (framebuffer_attachments.find i).isSome then GL_COLOR_ATTACHMENT0 + i else GL_NONE

/-- The attachment call for slot `i`: none for a slot without entry; a renderbuffer
attachment when the identifier is in the renderbuffer table, a texture attachment
otherwise. -/
def attachCall (ex : Executor) (framebuffer_attachments : SlotMap String) (i : Nat) :
    Option GLCall :=
  match framebuffer_attachments.find i with
  | none => none
  | some output_buffer =>
    match ex.created_renderbuffers_.find output_buffer with
    | some renderbuffer =>
      some (.glFramebufferRenderbuffer (GL_COLOR_ATTACHMENT0 + i) renderbuffer)
    | none =>
      match ex.created_textures_.find output_buffer with
      | some texture => some (.glFramebufferTexture (GL_COLOR_ATTACHMENT0 + i) texture 0)
      | none => none

/-- Every attached identifier names a renderbuffer or a texture. -/
def attachmentsResolve (ex : Executor) (framebuffer_attachments : SlotMap String) : Prop :=
  ∀ i output_buffer, framebuffer_attachments.find i = some output_buffer →
    (ex.created_renderbuffers_.find output_buffer).isSome = true ∨
    (ex.created_textures_.find output_buffer).isSome = true

/-! ## Specification-side definitions for uniforms -/

/-- The device entry points for uniforms: the scalar entry point of a shape
(`glProgramUniform1f`, `2f`, `3f`, `4f`, `1i`) or its vector/array entry point
(`glProgramUniform1fv`, `2fv`, `3fv`, `4fv`, `1iv`). -/
inductive UniformEntryPoint
  | scalar (shape : ElementType)
  | vector (shape : ElementType)
deriving DecidableEq, Repr

/-- The uniform entry point a device call belongs to, if any. -/
def GLCall.uniformEntryPoint : GLCall → Option UniformEntryPoint
  | .glProgramUniform1f _ _ _ => some (.scalar .kFloat)
  | .glProgramUniform2f _ _ _ _ => some (.scalar .kVec2)
  | .glProgramUniform3f _ _ _ _ _ => some (.scalar .kVec3)
  | .glProgramUniform4f _ _ _ _ _ _ => some (.scalar .kVec4)
  | .glProgramUniform1i _ _ _ => some (.scalar .kInt)
  | .glProgramUniform1fv _ _ _ _ => some (.vector .kFloat)
  | .glProgramUniform2fv _ _ _ _ => some (.vector .kVec2)
  | .glProgramUniform3fv _ _ _ _ => some (.vector .kVec3)
  | .glProgramUniform4fv _ _ _ _ => some (.vector .kVec4)
  | .glProgramUniform1iv _ _ _ _ => some (.vector .kInt)
  | _ => none

/-- The `count` argument of a vector/array uniform call. -/
def GLCall.uniformCount : GLCall → Option Nat
  | .glProgramUniform1fv _ _ count _ => some count
  | .glProgramUniform2fv _ _ count _ => some count
  | .glProgramUniform3fv _ _ count _ => some count
  | .glProgramUniform4fv _ _ count _ => some count
  | .glProgramUniform1iv _ _ count _ => some count
  | _ => none

/-- The program and location a uniform call is made for. -/
def GLCall.uniformTarget : GLCall → Option (GLuint × Nat)
  | .glProgramUniform1f program location _ => some (program, location)
  | .glProgramUniform2f program location _ _ => some (program, location)
  | .glProgramUniform3f program location _ _ _ => some (program, location)
  | .glProgramUniform4f program location _ _ _ _ => some (program, location)
  | .glProgramUniform1i program location _ => some (program, location)
  | .glProgramUniform1fv program location _ _ => some (program, location)
  | .glProgramUniform2fv program location _ _ => some (program, location)
  | .glProgramUniform3fv program location _ _ => some (program, location)
  | .glProgramUniform4fv program location _ _ => some (program, location)
  | .glProgramUniform1iv program location _ _ => some (program, location)
  | _ => none

/-- The `float` values a uniform call passes: its scalar arguments, or the data its pointer
argument points to. -/
def GLCall.uniformFloats : GLCall → List Dbl
  | .glProgramUniform1f _ _ v0 => [v0]
  | .glProgramUniform2f _ _ v0 v1 => [v0, v1]
  | .glProgramUniform3f _ _ v0 v1 v2 => [v0, v1, v2]
  | .glProgramUniform4f _ _ v0 v1 v2 v3 => [v0, v1, v2, v3]
  | .glProgramUniform1fv _ _ _ value => value
  | .glProgramUniform2fv _ _ _ value => value
  | .glProgramUniform3fv _ _ _ value => value
  | .glProgramUniform4fv _ _ _ value => value
  | _ => []

/-- The `int` values a uniform call passes. -/
def GLCall.uniformInts : GLCall → List Int
  | .glProgramUniform1i _ _ v0 => [v0]
  | .glProgramUniform1iv _ _ _ value => value
  | _ => []

/-- The flat data of a uniform value holds at least one element of its shape. -/
def UniformValue.HasElement (v : UniformValue) : Prop :=
  if v.element_type = .kInt then 1 ≤ v.int_data.length
  else v.element_type.arity ≤ v.float_data.length

/-! ## Specification-side definitions for the registry -/

/-- Every entry of `t` is still in `t1` with the same value. -/
def Table.KeptIn {α : Type} (t t1 : Table α) : Prop :=
  ∀ id value, t.find id = some value → t1.find id = some value

/-- Every `(kind, identifier)` entry of `ex` is still in `ex1` and maps to the same value. -/
def registryKept (ex ex1 : Executor) : Prop :=
  ex.declared_shaders_.KeptIn ex1.declared_shaders_ ∧
  ex.compiled_shaders_.KeptIn ex1.compiled_shaders_ ∧
  ex.created_programs_.KeptIn ex1.created_programs_ ∧
  ex.created_buffers_.KeptIn ex1.created_buffers_ ∧
  ex.created_renderbuffers_.KeptIn ex1.created_renderbuffers_ ∧
  ex.created_samplers_.KeptIn ex1.created_samplers_ ∧
  ex.created_textures_.KeptIn ex1.created_textures_

/-! ## Specification-side definitions for the pixel assertions -/

/-- Whether script pixel `(x, y)` differs between two readbacks of a `width × height`
renderbuffer in at least one of its four components (readback row `height - y - 1`). -/
def pixelsDiffer (width height : Nat) (data0 data1 : Nat → Byte) (x y : Nat) : Bool :=
  decide (∃ k, k < 4 ∧ data0 ((height - y - 1) * width * 4 + x * 4 + k)
    ≠ data1 ((height - y - 1) * width * 4 + x * 4 + k))

/-- The message `CheckEqualRenderbuffers` emits for a differing pixel `(x, y)`. -/
def pixelMismatchMessage (cmd : CommandAssertEqual) (width height : Nat)
    (data0 data1 : Nat → Byte) (x y : Nat) : Message :=
  ⟨.kError, cmd.start_token, pixelMismatchText cmd.buffer_identifier_1 cmd.buffer_identifier_2
    x y data0 data1 ((height - y - 1) * width * 4 + x * 4)⟩

/-! ## Specification-side definitions for the histogram metric -/

/-- The number of pixels `(x, y)` of a `width × height` RGBA8 image whose channel `c` has the
value `j` (the quantity `H[c][j]` of the specification). -/
def specPixelCount (width height : Nat) (data : Nat → Byte) (c j : Nat) : Nat :=
  ((Finset.range width ×ˢ Finset.range height).filter
    (fun p => (data ((p.2 * width + p.1) * 4 + c)).val = j)).card

/-- The per-channel distance of the specification:
`(1/256) * Σ_{i < 256} | Σ_{j ≤ i} (H0[c][j] - H1[c][j]) / N |`. -/
def specChannelEmd (H0 H1 : Nat → Nat → Nat) (N c : Nat) : ℚ :=
  (1 / 256) * ∑ i in Finset.range 256,
    |(∑ j in Finset.range (i + 1), ((H0 c j : ℚ) - (H1 c j : ℚ))) / (N : ℚ)|

/-- The metric of the specification: the maximum of the per-channel distance over the four
channels, with `N = width * height`. -/
def specMetric (width height : Nat) (data0 data1 : Nat → Byte) : ℚ :=
  let e := specChannelEmd (specPixelCount width height data0) (specPixelCount width height data1)
    (width * height)
  Max.max (e 0) (Max.max (e 1) (Max.max (e 2) (e 3)))

/-! ## Histogram lemmas -/

theorem foldl_range_succ {β : Type} (f : β → Nat → β) (b : β) (n : Nat) :
    (List.range (n + 1)).foldl f b = f ((List.range n).foldl f b) n := by
  rw [List.range_succ, List.foldl_append]
  rfl

theorem channel_loop_apply (f : Nat → Nat) (h0 : Histogram) (c b : Nat) :
    ((List.range 4).foldl (fun h channel => Histogram.increment h channel (f channel)) h0) c b
      = h0 c b + if c < 4 ∧ f c = b then 1 else 0 := by
  have h4 : List.range 4 = [0, 1, 2, 3] := by decide
  rw [h4]
  simp only [List.foldl, Histogram.increment]
  rcases (show c = 0 ∨ c = 1 ∨ c = 2 ∨ c = 3 ∨ 4 ≤ c by omega) with h | h | h | h | h
  · subst h; by_cases hb : b = f 0 <;> simp [hb, eq_comm]
  · subst h; by_cases hb : b = f 1 <;> simp [hb, eq_comm]
  · subst h; by_cases hb : b = f 2 <;> simp [hb, eq_comm]
  · subst h; by_cases hb : b = f 3 <;> simp [hb, eq_comm]
  · have h0' : c ≠ 0 := by omega
    have h1' : c ≠ 1 := by omega
    have h2' : c ≠ 2 := by omega
    have h3' : c ≠ 3 := by omega
    have h4' : ¬ c < 4 := by omega
    simp [h0', h1', h2', h3', h4']

theorem row_loop_apply (g : Nat → Nat → Nat) (n : Nat) (h0 : Histogram) (c b : Nat) :
    ((List.range n).foldl (fun h x =>
        (List.range 4).foldl (fun h channel => Histogram.increment h channel (g x channel)) h) h0)
      c b = h0 c b + ∑ x in Finset.range n, if c < 4 ∧ g x c = b then 1 else 0 := by
  induction n with
  | zero => simp
  | succ n ih =>
    rw [foldl_range_succ, Finset.sum_range_succ, channel_loop_apply, ih, Nat.add_assoc]

theorem buildHistogram_apply (width height : Nat) (data : Nat → Byte) (c b : Nat) :
    buildHistogram width height data c b
      = ∑ y in Finset.range height, ∑ x in Finset.range width,
          if c < 4 ∧ (data (y * width * 4 + x * 4 + c)).val = b then 1 else 0 := by
  unfold buildHistogram
  suffices H : ∀ (n : Nat) (h0 : Histogram),
      ((List.range n).foldl (fun h y =>
        (List.range width).foldl (fun h x =>
          (List.range 4).foldl (fun h channel =>
            Histogram.increment h channel (data (y * width * 4 + x * 4 + channel)).val) h) h)
        h0) c b
      = h0 c b + ∑ y in Finset.range n, ∑ x in Finset.range width,
          if c < 4 ∧ (data (y * width * 4 + x * 4 + c)).val = b then 1 else 0 by
    rw [H]; simp
  intro n
  induction n with
  | zero => intro h0; simp
  | succ n ih =>
    intro h0
    rw [foldl_range_succ, Finset.sum_range_succ,
      row_loop_apply (fun x channel => (data (n * width * 4 + x * 4 + channel)).val), ih,
      Nat.add_assoc]

theorem specPixelCount_eq_sum (width height : Nat) (data : Nat → Byte) (c j : Nat) :
    specPixelCount width height data c j
      = ∑ y in Finset.range height, ∑ x in Finset.range width,
          if (data (y * width * 4 + x * 4 + c)).val = j then 1 else 0 := by
  unfold specPixelCount
  rw [Finset.card_filter, Finset.sum_product_right]
  refine Finset.sum_congr rfl (fun y _ => Finset.sum_congr rfl (fun x _ => ?_))
  have hidx : (y * width + x) * 4 + c = y * width * 4 + x * 4 + c := by ring
  simp only [hidx]

/-- The histogram the loops build is the pixel count of the specification on the four
channels. -/
theorem buildHistogram_eq_specPixelCount (width height : Nat) (data : Nat → Byte) (c j : Nat)
    (hc : c < 4) :
    buildHistogram width height data c j = specPixelCount width height data c j := by
  rw [buildHistogram_apply, specPixelCount_eq_sum]
  simp [hc]

/-! ## Lemmas on the distance loop -/

theorem Dbl.add_nan_right (x : Dbl) : Dbl.add x Dbl.nan = Dbl.nan := by
  cases x <;> rfl

theorem Dbl.max_nan_right (x : Dbl) : Dbl.max x Dbl.nan = x := by
  cases x <;> rfl

theorem Dbl.max_fin_fin (a b : ℚ) : Dbl.max (Dbl.fin a) (Dbl.fin b) = Dbl.fin (Max.max a b) := by
  unfold Dbl.max Dbl.lt
  by_cases h : a < b
  · simp [h, max_eq_right h.le]
  · simp [h, max_eq_left (not_lt.mp h)]

theorem Dbl.ofNat_div_ofNat (h n : Nat) (hn : 0 < n) :
    Dbl.div (Dbl.ofNat h) (Dbl.ofNat n) = Dbl.fin ((h : ℚ) / (n : ℚ)) := by
  have hq : (n : ℚ) ≠ 0 := by exact_mod_cast hn.ne'
  simp [Dbl.div, Dbl.ofNat, hq]

theorem emdStep_fin (hist0 hist1 : Histogram) (n c : Nat) (hn : 0 < n) (t a : ℚ) (i : Nat) :
    emdStep hist0 hist1 n n c (Dbl.fin t, Dbl.fin a) i
      = (Dbl.fin (t + |a + ((hist0 c i : ℚ) / n - (hist1 c i : ℚ) / n)|),
         Dbl.fin (a + ((hist0 c i : ℚ) / n - (hist1 c i : ℚ) / n))) := by
  simp only [emdStep, Dbl.ofNat_div_ofNat _ _ hn, Dbl.sub, Dbl.neg, Dbl.add, Dbl.fabs,
    sub_eq_add_neg]

theorem emd_fold_fin (hist0 hist1 : Histogram) (n c : Nat) (hn : 0 < n) (k : Nat) :
    (List.range k).foldl (emdStep hist0 hist1 n n c) (Dbl.fin 0, Dbl.fin 0)
      = (Dbl.fin (∑ i in Finset.range k,
            |∑ j in Finset.range (i + 1), ((hist0 c j : ℚ) / n - (hist1 c j : ℚ) / n)|),
         Dbl.fin (∑ j in Finset.range k, ((hist0 c j : ℚ) / n - (hist1 c j : ℚ) / n))) := by
  induction k with
  | zero => simp
  | succ k ih =>
    rw [foldl_range_succ, ih, emdStep_fin _ _ _ _ hn, Finset.sum_range_succ,
      Finset.sum_range_succ (fun j => (hist0 c j : ℚ) / n - (hist1 c j : ℚ) / n) k]

/-- With at least one pixel the per-channel value is finite and is the distance of the
specification computed from the same histograms. -/
theorem channelEmd_fin (hist0 hist1 : Histogram) (n c : Nat) (hn : 0 < n) :
    channelEmd hist0 hist1 n n c = Dbl.fin (specChannelEmd hist0 hist1 n c) := by
  unfold channelEmd
  rw [show num_bins = 256 from rfl, emd_fold_fin _ _ _ _ hn]
  have h256 : Dbl.ofNat 256 = Dbl.fin 256 := by simp [Dbl.ofNat]
  rw [h256]
  simp only [Dbl.div]
  rw [if_neg (by norm_num)]
  congr 1
  unfold specChannelEmd
  rw [div_eq_mul_one_div, mul_comm]
  congr 1
  refine Finset.sum_congr rfl (fun i _ => ?_)
  congr 1
  rw [Finset.sum_div]
  refine Finset.sum_congr rfl (fun j _ => ?_)
  rw [sub_div]

theorem emdStep_zero (hist0 hist1 : Histogram) (c : Nat) (acc : Dbl × Dbl) (i : Nat) :
    emdStep hist0 hist1 0 0 c acc i = (Dbl.nan, Dbl.nan) := by
  have hsub : Dbl.sub (Dbl.div (Dbl.ofNat (hist0 c i)) (Dbl.ofNat 0))
      (Dbl.div (Dbl.ofNat (hist1 c i)) (Dbl.ofNat 0)) = Dbl.nan := by
    have hn0 : ¬ ((hist0 c i : ℚ) < 0) := not_lt.mpr (Nat.cast_nonneg _)
    have hn1 : ¬ ((hist1 c i : ℚ) < 0) := not_lt.mpr (Nat.cast_nonneg _)
    by_cases h0 : hist0 c i = 0 <;> by_cases h1 : hist1 c i = 0 <;>
      simp [Dbl.div, Dbl.ofNat, Dbl.sub, Dbl.neg, Dbl.add, h0, h1, hn0, hn1]
  simp only [emdStep, hsub, Dbl.add_nan_right, Dbl.fabs]

/-- Without pixels every per-channel value is NaN: the loop divides zero by zero. -/
theorem channelEmd_zero (hist0 hist1 : Histogram) (c : Nat) :
    channelEmd hist0 hist1 0 0 c = Dbl.nan := by
  unfold channelEmd
  rw [show num_bins = 255 + 1 from rfl, foldl_range_succ, emdStep_zero]
  rfl

theorem specChannelEmd_nonneg (H0 H1 : Nat → Nat → Nat) (N c : Nat) :
    0 ≤ specChannelEmd H0 H1 N c := by
  unfold specChannelEmd
  exact mul_nonneg (by norm_num) (Finset.sum_nonneg (fun i _ => abs_nonneg _))

theorem specChannelEmd_zero (H0 H1 : Nat → Nat → Nat) (c : Nat) :
    specChannelEmd H0 H1 0 c = 0 := by
  simp [specChannelEmd]

theorem specChannelEmd_congr (H0 H1 G0 G1 : Nat → Nat → Nat) (N c : Nat)
    (h0 : ∀ j, H0 c j = G0 c j) (h1 : ∀ j, H1 c j = G1 c j) :
    specChannelEmd H0 H1 N c = specChannelEmd G0 G1 N c := by
  simp only [specChannelEmd, h0, h1]

theorem maxEmdOfHistograms_unfold (hist0 hist1 : Histogram) (n0 n1 : Nat) :
    maxEmdOfHistograms hist0 hist1 n0 n1
      = Dbl.max (Dbl.max (Dbl.max (Dbl.max (Dbl.fin 0) (channelEmd hist0 hist1 n0 n1 0))
          (channelEmd hist0 hist1 n0 n1 1)) (channelEmd hist0 hist1 n0 n1 2))
          (channelEmd hist0 hist1 n0 n1 3) := by
  have h4 : List.range 4 = [0, 1, 2, 3] := by decide
  simp only [maxEmdOfHistograms, h4, List.foldl]

/-- The per-channel value of two equally sized images with at least one pixel is the
distance of the specification. -/
theorem channelEmd_eq_spec (width height : Nat) (data0 data1 : Nat → Byte) (c : Nat)
    (hc : c < 4) (hn : 0 < width * height) :
    channelEmd (buildHistogram width height data0) (buildHistogram width height data1)
        (width * height) (width * height) c
      = Dbl.fin (specChannelEmd (specPixelCount width height data0)
          (specPixelCount width height data1) (width * height) c) := by
  rw [channelEmd_fin _ _ _ _ hn]
  congr 1
  exact specChannelEmd_congr _ _ _ _ _ _
    (fun j => buildHistogram_eq_specPixelCount _ _ _ _ _ hc)
    (fun j => buildHistogram_eq_specPixelCount _ _ _ _ _ hc)

theorem maxEmd_eq_fin_specMetric (width height : Nat) (data0 data1 : Nat → Byte) :
    maxEmd width height width height data0 data1
      = Dbl.fin (specMetric width height data0 data1) := by
  unfold maxEmd specMetric
  rw [maxEmdOfHistograms_unfold]
  rcases Nat.eq_zero_or_pos (width * height) with hz | hn
  · rw [hz]
    simp only [channelEmd_zero, Dbl.max_nan_right, specChannelEmd_zero, max_self]
  · rw [channelEmd_eq_spec _ _ _ _ 0 (by norm_num) hn,
      channelEmd_eq_spec _ _ _ _ 1 (by norm_num) hn,
      channelEmd_eq_spec _ _ _ _ 2 (by norm_num) hn,
      channelEmd_eq_spec _ _ _ _ 3 (by norm_num) hn]
    simp only [Dbl.max_fin_fin]
    rw [max_eq_right (specChannelEmd_nonneg _ _ _ 0), max_assoc, max_assoc]

theorem specPixelCount_partial_sum_le (width height : Nat) (data : Nat → Byte) (c k : Nat) :
    ∑ j in Finset.range k, specPixelCount width height data c j ≤ width * height := by
  simp only [specPixelCount_eq_sum]
  rw [Finset.sum_comm]
  calc ∑ y in Finset.range height, ∑ j in Finset.range k, ∑ x in Finset.range width,
          (if (data (y * width * 4 + x * 4 + c)).val = j then 1 else 0)
      = ∑ y in Finset.range height, ∑ x in Finset.range width, ∑ j in Finset.range k,
          (if (data (y * width * 4 + x * 4 + c)).val = j then 1 else 0) :=
        Finset.sum_congr rfl (fun y _ => Finset.sum_comm)
    _ ≤ ∑ _y in Finset.range height, ∑ _x in Finset.range width, 1 := by
        refine Finset.sum_le_sum (fun y _ => Finset.sum_le_sum (fun x _ => ?_))
        rw [Finset.sum_ite_eq]
        split_ifs <;> simp
    _ = width * height := by simp [Nat.mul_comm]

theorem specChannelEmd_le_one (H0 H1 : Nat → Nat → Nat) (N c : Nat) (hN : 0 < N)
    (hb0 : ∀ k, ∑ j in Finset.range k, H0 c j ≤ N)
    (hb1 : ∀ k, ∑ j in Finset.range k, H1 c j ≤ N) :
    specChannelEmd H0 H1 N c ≤ 1 := by
  unfold specChannelEmd
  have hNq : (0 : ℚ) < (N : ℚ) := by exact_mod_cast hN
  have hterm : ∀ i ∈ Finset.range 256,
      |(∑ j in Finset.range (i + 1), ((H0 c j : ℚ) - (H1 c j : ℚ))) / (N : ℚ)| ≤ 1 := by
    intro i _
    rw [abs_div, abs_of_pos hNq, div_le_one hNq, Finset.sum_sub_distrib, abs_le]
    have h0 : ((∑ j in Finset.range (i + 1), H0 c j : Nat) : ℚ) ≤ N := by exact_mod_cast hb0 (i + 1)
    have h1 : ((∑ j in Finset.range (i + 1), H1 c j : Nat) : ℚ) ≤ N := by exact_mod_cast hb1 (i + 1)
    have p0 : (0 : ℚ) ≤ ((∑ j in Finset.range (i + 1), H0 c j : Nat) : ℚ) := Nat.cast_nonneg _
    have p1 : (0 : ℚ) ≤ ((∑ j in Finset.range (i + 1), H1 c j : Nat) : ℚ) := Nat.cast_nonneg _
    push_cast at h0 h1 p0 p1
    constructor <;> linarith
  have hsum : ∑ i in Finset.range 256,
      |(∑ j in Finset.range (i + 1), ((H0 c j : ℚ) - (H1 c j : ℚ))) / (N : ℚ)| ≤ 256 := by
    calc _ ≤ ∑ _i in Finset.range 256, (1 : ℚ) := Finset.sum_le_sum hterm
      _ = 256 := by simp
  linarith

/-- C9: for two equally sized images with at least one pixel, every per-channel value the
loop computes is a finite number in `[0, 1]`, and so is the maximum `max_emd`. -/
theorem emd_in_unit_interval (width height : Nat) (data0 data1 : Nat → Byte)
    (hn : 0 < width * height) :
    (∀ c, c < 4 → ∃ q : ℚ,
        channelEmd (buildHistogram width height data0) (buildHistogram width height data1)
          (width * height) (width * height) c = Dbl.fin q ∧ 0 ≤ q ∧ q ≤ 1) ∧
    ∃ q : ℚ, maxEmd width height width height data0 data1 = Dbl.fin q ∧ 0 ≤ q ∧ q ≤ 1 := by
  have hle : ∀ c, specChannelEmd (specPixelCount width height data0)
      (specPixelCount width height data1) (width * height) c ≤ 1 := fun c =>
    specChannelEmd_le_one _ _ _ c hn (specPixelCount_partial_sum_le _ _ _ c)
      (specPixelCount_partial_sum_le _ _ _ c)
  refine ⟨fun c hc => ⟨_, channelEmd_eq_spec _ _ _ _ c hc hn, specChannelEmd_nonneg _ _ _ _,
    hle c⟩, ⟨_, maxEmd_eq_fin_specMetric _ _ _ _, ?_, ?_⟩⟩
  · exact le_max_of_le_left (specChannelEmd_nonneg _ _ _ _)
  · exact max_le (hle 0) (max_le (hle 1) (max_le (hle 2) (hle 3)))

theorem emd_in_unit_interval_witness :
    (∀ c, c < 4 → ∃ q : ℚ,
        channelEmd (buildHistogram 1 1 (fun _ => 0)) (buildHistogram 1 1 (fun _ => 255))
          (1 * 1) (1 * 1) c = Dbl.fin q ∧ 0 ≤ q ∧ q ≤ 1) ∧
    ∃ q : ℚ, maxEmd 1 1 1 1 (fun _ => 0) (fun _ => 255) = Dbl.fin q ∧ 0 ≤ q ∧ q ≤ 1 :=
  emd_in_unit_interval 1 1 (fun _ => 0) (fun _ => 255) (by decide)

/-! ## The rounding to binary64 -/

theorem roundBinary64_zero : roundBinary64 0 = 0 := by
  simp [roundBinary64]

theorem log2Loop_pow_le (fuel n : Nat) (hn : 0 < n) : 2 ^ log2Loop fuel n ≤ n := by
  induction fuel generalizing n with
  | zero => simpa [log2Loop] using hn
  | succ f ih =>
    simp only [log2Loop]
    split_ifs with h
    · have h2 := ih (n / 2) (by omega)
      rw [pow_succ]
      omega
    · simpa using hn

theorem pow2_eq_zpow (e : ℤ) : pow2 e = (2 : ℚ) ^ e := by
  unfold pow2
  split_ifs with h
  · lift e to ℕ using h
    simp
  · push_neg at h
    obtain ⟨n, rfl⟩ : ∃ n : ℕ, e = -(n : ℤ) := ⟨(-e).toNat, by omega⟩
    simp

theorem roundHalfEven_pos (q : ℚ) (h : 1 ≤ q) : 0 < roundHalfEven q := by
  have hf : 1 ≤ ⌊q⌋ := Int.le_floor.mpr (by simpa using h)
  unfold roundHalfEven
  simp only
  split_ifs <;> omega

theorem floorLog2_natCast (n : ℕ) (hn : 0 < n) : floorLog2 (n : ℚ) = (natLog2 n : ℤ) := by
  have h1 : natLog2 1 = 0 := rfl
  have hle : 2 ^ natLog2 n ≤ n := log2Loop_pow_le n n hn
  unfold floorLog2
  simp [h1, hle]

/-- The conversion of a positive integer to binary64 is not zero. -/
theorem roundBinary64_natCast_ne_zero (n : ℕ) (hn : 0 < n) : roundBinary64 (n : ℚ) ≠ 0 := by
  have hn0 : (n : ℚ) ≠ 0 := by exact_mod_cast hn.ne'
  have hle : 2 ^ natLog2 n ≤ n := log2Loop_pow_le n n hn
  unfold roundBinary64
  simp only [hn0, if_false, floorLog2_natCast n hn, pow2_eq_zpow]
  have hmax : Max.max (natLog2 n : ℤ) (-1022) = (natLog2 n : ℤ) := max_eq_left (by omega)
  rw [hmax]
  have hulp : (0 : ℚ) < (2 : ℚ) ^ ((natLog2 n : ℤ) - 52) := zpow_pos (by norm_num) _
  have hulp_le : (2 : ℚ) ^ ((natLog2 n : ℤ) - 52) ≤ (n : ℚ) := by
    calc (2 : ℚ) ^ ((natLog2 n : ℤ) - 52) ≤ (2 : ℚ) ^ ((natLog2 n : ℤ)) :=
          zpow_le_zpow_right₀ (by norm_num) (by omega)
      _ = ((2 ^ natLog2 n : ℕ) : ℚ) := by simp
      _ ≤ (n : ℚ) := by exact_mod_cast hle
  have hq : 1 ≤ (n : ℚ) / (2 : ℚ) ^ ((natLog2 n : ℤ) - 52) := by
    rw [le_div_iff₀ hulp]
    simpa using hulp_le
  have hpos := roundHalfEven_pos _ hq
  have hpos1 : (0 : ℚ) < (roundHalfEven ((n : ℚ) / (2 : ℚ) ^ ((natLog2 n : ℤ) - 52)) : ℚ) := by
    exact_mod_cast hpos
  exact (mul_pos hpos1 hulp).ne'

/-- Sample values of the rounding: `1/3` and `1/10` go to the doubles nearest to them, `1/2`
and `3` are doubles, and the tie `2 ^ 53 + 1` goes to the even neighbour `2 ^ 53`. -/
theorem roundBinary64_samples :
    roundBinary64 (1 / 3) = 6004799503160661 / 18014398509481984 ∧
    roundBinary64 (1 / 10) = 3602879701896397 / 36028797018963968 ∧
    roundBinary64 (1 / 2) = 1 / 2 ∧
    roundBinary64 3 = 3 ∧
    roundBinary64 9007199254740993 = 9007199254740992 := by
  decide!

/-! ## The rounded distance loop -/

theorem Dbl.round_id (x : Dbl) : Dbl.round (fun q => q) x = x := by
  cases x <;> rfl

theorem emdStepRounded_id (hist0 hist1 : Histogram) (n0 n1 channel : Nat) :
    emdStepRounded (fun q => q) hist0 hist1 n0 n1 channel
      = emdStep hist0 hist1 n0 n1 channel := by
  funext acc i
  simp only [emdStepRounded, emdStep, Dbl.round_id]

theorem channelEmdRounded_id (hist0 hist1 : Histogram) (n0 n1 channel : Nat) :
    channelEmdRounded (fun q => q) hist0 hist1 n0 n1 channel
      = channelEmd hist0 hist1 n0 n1 channel := by
  simp only [channelEmdRounded, channelEmd, emdStepRounded_id, Dbl.round_id]

/-- The loop without rounding is the rounded loop for the identity rounding. -/
theorem maxEmdRounded_id (width0 height0 width1 height1 : Nat) (data0 data1 : Nat → Byte) :
    maxEmdRounded (fun q => q) width0 height0 width1 height1 data0 data1
      = maxEmd width0 height0 width1 height1 data0 data1 := by
  simp only [maxEmdRounded, maxEmd, maxEmdOfHistogramsRounded, maxEmdOfHistograms,
    channelEmdRounded_id]

/-- The handler without rounding is the rounded handler for the identity rounding. -/
theorem VisitAssertSimilarEmdHistogramRounded_id (to_string : Dbl → String) (ex : Executor)
    (dev : Device) (cmd : CommandAssertSimilarEmdHistogram) :
    VisitAssertSimilarEmdHistogramRounded (fun q => q) to_string ex dev cmd
      = VisitAssertSimilarEmdHistogram to_string ex dev cmd := by
  simp only [VisitAssertSimilarEmdHistogramRounded, VisitAssertSimilarEmdHistogram,
    maxEmdRounded_id]

theorem emdStepRounded_fin (rnd : ℚ → ℚ) (hist0 hist1 : Histogram) (n c : Nat)
    (hn : rnd (n : ℚ) ≠ 0) (t a : ℚ) (i : Nat) :
    emdStepRounded rnd hist0 hist1 n n c (Dbl.fin t, Dbl.fin a) i
      = (Dbl.fin (rnd (t + |rnd (a + rnd (rnd (rnd (hist0 c i : ℚ) / rnd (n : ℚ))
            + -rnd (rnd (hist1 c i : ℚ) / rnd (n : ℚ))))|)),
         Dbl.fin (rnd (a + rnd (rnd (rnd (hist0 c i : ℚ) / rnd (n : ℚ))
            + -rnd (rnd (hist1 c i : ℚ) / rnd (n : ℚ)))))) := by
  simp only [emdStepRounded, Dbl.round, Dbl.ofNat, Dbl.div, if_neg hn, Dbl.sub, Dbl.neg,
    Dbl.add, Dbl.fabs]

theorem emd_fold_rounded_fin (rnd : ℚ → ℚ) (hist0 hist1 : Histogram) (n c : Nat)
    (hn : rnd (n : ℚ) ≠ 0) (k : Nat) :
    ∃ t a : ℚ, (List.range k).foldl (emdStepRounded rnd hist0 hist1 n n c)
      (Dbl.fin 0, Dbl.fin 0) = (Dbl.fin t, Dbl.fin a) := by
  induction k with
  | zero => exact ⟨0, 0, rfl⟩
  | succ k ih =>
    obtain ⟨t, a, h⟩ := ih
    rw [foldl_range_succ, h, emdStepRounded_fin rnd hist0 hist1 n c hn]
    exact ⟨_, _, rfl⟩

/-- With a pixel count and a bin count whose conversions are not zero, the rounded
per-channel value is finite. -/
theorem channelEmdRounded_fin (rnd : ℚ → ℚ) (hist0 hist1 : Histogram) (n c : Nat)
    (hn : rnd (n : ℚ) ≠ 0) (hb : rnd (num_bins : ℚ) ≠ 0) :
    ∃ e : ℚ, channelEmdRounded rnd hist0 hist1 n n c = Dbl.fin e := by
  obtain ⟨t, a, h⟩ := emd_fold_rounded_fin rnd hist0 hist1 n c hn num_bins
  unfold channelEmdRounded
  rw [h]
  simp only [Dbl.round, Dbl.ofNat, Dbl.div, if_neg hb]
  exact ⟨_, rfl⟩

theorem emdStepRounded_self (rnd : ℚ → ℚ) (hist : Histogram) (n c : Nat) (hzero : rnd 0 = 0)
    (hn : rnd (n : ℚ) ≠ 0) (i : Nat) :
    emdStepRounded rnd hist hist n n c (Dbl.fin 0, Dbl.fin 0) i = (Dbl.fin 0, Dbl.fin 0) := by
  rw [emdStepRounded_fin rnd hist hist n c hn]
  simp [hzero]

/-- A histogram against itself: the rounded per-channel value is exactly zero, because both
normalised bins are the same double and their difference is zero. -/
theorem channelEmdRounded_self (rnd : ℚ → ℚ) (hist : Histogram) (n c : Nat) (hzero : rnd 0 = 0)
    (hn : rnd (n : ℚ) ≠ 0) (hb : rnd (num_bins : ℚ) ≠ 0) :
    channelEmdRounded rnd hist hist n n c = Dbl.fin 0 := by
  have hfold : ∀ k, (List.range k).foldl (emdStepRounded rnd hist hist n n c)
      (Dbl.fin 0, Dbl.fin 0) = (Dbl.fin 0, Dbl.fin 0) := by
    intro k
    induction k with
    | zero => rfl
    | succ k ih => rw [foldl_range_succ, ih, emdStepRounded_self rnd hist n c hzero hn]
  unfold channelEmdRounded
  rw [hfold]
  simp only [Dbl.round, Dbl.ofNat, Dbl.div, if_neg hb, zero_div, hzero]

theorem buildHistogram_of_no_pixels (width height : Nat) (data : Nat → Byte) (c b : Nat)
    (h : width * height = 0) : buildHistogram width height data c b = 0 := by
  rw [buildHistogram_apply]
  rcases Nat.mul_eq_zero.mp h with h0 | h0 <;> simp [h0]

theorem emdStepRounded_zero (rnd : ℚ → ℚ) (hist0 hist1 : Histogram) (c : Nat)
    (hzero : rnd 0 = 0) (acc : Dbl × Dbl) (i : Nat) (h0 : hist0 c i = 0) (h1 : hist1 c i = 0) :
    emdStepRounded rnd hist0 hist1 0 0 c acc i = (Dbl.nan, Dbl.nan) := by
  have hnorm : Dbl.round rnd (Dbl.div (Dbl.round rnd (Dbl.ofNat 0))
      (Dbl.round rnd (Dbl.ofNat 0))) = Dbl.nan := by
    simp [Dbl.round, Dbl.ofNat, Dbl.div, hzero]
  have hround : Dbl.round rnd Dbl.nan = Dbl.nan := rfl
  have hsub : Dbl.sub Dbl.nan Dbl.nan = Dbl.nan := rfl
  have hfabs : Dbl.fabs Dbl.nan = Dbl.nan := rfl
  simp only [emdStepRounded, h0, h1, hnorm, hsub, hround, Dbl.add_nan_right, hfabs]

/-- Without pixels every rounded per-channel value is NaN. -/
theorem channelEmdRounded_zero (rnd : ℚ → ℚ) (hist0 hist1 : Histogram) (c : Nat)
    (hzero : rnd 0 = 0) (h0 : ∀ i, hist0 c i = 0) (h1 : ∀ i, hist1 c i = 0) :
    channelEmdRounded rnd hist0 hist1 0 0 c = Dbl.nan := by
  unfold channelEmdRounded
  rw [show num_bins = 255 + 1 from rfl, foldl_range_succ,
    emdStepRounded_zero rnd hist0 hist1 c hzero _ _ (h0 255) (h1 255)]
  rfl

theorem max_fold_fin (f : Nat → Dbl) (hf : ∀ c, (∃ e : ℚ, f c = Dbl.fin e) ∨ f c = Dbl.nan)
    (l : List Nat) (m0 : ℚ) :
    ∃ m : ℚ, l.foldl (fun max_emd channel => Dbl.max max_emd (f channel)) (Dbl.fin m0)
      = Dbl.fin m := by
  induction l generalizing m0 with
  | nil => exact ⟨m0, rfl⟩
  | cons c l ih =>
    rw [List.foldl_cons]
    rcases hf c with ⟨e, he⟩ | he
    · rw [he, Dbl.max_fin_fin]
      exact ih _
    · rw [he, Dbl.max_nan_right]
      exact ih _

theorem max_fold_zero (f : Nat → Dbl) (l : List Nat) (hf : ∀ c, c ∈ l → f c = Dbl.fin 0) :
    l.foldl (fun max_emd channel => Dbl.max max_emd (f channel)) (Dbl.fin 0) = Dbl.fin 0 := by
  induction l with
  | nil => rfl
  | cons c l ih =>
    rw [List.foldl_cons, hf c (List.mem_cons_self c l), Dbl.max_fin_fin, max_self]
    exact ih (fun d hd => hf d (List.mem_cons_of_mem c hd))

/-- The rounded metric of two images of one size is a finite double, for every rounding that
keeps zero and sends no positive integer to zero. -/
theorem maxEmdRounded_finite (rnd : ℚ → ℚ) (hzero : rnd 0 = 0)
    (hcount : ∀ n : ℕ, 0 < n → rnd (n : ℚ) ≠ 0) (width height : Nat)
    (data0 data1 : Nat → Byte) :
    ∃ m : ℚ, maxEmdRounded rnd width height width height data0 data1 = Dbl.fin m := by
  unfold maxEmdRounded maxEmdOfHistogramsRounded
  refine max_fold_fin _ (fun c => ?_) _ 0
  rcases Nat.eq_zero_or_pos (width * height) with h | h
  · right
    rw [h]
    exact channelEmdRounded_zero rnd _ _ c hzero
      (fun i => buildHistogram_of_no_pixels width height data0 c i h)
      (fun i => buildHistogram_of_no_pixels width height data1 c i h)
  · left
    exact channelEmdRounded_fin rnd _ _ _ c (hcount _ h) (hcount num_bins (by decide))

/-- An image against itself: the rounded metric is zero. -/
theorem maxEmdRounded_self (rnd : ℚ → ℚ) (hzero : rnd 0 = 0)
    (hcount : ∀ n : ℕ, 0 < n → rnd (n : ℚ) ≠ 0) (width height : Nat) (data : Nat → Byte)
    (hn : 0 < width * height) :
    maxEmdRounded rnd width height width height data data = Dbl.fin 0 := by
  unfold maxEmdRounded maxEmdOfHistogramsRounded
  exact max_fold_zero _ _ (fun c _ =>
    channelEmdRounded_self rnd _ _ c hzero (hcount _ hn) (hcount num_bins (by decide)))

theorem histogram_command_run_rounded (rnd : ℚ → ℚ) (to_string : Dbl → String) (ex : Executor)
    (dev : Device) (cmd : CommandAssertSimilarEmdHistogram) (rb0 rb1 : GLuint) (W H : Nat)
    (data0 data1 : Nat → Byte)
    (h1 : ex.created_renderbuffers_.find cmd.buffer_identifier_1 = some rb0)
    (h2 : ex.created_renderbuffers_.find cmd.buffer_identifier_2 = some rb1)
    (hW0 : dev.renderbufferWidth rb0 = W) (hW1 : dev.renderbufferWidth rb1 = W)
    (hH0 : dev.renderbufferHeight rb0 = H) (hH1 : dev.renderbufferHeight rb1 = H)
    (hcomplete : dev.framebufferComplete [rb0, rb1] = true)
    (hd0 : dev.readPixels rb0 W H = data0) (hd1 : dev.readPixels rb1 W H = data1) :
    VisitAssertSimilarEmdHistogramRounded rnd to_string ex dev cmd
      = if Dbl.gt (maxEmdRounded rnd W H W H data0 data1) cmd.tolerance
        then ⟨.returned true, [⟨.kError, cmd.start_token,
          histogramText to_string (maxEmdRounded rnd W H W H data0 data1) cmd.tolerance⟩]⟩
        else ⟨.returned true, []⟩ := by
  unfold VisitAssertSimilarEmdHistogramRounded
  simp only [h1, h2, hW0, hW1, hH0, hH1, hd0, hd1, ne_eq, not_true_eq_false, if_false,
    hcomplete, Bool.not_true]
  rfl

/-! ## Two rows of three pixels, evaluated -/

theorem buildHistogram_blackRow (c i : Nat) (hc : c < 4) :
    buildHistogram 3 1 blackRow c i = if i = 0 then 3 else 0 := by
  rw [buildHistogram_apply]
  simp only [Finset.sum_range_succ, Finset.sum_range_zero, hc, blackRow, true_and]
  by_cases h : i = 0
  · subst h
    simp
  · have h0 : ¬ ((0 : Byte).val = i) := fun h0 => h (h0.symm.trans rfl)
    have h1 : ¬ (0 = i) := fun h1 => h h1.symm
    simp [h, h0, h1]

theorem buildHistogram_rampRow (c i : Nat) (hc : c < 4) :
    buildHistogram 3 1 rampRow c i = if i < 3 then 1 else 0 := by
  rw [buildHistogram_apply]
  have h0 : rampRow (0 * 3 * 4 + 0 * 4 + c) = 0 := by
    have hlt : 0 * 3 * 4 + 0 * 4 + c < 4 := by omega
    simp only [rampRow, if_pos hlt]
  have h1 : rampRow (0 * 3 * 4 + 1 * 4 + c) = 1 := by
    have hge : ¬ (0 * 3 * 4 + 1 * 4 + c < 4) := by omega
    have hlt : 0 * 3 * 4 + 1 * 4 + c < 8 := by omega
    simp only [rampRow, if_neg hge, if_pos hlt]
  have h2 : rampRow (0 * 3 * 4 + 2 * 4 + c) = 2 := by
    have hge : ¬ (0 * 3 * 4 + 2 * 4 + c < 4) := by omega
    have hge8 : ¬ (0 * 3 * 4 + 2 * 4 + c < 8) := by omega
    simp only [rampRow, if_neg hge, if_neg hge8]
  simp only [Finset.sum_range_succ, Finset.sum_range_zero, hc, true_and, h0, h1, h2]
  have v0 : ((0 : Byte).val = i) ↔ i = 0 := ⟨fun h => h.symm.trans rfl, fun h => h ▸ rfl⟩
  have v1 : ((1 : Byte).val = i) ↔ i = 1 := ⟨fun h => h.symm.trans rfl, fun h => h ▸ rfl⟩
  have v2 : ((2 : Byte).val = i) ↔ i = 2 := ⟨fun h => h.symm.trans rfl, fun h => h ▸ rfl⟩
  simp only [v0, v1, v2]
  split_ifs <;> omega

/-- One iteration of the rounded loop depends on the histograms through the two counts of
its bin only. -/
theorem emdStepRounded_of_counts (rnd : ℚ → ℚ) (hist0 hist1 : Histogram) (n0 n1 c : Nat)
    (acc : Dbl × Dbl) (i k0 k1 : Nat) (h0 : hist0 c i = k0) (h1 : hist1 c i = k1) :
    emdStepRounded rnd hist0 hist1 n0 n1 c acc i
      = emdStepRounded rnd (fun _ _ => k0) (fun _ _ => k1) n0 n1 0 acc 0 := by
  subst h0 h1
  rfl

/-- The rounded metric of `blackRow` and `rampRow` from five evaluations: the iterations for
the bins `0`, `1`, `2`, an iteration for an empty bin, which leaves the state as it is, and
the final division.  The four channels have the same histograms. -/
theorem maxEmdRounded_rows_eval (rnd : ℚ → ℚ) (s1 s2 s3 : Dbl × Dbl) (v : ℚ) (hv : 0 ≤ v)
    (hA : emdStepRounded rnd (fun _ _ => 3) (fun _ _ => 1) 3 3 0 (Dbl.fin 0, Dbl.fin 0) 0 = s1)
    (hB : emdStepRounded rnd (fun _ _ => 0) (fun _ _ => 1) 3 3 0 s1 0 = s2)
    (hC : emdStepRounded rnd (fun _ _ => 0) (fun _ _ => 1) 3 3 0 s2 0 = s3)
    (hD : emdStepRounded rnd (fun _ _ => 0) (fun _ _ => 0) 3 3 0 s3 0 = s3)
    (hE : Dbl.round rnd (Dbl.div s3.1 (Dbl.round rnd (Dbl.ofNat num_bins))) = Dbl.fin v) :
    maxEmdRounded rnd 3 1 3 1 blackRow rampRow = Dbl.fin v := by
  have hfold : ∀ c, c < 4 → ∀ m, 3 ≤ m →
      (List.range m).foldl (emdStepRounded rnd (buildHistogram 3 1 blackRow)
        (buildHistogram 3 1 rampRow) 3 3 c) (Dbl.fin 0, Dbl.fin 0) = s3 := by
    intro c hc m hm
    induction m with
    | zero => omega
    | succ m ih =>
      rw [foldl_range_succ]
      rcases Nat.lt_or_ge m 3 with hlt | hge
      · have hm2 : m = 2 := by omega
        subst hm2
        rw [foldl_range_succ, foldl_range_succ, List.range_zero, List.foldl_nil,
          emdStepRounded_of_counts rnd _ _ 3 3 c _ 0 3 1
            (by rw [buildHistogram_blackRow c 0 hc]; rfl)
            (by rw [buildHistogram_rampRow c 0 hc]; rfl), hA,
          emdStepRounded_of_counts rnd _ _ 3 3 c _ 1 0 1
            (by rw [buildHistogram_blackRow c 1 hc]; rfl)
            (by rw [buildHistogram_rampRow c 1 hc]; rfl), hB,
          emdStepRounded_of_counts rnd _ _ 3 3 c _ 2 0 1
            (by rw [buildHistogram_blackRow c 2 hc]; rfl)
            (by rw [buildHistogram_rampRow c 2 hc]; rfl), hC]
      · rw [ih hge,
          emdStepRounded_of_counts rnd _ _ 3 3 c _ m 0 0
            (by rw [buildHistogram_blackRow c m hc, if_neg (by omega)])
            (by rw [buildHistogram_rampRow c m hc, if_neg (by omega)]), hD]
  have hchannel : ∀ c, c < 4 →
      channelEmdRounded rnd (buildHistogram 3 1 blackRow) (buildHistogram 3 1 rampRow)
        (3 * 1) (3 * 1) c = Dbl.fin v := by
    intro c hc
    unfold channelEmdRounded
    rw [show 3 * 1 = 3 from rfl, hfold c hc num_bins (by decide), hE]
  have h4 : List.range 4 = [0, 1, 2, 3] := by decide
  simp only [maxEmdRounded, maxEmdOfHistogramsRounded, h4, List.foldl,
    hchannel 0 (by decide), hchannel 1 (by decide), hchannel 2 (by decide),
    hchannel 3 (by decide), Dbl.max_fin_fin, max_eq_right hv, max_self]

/-- In binary64 the metric of `blackRow` and `rampRow` is `(2 ^ 51 + 1) / 2 ^ 59`, one unit
in the last place above `1/256 = 2 ^ 51 / 2 ^ 59`: the three normalised bins `1/3` do not sum
to `1`. -/
theorem maxEmdRounded_rows :
    maxEmdRounded roundBinary64 3 1 3 1 blackRow rampRow
      = Dbl.fin (2251799813685249 / 576460752303423488) :=
  maxEmdRounded_rows_eval roundBinary64
    (Dbl.fin (3002399751580331 / 4503599627370496),
      Dbl.fin (3002399751580331 / 4503599627370496))
    (Dbl.fin (4503599627370497 / 4503599627370496),
      Dbl.fin (6004799503160663 / 18014398509481984))
    (Dbl.fin (2251799813685249 / 2251799813685248), Dbl.fin (1 / 9007199254740992))
    (2251799813685249 / 576460752303423488) (by norm_num)
    (by decide!) (by decide!) (by decide!) (by decide!) (by decide!)

/-- Without rounding the metric of `blackRow` and `rampRow` is `1/256`. -/
theorem maxEmd_rows : maxEmd 3 1 3 1 blackRow rampRow = Dbl.fin (1 / 256) := by
  rw [← maxEmdRounded_id]
  exact maxEmdRounded_rows_eval (fun q => q)
    (Dbl.fin (2 / 3), Dbl.fin (2 / 3)) (Dbl.fin 1, Dbl.fin (1 / 3)) (Dbl.fin 1, Dbl.fin 0)
    (1 / 256) (by norm_num)
    (by decide!) (by decide!) (by decide!) (by decide!) (by decide!)

/-! ## The histogram assertion -/

/-- C2 (amended): in exact arithmetic, that is with no rounding of the double operations,
the `max_emd` of two renderbuffers of the same size (the only case in which the command
computes the metric) is the maximum over the four channels `c` of
`(1/256) * Σ_{i < 256} | Σ_{j ≤ i} (H0[c][j] - H1[c][j]) / N |`, where `Hk[c][j]` is the
number of pixels of image `k` whose channel `c` has value `j` and `N = width * height`.
The tolerance plays no part in the value. -/
theorem histogram_metric_formula (width height : Nat) (data0 data1 : Nat → Byte) :
    maxEmdRounded (fun q => q) width height width height data0 data1
      = Dbl.fin (specMetric width height data0 data1) := by
  rw [maxEmdRounded_id]
  exact maxEmd_eq_fin_specMetric width height data0 data1

/-- C2 (as stated) fails in binary64: for the `3 × 1` renderbuffers `blackRow` and `rampRow`
the formula gives `1/256`, the handler computes `(2 ^ 51 + 1) / 2 ^ 59`, and the difference
shows: with the tolerance `1/256` the handler emits its message, naming that value. -/
theorem histogram_metric_rounding_differs :
    specMetric 3 1 blackRow rampRow = 1 / 256 ∧
    maxEmdRounded roundBinary64 3 1 3 1 blackRow rampRow
      = Dbl.fin (2251799813685249 / 576460752303423488) ∧
    maxEmdRounded roundBinary64 3 1 3 1 blackRow rampRow
      ≠ Dbl.fin (specMetric 3 1 blackRow rampRow) ∧
    VisitAssertSimilarEmdHistogramRounded roundBinary64 showDbl testExecutor rowsDevice
        ⟨"line 1", "a", "b", Dbl.fin (1 / 256)⟩
      = ⟨.returned true, [⟨.kError, "line 1",
          "Histogram EMD value of 2251799813685249/576460752303423488 is greater than "
            ++ "tolerance of 1/256"⟩]⟩ := by
  have hspec : specMetric 3 1 blackRow rampRow = 1 / 256 :=
    Dbl.fin.inj ((maxEmd_eq_fin_specMetric 3 1 blackRow rampRow).symm.trans maxEmd_rows)
  refine ⟨hspec, maxEmdRounded_rows, ?_, ?_⟩
  · rw [maxEmdRounded_rows, hspec]
    intro h
    have hq := Dbl.fin.inj h
    norm_num at hq
  · rw [histogram_command_run_rounded roundBinary64 showDbl testExecutor rowsDevice
      ⟨"line 1", "a", "b", Dbl.fin (1 / 256)⟩ 1 2 3 1 blackRow rampRow
      (by decide) (by decide) rfl rfl rfl rfl rfl rfl rfl, maxEmdRounded_rows]
    decide!

/-- C1: for a renderbuffer compared with itself, on a machine whose rounding keeps zero and
sends no positive integer to zero (binary64 does), and a driver for which a complete
framebuffer has attachments with at least one pixel (OpenGL requires a non-zero width and
height of a complete attachment): when the handler gets past the framebuffer check, each of
the four per-channel values is exactly `0`, the metric `max_emd` is `0`, and the handler
returns `true` without a message; in every case the handler emits no message, for every
tolerance `>= 0` (a finite `t` with `0 ≤ t`, or `+inf`). -/
theorem self_histogram_passes (rnd : ℚ → ℚ) (to_string : Dbl → String) (ex : Executor)
    (dev : Device) (cmd : CommandAssertSimilarEmdHistogram) (rb : GLuint)
    (hzero : rnd 0 = 0) (hcount : ∀ n : ℕ, 0 < n → rnd (n : ℚ) ≠ 0)
    (h1 : ex.created_renderbuffers_.find cmd.buffer_identifier_1 = some rb)
    (h2 : ex.created_renderbuffers_.find cmd.buffer_identifier_2 = some rb)
    (hpixels : dev.framebufferComplete [rb, rb] = true →
      0 < dev.renderbufferWidth rb * dev.renderbufferHeight rb)
    (htol : (∃ t : ℚ, 0 ≤ t ∧ cmd.tolerance = Dbl.fin t) ∨ cmd.tolerance = Dbl.inf false) :
    (dev.framebufferComplete [rb, rb] = true →
      (∀ c, c < 4 →
        channelEmdRounded rnd
          (buildHistogram (dev.renderbufferWidth rb) (dev.renderbufferHeight rb)
            (dev.readPixels rb (dev.renderbufferWidth rb) (dev.renderbufferHeight rb)))
          (buildHistogram (dev.renderbufferWidth rb) (dev.renderbufferHeight rb)
            (dev.readPixels rb (dev.renderbufferWidth rb) (dev.renderbufferHeight rb)))
          (dev.renderbufferWidth rb * dev.renderbufferHeight rb)
          (dev.renderbufferWidth rb * dev.renderbufferHeight rb) c = Dbl.fin 0) ∧
      maxEmdRounded rnd (dev.renderbufferWidth rb) (dev.renderbufferHeight rb)
          (dev.renderbufferWidth rb) (dev.renderbufferHeight rb)
          (dev.readPixels rb (dev.renderbufferWidth rb) (dev.renderbufferHeight rb))
          (dev.readPixels rb (dev.renderbufferWidth rb) (dev.renderbufferHeight rb))
        = Dbl.fin 0 ∧
      VisitAssertSimilarEmdHistogramRounded rnd to_string ex dev cmd = ⟨.returned true, []⟩) ∧
    (VisitAssertSimilarEmdHistogramRounded rnd to_string ex dev cmd).messages = [] := by
  have hgt : Dbl.gt (Dbl.fin 0) cmd.tolerance = false := by
    rcases htol with ⟨t, ht, htol⟩ | htol
    · rw [htol]
      simpa [Dbl.gt, Dbl.lt] using ht
    · rw [htol]
      rfl
  have hrun : dev.framebufferComplete [rb, rb] = true →
      VisitAssertSimilarEmdHistogramRounded rnd to_string ex dev cmd = ⟨.returned true, []⟩ := by
    intro hc
    rw [histogram_command_run_rounded rnd to_string ex dev cmd rb rb _ _ _ _ h1 h2 rfl rfl rfl
      rfl hc rfl rfl, maxEmdRounded_self rnd hzero hcount _ _ _ (hpixels hc), hgt]
    rfl
  refine ⟨fun hc => ⟨fun c _ => ?_, ?_, hrun hc⟩, ?_⟩
  · exact channelEmdRounded_self rnd _ _ c hzero (hcount _ (hpixels hc))
      (hcount num_bins (by decide))
  · exact maxEmdRounded_self rnd hzero hcount _ _ _ (hpixels hc)
  · by_cases hc : dev.framebufferComplete [rb, rb] = true
    · rw [hrun hc]
    · unfold VisitAssertSimilarEmdHistogramRounded
      simp [h1, h2, hc]

theorem self_histogram_passes_witness :
    (∀ c, c < 4 →
      channelEmdRounded roundBinary64 (buildHistogram 1 1 (fun _ => 7))
        (buildHistogram 1 1 (fun _ => 7)) (1 * 1) (1 * 1) c = Dbl.fin 0) ∧
    maxEmdRounded roundBinary64 1 1 1 1 (fun _ => 7) (fun _ => 7) = Dbl.fin 0 ∧
    VisitAssertSimilarEmdHistogramRounded roundBinary64 showDbl testExecutor
        (testDevice (fun _ => (1, 1)) (fun _ _ => 7) (fun _ => []))
        ⟨"line 1", "a", "a", Dbl.fin 0⟩
      = ⟨.returned true, []⟩ :=
  (self_histogram_passes roundBinary64 showDbl testExecutor
    (testDevice (fun _ => (1, 1)) (fun _ _ => 7) (fun _ => []))
    ⟨"line 1", "a", "a", Dbl.fin 0⟩ 1 roundBinary64_zero roundBinary64_natCast_ne_zero
    (by decide) (by decide) (fun _ => by decide) (Or.inl ⟨0, le_refl 0, rfl⟩)).1 rfl

/-- C3: for two renderbuffers of one size on a complete framebuffer, and a rounding that
keeps zero and sends no positive integer to zero (binary64 does): the metric the handler
computes is a finite double `m`, the handler returns `true`, and for a finite tolerance `t`
it emits exactly one `kError` message, naming `m` and `t`, when `t < m`, and no message
when `m ≤ t`, in particular none when `m = t`.  A NaN tolerance and a tolerance `+inf` give
no message, a tolerance `-inf` gives the message. -/
theorem histogram_message_iff_exceeds (rnd : ℚ → ℚ) (to_string : Dbl → String) (ex : Executor)
    (dev : Device) (cmd : CommandAssertSimilarEmdHistogram) (rb0 rb1 : GLuint) (W H : Nat)
    (hzero : rnd 0 = 0) (hcount : ∀ n : ℕ, 0 < n → rnd (n : ℚ) ≠ 0)
    (h1 : ex.created_renderbuffers_.find cmd.buffer_identifier_1 = some rb0)
    (h2 : ex.created_renderbuffers_.find cmd.buffer_identifier_2 = some rb1)
    (hW0 : dev.renderbufferWidth rb0 = W) (hW1 : dev.renderbufferWidth rb1 = W)
    (hH0 : dev.renderbufferHeight rb0 = H) (hH1 : dev.renderbufferHeight rb1 = H)
    (hcomplete : dev.framebufferComplete [rb0, rb1] = true) :
    ∃ m : ℚ,
      maxEmdRounded rnd W H W H (dev.readPixels rb0 W H) (dev.readPixels rb1 W H)
        = Dbl.fin m ∧
      (VisitAssertSimilarEmdHistogramRounded rnd to_string ex dev cmd).outcome
        = .returned true ∧
      (∀ t : ℚ, cmd.tolerance = Dbl.fin t →
        (t < m → (VisitAssertSimilarEmdHistogramRounded rnd to_string ex dev cmd).messages
          = [⟨.kError, cmd.start_token, "Histogram EMD value of " ++ to_string (Dbl.fin m)
              ++ " is greater than tolerance of " ++ to_string (Dbl.fin t)⟩]) ∧
        (m ≤ t →
          (VisitAssertSimilarEmdHistogramRounded rnd to_string ex dev cmd).messages = [])) ∧
      (cmd.tolerance = Dbl.nan →
        (VisitAssertSimilarEmdHistogramRounded rnd to_string ex dev cmd).messages = []) ∧
      (cmd.tolerance = Dbl.inf false →
        (VisitAssertSimilarEmdHistogramRounded rnd to_string ex dev cmd).messages = []) ∧
      (cmd.tolerance = Dbl.inf true →
        (VisitAssertSimilarEmdHistogramRounded rnd to_string ex dev cmd).messages
          = [⟨.kError, cmd.start_token, "Histogram EMD value of " ++ to_string (Dbl.fin m)
              ++ " is greater than tolerance of " ++ to_string (Dbl.inf true)⟩]) := by
  obtain ⟨m, hm⟩ := maxEmdRounded_finite rnd hzero hcount W H (dev.readPixels rb0 W H)
    (dev.readPixels rb1 W H)
  have hrun := histogram_command_run_rounded rnd to_string ex dev cmd rb0 rb1 W H _ _ h1 h2
    hW0 hW1 hH0 hH1 hcomplete rfl rfl
  rw [hm] at hrun
  refine ⟨m, hm, ?_, fun t ht => ⟨fun hlt => ?_, fun hle => ?_⟩, fun ht => ?_, fun ht => ?_,
    fun ht => ?_⟩
  · rw [hrun]
    split_ifs <;> rfl
  · rw [hrun, ht, if_pos (by simpa [Dbl.gt, Dbl.lt] using hlt)]
    rfl
  · rw [hrun, ht, if_neg (by simpa [Dbl.gt, Dbl.lt] using hle)]
  · rw [hrun, ht, if_neg (by simp [Dbl.gt, Dbl.lt])]
  · rw [hrun, ht, if_neg (by simp [Dbl.gt, Dbl.lt])]
  · rw [hrun, ht, if_pos (by simp [Dbl.gt, Dbl.lt])]
    rfl

theorem histogram_message_iff_exceeds_witness :
    (VisitAssertSimilarEmdHistogramRounded roundBinary64 showDbl testExecutor rowsDevice
        ⟨"line 1", "a", "b", Dbl.fin (1 / 256)⟩).messages
      = [⟨.kError, "line 1", "Histogram EMD value of "
          ++ showDbl (Dbl.fin (2251799813685249 / 576460752303423488))
          ++ " is greater than tolerance of " ++ showDbl (Dbl.fin (1 / 256))⟩] ∧
    (VisitAssertSimilarEmdHistogramRounded roundBinary64 showDbl testExecutor rowsDevice
        ⟨"line 1", "a", "b", Dbl.fin (2251799813685249 / 576460752303423488)⟩).messages
      = [] := by
  constructor
  · obtain ⟨m, hm, -, hfin, -⟩ := histogram_message_iff_exceeds roundBinary64 showDbl
      testExecutor rowsDevice ⟨"line 1", "a", "b", Dbl.fin (1 / 256)⟩ 1 2 3 1
      roundBinary64_zero roundBinary64_natCast_ne_zero (by decide) (by decide) rfl rfl rfl rfl
      rfl
    have hv : m = 2251799813685249 / 576460752303423488 :=
      Dbl.fin.inj (hm.symm.trans maxEmdRounded_rows)
    subst hv
    exact (hfin (1 / 256) rfl).1 (by norm_num)
  · obtain ⟨m, hm, -, hfin, -⟩ := histogram_message_iff_exceeds roundBinary64 showDbl
      testExecutor rowsDevice
      ⟨"line 1", "a", "b", Dbl.fin (2251799813685249 / 576460752303423488)⟩ 1 2 3 1
      roundBinary64_zero roundBinary64_natCast_ne_zero (by decide) (by decide) rfl rfl rfl rfl
      rfl
    have hv : m = 2251799813685249 / 576460752303423488 :=
      Dbl.fin.inj (hm.symm.trans maxEmdRounded_rows)
    subst hv
    exact (hfin (2251799813685249 / 576460752303423488) rfl).2 (le_refl _)

/-! ## Size checks -/

theorem Table.count_of_find {α : Type} (t : Table α) (id : String) (v : α)
    (h : t.find id = some v) : t.count id = 1 := by
  simp [Table.count, h]

/-- C4: when the two renderbuffers differ in width or height, both `CheckEqualRenderbuffers`
and `VisitAssertSimilarEmdHistogram` return `false` with exactly one message, the width
message when the widths differ and the height message otherwise; neither result depends on
any pixel data. -/
theorem size_mismatch_short_circuits (to_string : Dbl → String) (ex : Executor) (dev : Device)
    (cmdE : CommandAssertEqual) (cmdH : CommandAssertSimilarEmdHistogram) (rb0 rb1 : GLuint)
    (hE1 : ex.created_renderbuffers_.find cmdE.buffer_identifier_1 = some rb0)
    (hE2 : ex.created_renderbuffers_.find cmdE.buffer_identifier_2 = some rb1)
    (hH1 : ex.created_renderbuffers_.find cmdH.buffer_identifier_1 = some rb0)
    (hH2 : ex.created_renderbuffers_.find cmdH.buffer_identifier_2 = some rb1)
    (hsize : (dev.renderbufferWidth rb0, dev.renderbufferHeight rb0)
      ≠ (dev.renderbufferWidth rb1, dev.renderbufferHeight rb1)) :
    CheckEqualRenderbuffers ex dev cmdE
      = ⟨.returned false, [⟨.kError, cmdE.start_token,
          if dev.renderbufferWidth rb0 ≠ dev.renderbufferWidth rb1 then
            widthsText cmdE.buffer_identifier_1 cmdE.buffer_identifier_2
              (dev.renderbufferWidth rb0) (dev.renderbufferWidth rb1)
          else
            heightsText cmdE.buffer_identifier_1 cmdE.buffer_identifier_2
              (dev.renderbufferHeight rb0) (dev.renderbufferHeight rb1)⟩]⟩ ∧
    VisitAssertSimilarEmdHistogram to_string ex dev cmdH
      = ⟨.returned false, [⟨.kError, cmdH.start_token,
          if dev.renderbufferWidth rb0 ≠ dev.renderbufferWidth rb1 then
            widthsText cmdH.buffer_identifier_1 cmdH.buffer_identifier_2
              (dev.renderbufferWidth rb0) (dev.renderbufferWidth rb1)
          else
            heightsText cmdH.buffer_identifier_1 cmdH.buffer_identifier_2
              (dev.renderbufferHeight rb0) (dev.renderbufferHeight rb1)⟩]⟩ := by
  have hc1 := Table.count_of_find _ _ _ hE1
  have hc2 := Table.count_of_find _ _ _ hE2
  by_cases hw : dev.renderbufferWidth rb0 = dev.renderbufferWidth rb1
  · have hh : dev.renderbufferHeight rb0 ≠ dev.renderbufferHeight rb1 := by
      intro hh
      exact hsize (by rw [hw, hh])
    constructor
    · unfold CheckEqualRenderbuffers
      simp [hc1, hc2, hE1, hE2, hw, hh]
    · unfold VisitAssertSimilarEmdHistogram
      simp [hH1, hH2, hw, hh]
  · constructor
    · unfold CheckEqualRenderbuffers
      simp [hc1, hc2, hE1, hE2, hw]
    · unfold VisitAssertSimilarEmdHistogram
      simp [hH1, hH2, hw]

theorem size_mismatch_short_circuits_witness :
    CheckEqualRenderbuffers testExecutor
        (testDevice (fun rb => if rb = 1 then (2, 2) else (2, 3)) (fun _ _ => 0) (fun _ => []))
        ⟨"line 1", "a", "b"⟩
      = ⟨.returned false, [⟨.kError, "line 1", heightsText "a" "b" 2 3⟩]⟩ ∧
    VisitAssertSimilarEmdHistogram (fun _ => "") testExecutor
        (testDevice (fun rb => if rb = 1 then (2, 2) else (2, 3)) (fun _ _ => 0) (fun _ => []))
        ⟨"line 2", "a", "b", Dbl.fin 1⟩
      = ⟨.returned false, [⟨.kError, "line 2", heightsText "a" "b" 2 3⟩]⟩ :=
  size_mismatch_short_circuits (fun _ => "") testExecutor
    (testDevice (fun rb => if rb = 1 then (2, 2) else (2, 3)) (fun _ _ => 0) (fun _ => []))
    ⟨"line 1", "a", "b"⟩ ⟨"line 2", "a", "b", Dbl.fin 1⟩ 1 2
    (by decide) (by decide) (by decide) (by decide) (by decide)

/-! ## Buffer equality -/

theorem equalByteLoop_identical (cmd : CommandAssertEqual) (mapped0 mapped1 : Nat → Byte)
    (n : Nat) (hsame : ∀ j, j < n → mapped0 j = mapped1 j) :
    equalByteLoop cmd n mapped0 mapped1 = (true, []) := by
  unfold equalByteLoop
  induction n with
  | zero => rfl
  | succ n ih =>
    rw [foldl_range_succ, ih (fun j hj => hsame j (Nat.lt_succ_of_lt hj))]
    simp [equalByteStep, hsame n (Nat.lt_succ_self n)]

theorem equalByteLoop_single (cmd : CommandAssertEqual) (mapped0 mapped1 : Nat → Byte)
    (i n : Nat) (hi : i < n) (hdiff : mapped0 i ≠ mapped1 i)
    (hsame : ∀ j, j < n → j ≠ i → mapped0 j = mapped1 j) :
    equalByteLoop cmd n mapped0 mapped1
      = (false, [⟨.kError, cmd.start_token, byteMismatchText cmd.buffer_identifier_1
          cmd.buffer_identifier_2 i (mapped0 i) (mapped1 i)⟩]) := by
  induction n with
  | zero => exact absurd hi (Nat.not_lt_zero i)
  | succ n ih =>
    unfold equalByteLoop at ih ⊢
    rw [foldl_range_succ]
    rcases Nat.lt_succ_iff_lt_or_eq.mp hi with hlt | heq
    · rw [ih hlt (fun j hj hne => hsame j (Nat.lt_succ_of_lt hj) hne)]
      have hn : mapped0 n = mapped1 n := hsame n (Nat.lt_succ_self n) (Nat.ne_of_gt hlt)
      simp [equalByteStep, hn]
    · subst heq
      have hprev := equalByteLoop_identical cmd mapped0 mapped1 i
        (fun j hj => hsame j (Nat.lt_succ_of_lt hj) (Nat.ne_of_lt hj))
      unfold equalByteLoop at hprev
      rw [hprev]
      simp [equalByteStep, hdiff]

/-- C5: for two buffers of equal length that both map successfully, `CheckEqualBuffers`
returns `true` without a message when the contents are identical; when the contents differ
in exactly the byte at index `i` it returns `false` with exactly one message, an error at
the start token of the command whose text is
`Byte mismatch at index i: id1[i] == v1, id2[i] == v2` with the index `i` in decimal, the
two identifiers of the command and the two byte values `v1`, `v2` at index `i` in decimal. -/
theorem buffers_equal_or_single_mismatch (ex : Executor) (dev : Device)
    (cmd : CommandAssertEqual) (b0 b1 : GLuint) (mapped0 mapped1 : Nat → Byte)
    (h1 : ex.created_buffers_.find cmd.buffer_identifier_1 = some b0)
    (h2 : ex.created_buffers_.find cmd.buffer_identifier_2 = some b1)
    (hsize : dev.bufferSize b0 = dev.bufferSize b1)
    (hmap0 : dev.mapBufferRange b0 = some mapped0)
    (hmap1 : dev.mapBufferRange b1 = some mapped1) :
    ((∀ j, j < dev.bufferSize b0 → mapped0 j = mapped1 j) →
      CheckEqualBuffers ex dev cmd = ⟨.returned true, []⟩) ∧
    (∀ i, i < dev.bufferSize b0 → mapped0 i ≠ mapped1 i →
      (∀ j, j < dev.bufferSize b0 → j ≠ i → mapped0 j = mapped1 j) →
      CheckEqualBuffers ex dev cmd
        = ⟨.returned false, [⟨.kError, cmd.start_token,
            "Byte mismatch at index " ++ toString i ++ ": "
              ++ cmd.buffer_identifier_1 ++ "[" ++ toString i ++ "] == "
              ++ toString (mapped0 i).val ++ ", "
              ++ cmd.buffer_identifier_2 ++ "[" ++ toString i ++ "] == "
              ++ toString (mapped1 i).val⟩]⟩) := by
  have hc1 := Table.count_of_find _ _ _ h1
  have hc2 := Table.count_of_find _ _ _ h2
  have hrun : CheckEqualBuffers ex dev cmd
      = ⟨.returned (equalByteLoop cmd (dev.bufferSize b0) mapped0 mapped1).1,
          (equalByteLoop cmd (dev.bufferSize b0) mapped0 mapped1).2⟩ := by
    unfold CheckEqualBuffers
    simp [hc1, hc2, h1, h2, hsize, hmap0, hmap1]
  rw [hrun]
  constructor
  · intro hsame
    rw [equalByteLoop_identical cmd mapped0 mapped1 _ hsame]
  · intro i hi hdiff hsame
    rw [equalByteLoop_single cmd mapped0 mapped1 i _ hi hdiff hsame]
    rfl

theorem buffers_equal_or_single_mismatch_witness :
    CheckEqualBuffers testExecutor
        (testDevice (fun _ => (1, 1)) (fun _ _ => 0)
          (fun b => if b = 3 then [1, 2, 3] else [1, 9, 3]))
        ⟨"line 1", "buf", "buf2"⟩
      = ⟨.returned false,
          [⟨.kError, "line 1", "Byte mismatch at index 1: buf[1] == 2, buf2[1] == 9"⟩]⟩ :=
  (buffers_equal_or_single_mismatch testExecutor
    (testDevice (fun _ => (1, 1)) (fun _ _ => 0)
      (fun b => if b = 3 then [1, 2, 3] else [1, 9, 3]))
    ⟨"line 1", "buf", "buf2"⟩ 3 4 (fun i => [1, 2, 3].getD i 0) (fun i => [1, 9, 3].getD i 0)
    (by decide) (by decide) rfl rfl rfl).2 1 (by decide) (by decide) (by decide)

/-! ## Loops that collect messages -/

theorem collect_fold (p : Nat → Bool) (f : Nat → Message) (l : List Nat)
    (st : Bool × List Message) :
    l.foldl (fun st x => if p x then (false, st.2 ++ [f x]) else st) st
      = (st.1 && l.all (fun x => !p x), st.2 ++ (l.filter p).map f) := by
  induction l generalizing st with
  | nil => simp
  | cons a l ih =>
    rw [List.foldl_cons, ih]
    by_cases ha : p a = true <;> simp [ha]

theorem collect_fold_nested (p : Nat → Nat → Bool) (f : Nat → Nat → Message) (xs ys : List Nat)
    (st : Bool × List Message) :
    ys.foldl (fun st y =>
        xs.foldl (fun st x => if p x y then (false, st.2 ++ [f x y]) else st) st) st
      = (st.1 && ys.all (fun y => xs.all (fun x => !p x y)),
         st.2 ++ ys.flatMap (fun y => (xs.filter (fun x => p x y)).map (fun x => f x y))) := by
  induction ys generalizing st with
  | nil => simp
  | cons b ys ih =>
    rw [List.foldl_cons, ih, collect_fold (fun x => p x b) (fun x => f x b)]
    simp [Bool.and_assoc]

/-! ## Renderbuffer equality -/

theorem allMatchLoop_iff (data0 data1 : Nat → Byte) (offset : Nat) :
    allMatchLoop data0 data1 offset (List.range 4) = true
      ↔ ∀ k, k < 4 → data0 (offset + k) = data1 (offset + k) := by
  have h4 : List.range 4 = [0, 1, 2, 3] := by decide
  rw [h4]
  simp only [allMatchLoop]
  constructor
  · intro h k hk
    by_cases h0 : data0 offset = data1 offset <;>
    by_cases h1 : data0 (offset + 1) = data1 (offset + 1) <;>
    by_cases h2 : data0 (offset + 2) = data1 (offset + 2) <;>
    by_cases h3 : data0 (offset + 3) = data1 (offset + 3) <;>
    simp [h0, h1, h2, h3] at h
    rcases (show k = 0 ∨ k = 1 ∨ k = 2 ∨ k = 3 by omega) with hk | hk | hk | hk <;>
      subst hk <;> assumption
  · intro h
    have h0 : data0 offset = data1 offset := h 0 (by norm_num)
    simp [h0, h 1 (by norm_num), h 2 (by norm_num), h 3 (by norm_num)]

theorem pixelsDiffer_iff (width height : Nat) (data0 data1 : Nat → Byte) (x y : Nat) :
    pixelsDiffer width height data0 data1 x y = true
      ↔ ∃ k, k < 4 ∧ data0 ((height - y - 1) * width * 4 + x * 4 + k)
          ≠ data1 ((height - y - 1) * width * 4 + x * 4 + k) := by
  simp [pixelsDiffer]

theorem equalPixelStep_eq (cmd : CommandAssertEqual) (width height : Nat)
    (data0 data1 : Nat → Byte) (y : Nat) :
    equalPixelStep cmd width height data0 data1 y
      = fun st x => if pixelsDiffer width height data0 data1 x y
          then (false, st.2 ++ [pixelMismatchMessage cmd width height data0 data1 x y])
          else st := by
  funext st x
  have hp : pixelsDiffer width height data0 data1 x y
      = !allMatchLoop data0 data1 ((height - y - 1) * width * 4 + x * 4) (List.range 4) := by
    rw [Bool.eq_iff_iff, pixelsDiffer_iff, Bool.not_eq_true', ← Bool.not_eq_true,
      allMatchLoop_iff]
    push_neg
    rfl
  simp only [equalPixelStep, hp, pixelMismatchMessage]

theorem equalPixelLoops_eq (cmd : CommandAssertEqual) (width height : Nat)
    (data0 data1 : Nat → Byte) :
    equalPixelLoops cmd width height data0 data1
      = ((List.range height).all (fun y => (List.range width).all
            (fun x => !pixelsDiffer width height data0 data1 x y)),
         (List.range height).flatMap (fun y =>
            ((List.range width).filter (fun x => pixelsDiffer width height data0 data1 x y)).map
              (fun x => pixelMismatchMessage cmd width height data0 data1 x y))) := by
  unfold equalPixelLoops
  simp only [equalPixelStep_eq]
  rw [collect_fold_nested (fun x y => pixelsDiffer width height data0 data1 x y)
    (fun x y => pixelMismatchMessage cmd width height data0 data1 x y)]
  simp

theorem length_flatMap_filter_all (p : Nat → Nat → Bool) (f : Nat → Nat → Message)
    (xs ys : List Nat) (hall : ∀ y, y ∈ ys → ∀ x, x ∈ xs → p x y = true) :
    (ys.flatMap (fun y => (xs.filter (fun x => p x y)).map (fun x => f x y))).length
      = ys.length * xs.length := by
  induction ys with
  | nil => simp
  | cons b ys ih =>
    have hb : xs.filter (fun x => p x b) = xs :=
      List.filter_eq_self.mpr (fun x hx => hall b (List.mem_cons_self b ys) x hx)
    rw [List.flatMap_cons, List.length_append, List.length_map, hb,
      ih (fun y hy => hall y (List.mem_cons_of_mem b hy)), List.length_cons, Nat.succ_mul,
      Nat.add_comm]

/-- C6: for two renderbuffers of the same size `W × H` on a complete framebuffer,
`CheckEqualRenderbuffers` emits, row by row, exactly one message for every pixel `(x, y)` at
which some component differs (one per pixel, also when several components differ) and nothing
else; it returns `true` exactly when no pixel differs; and when every pixel differs the
number of messages is `W * H`. -/
theorem renderbuffers_report_each_differing_pixel (ex : Executor) (dev : Device)
    (cmd : CommandAssertEqual) (rb0 rb1 : GLuint) (W H : Nat) (data0 data1 : Nat → Byte)
    (h1 : ex.created_renderbuffers_.find cmd.buffer_identifier_1 = some rb0)
    (h2 : ex.created_renderbuffers_.find cmd.buffer_identifier_2 = some rb1)
    (hW0 : dev.renderbufferWidth rb0 = W) (hW1 : dev.renderbufferWidth rb1 = W)
    (hH0 : dev.renderbufferHeight rb0 = H) (hH1 : dev.renderbufferHeight rb1 = H)
    (hcomplete : dev.framebufferComplete [rb0, rb1] = true)
    (hd0 : dev.readPixels rb0 W H = data0) (hd1 : dev.readPixels rb1 W H = data1) :
    (CheckEqualRenderbuffers ex dev cmd).messages
      = (List.range H).flatMap (fun y =>
          ((List.range W).filter (fun x => pixelsDiffer W H data0 data1 x y)).map
            (fun x => pixelMismatchMessage cmd W H data0 data1 x y)) ∧
    (∃ b, (CheckEqualRenderbuffers ex dev cmd).outcome = .returned b ∧
      (b = true ↔ ∀ y, y < H → ∀ x, x < W → pixelsDiffer W H data0 data1 x y = false)) ∧
    ((∀ y, y < H → ∀ x, x < W → pixelsDiffer W H data0 data1 x y = true) →
      (CheckEqualRenderbuffers ex dev cmd).messages.length = W * H) ∧
    (∀ x y, pixelsDiffer W H data0 data1 x y = true
      ↔ ∃ k, k < 4 ∧ data0 ((H - y - 1) * W * 4 + x * 4 + k)
          ≠ data1 ((H - y - 1) * W * 4 + x * 4 + k)) := by
  have hc1 := Table.count_of_find _ _ _ h1
  have hc2 := Table.count_of_find _ _ _ h2
  have hrun : CheckEqualRenderbuffers ex dev cmd
      = ⟨.returned (equalPixelLoops cmd W H data0 data1).1,
          (equalPixelLoops cmd W H data0 data1).2⟩ := by
    unfold CheckEqualRenderbuffers
    simp [hc1, hc2, h1, h2, hW0, hW1, hH0, hH1, hcomplete, hd0, hd1]
  rw [hrun, equalPixelLoops_eq]
  refine ⟨rfl, ⟨_, rfl, ?_⟩, ?_, fun x y => pixelsDiffer_iff W H data0 data1 x y⟩
  · simp [List.all_eq_true]
  · intro hall
    rw [length_flatMap_filter_all _ _ _ _
      (fun y hy x hx => hall y (List.mem_range.mp hy) x (List.mem_range.mp hx))]
    simp [Nat.mul_comm]

theorem renderbuffers_report_each_differing_pixel_witness :
    (CheckEqualRenderbuffers testExecutor
        (testDevice (fun _ => (2, 1)) (fun rb _ => if rb = 1 then 0 else 255) (fun _ => []))
        ⟨"line 1", "a", "b"⟩).messages.length = 2 * 1 :=
  (renderbuffers_report_each_differing_pixel testExecutor
    (testDevice (fun _ => (2, 1)) (fun rb _ => if rb = 1 then 0 else 255) (fun _ => []))
    ⟨"line 1", "a", "b"⟩ 1 2 2 1 (fun _ => 0) (fun _ => 255)
    (by decide) (by decide) rfl rfl rfl rfl rfl rfl rfl).2.2.1 (by decide)

/-! ## Pixel assertion -/

/-- C7 (code defect): `VisitAssertPixels` takes the width and height of the renderbuffer
bound to `GL_RENDERBUFFER`, not of the renderbuffer it was given.  With `a` (2 × 2, holding
`countingImage`) and `b` (1 × 1) created in that order, `b` is bound.  The rectangle
`(0, 0, 1, 1)` is inside `a`, and pixel `(0, 0)` of `a`, the first pixel of its top row
(bytes 8 to 11 of the readback of `a`, whose rows start at the bottom), has the expected
value `(8, 9, 10, 11)`; still the handler emits a message for `a[0][0]`, with the values
`(0, 1, 2, 3)` of the pixel below it.  With `a` bound the same command emits nothing. -/
theorem assert_pixels_reports_matching_pixel :
    (0 + 1 ≤ lastCreatedBoundDevice.renderbufferWidth 1 ∧
      0 + 1 ≤ lastCreatedBoundDevice.renderbufferHeight 1) ∧
    (lastCreatedBoundDevice.readPixels 1 2 2 ((2 - 0 - 1) * 2 * 4 + 0 * 4 + 0) = 8 ∧
      lastCreatedBoundDevice.readPixels 1 2 2 ((2 - 0 - 1) * 2 * 4 + 0 * 4 + 1) = 9 ∧
      lastCreatedBoundDevice.readPixels 1 2 2 ((2 - 0 - 1) * 2 * 4 + 0 * 4 + 2) = 10 ∧
      lastCreatedBoundDevice.readPixels 1 2 2 ((2 - 0 - 1) * 2 * 4 + 0 * 4 + 3) = 11) ∧
    VisitAssertPixels testExecutor lastCreatedBoundDevice
        ⟨"line 1", 8, 9, 10, 11, "a", 0, 0, 1, 1⟩
      = ⟨.returned true, [⟨.kError, "line 1",
          "Expected pixel (8, 9, 10, 11), got (0, 1, 2, 3) at a[0][0]"⟩]⟩ ∧
    VisitAssertPixels testExecutor namedBoundDevice
        ⟨"line 1", 8, 9, 10, 11, "a", 0, 0, 1, 1⟩
      = ⟨.returned true, []⟩ := by
  decide

/-! ## The row flip -/

theorem Table.insert_of_present {α : Type} (t : Table α) (id : String) (old value : α)
    (h : t.find id = some old) : t.insert id value = t := by
  simp [Table.insert, h]

theorem lookup_append_singleton {α : Type} (l : List (String × α)) (id : String) (value : α)
    (h : List.lookup id l = none) : List.lookup id (l ++ [(id, value)]) = some value := by
  induction l with
  | nil => simp [List.lookup]
  | cons e l ih =>
    obtain ⟨k, v⟩ := e
    by_cases hk : id = k
    · subst hk
      simp [List.lookup] at h
    · have hbeq : (id == k) = false := by simpa using hk
      rw [List.cons_append, List.lookup_cons, hbeq]
      rw [List.lookup_cons, hbeq] at h
      exact ih h

theorem Table.find_insert_of_absent {α : Type} (t : Table α) (id : String) (value : α)
    (h : t.find id = none) : (t.insert id value).find id = some value := by
  have hl : List.lookup id t.entries = none := h
  have hins : t.insert id value = ⟨t.entries ++ [(id, value)]⟩ := by
    simp [Table.insert, h]
  rw [hins]
  exact lookup_append_singleton _ _ _ hl

/-- A fresh identifier is stored with the handle the driver generated. -/
theorem create_buffer_fresh (ex : Executor) (dev : Device) (cmd : CommandCreateBuffer)
    (h : ex.created_buffers_.find cmd.result_identifier = none) :
    (VisitCreateBuffer ex dev cmd).outcome = .returned true ∧
    (VisitCreateBuffer ex dev cmd).executor.created_buffers_.find cmd.result_identifier
      = some dev.genBuffers :=
  ⟨rfl, Table.find_insert_of_absent _ _ _ h⟩

/-- The handlers without a duplicate check keep the old entry and return `true`. -/
theorem create_duplicate_is_silent (ex : Executor) (dev : Device) (id : String) (old : GLuint) :
    (ex.created_buffers_.find id = some old → ∀ size has_data data,
      VisitCreateBuffer ex dev ⟨id, size, has_data, data⟩ = ⟨.returned true, ex⟩) ∧
    (ex.created_samplers_.find id = some old →
      VisitCreateSampler ex dev ⟨id⟩ = ⟨.returned true, ex⟩) ∧
    (ex.created_textures_.find id = some old → ∀ width height,
      VisitCreateEmptyTexture2D ex dev ⟨id, width, height⟩ = ⟨.returned true, ex⟩) ∧
    (ex.created_renderbuffers_.find id = some old → ∀ width height,
      VisitCreateRenderbuffer ex dev ⟨id, width, height⟩ = ⟨.returned true, ex⟩) := by
  refine ⟨fun h _ _ _ => ?_, fun h => ?_, fun h _ _ => ?_, fun h _ _ => ?_⟩
  · simp [VisitCreateBuffer, Table.insert_of_present _ _ _ _ h]
  · simp [VisitCreateSampler, Table.insert_of_present _ _ _ _ h]
  · simp [VisitCreateEmptyTexture2D, Table.insert_of_present _ _ _ _ h]
  · simp [VisitCreateRenderbuffer, Table.insert_of_present _ _ _ _ h]

/-- The handlers with a duplicate check end the process on a duplicate. -/
theorem declare_duplicate_is_fatal (ex : Executor) (dev : Device) :
    (∀ (cmd : CommandDeclareShader) old,
      ex.declared_shaders_.find cmd.result_identifier = some old →
      (VisitDeclareShader ex cmd).outcome
        = .fatal (.assertFailed "Shader with this name already declared.")) ∧
    (∀ (cmd : CommandCreateProgram) old,
      ex.created_programs_.find cmd.result_identifier = some old →
      (VisitCreateProgram ex dev cmd).outcome
        = .fatal (.assertFailed "Identifier already in use for created program.")) := by
  refine ⟨fun cmd old h => ?_, fun cmd old h => ?_⟩
  · simp [VisitDeclareShader, Table.count_of_find _ _ _ h]
  · simp [VisitCreateProgram, Table.count_of_find _ _ _ h]

/-- C10: `VisitCreateBuffer` on an identifier that is already in `created_buffers_` does not
fail: it returns `true`, and the table still maps the identifier to the old handle `3`, not
to the handle `10` the driver has just generated. -/
theorem create_buffer_duplicate_returns_true :
    (VisitCreateBuffer testExecutor (testDevice (fun _ => (1, 1)) (fun _ _ => 0) (fun _ => []))
        ⟨"buf", 4, false, []⟩).outcome = .returned true ∧
    (VisitCreateBuffer testExecutor (testDevice (fun _ => (1, 1)) (fun _ _ => 0) (fun _ => []))
        ⟨"buf", 4, false, []⟩).executor.created_buffers_.find "buf" = some 3 ∧
    testExecutor.created_buffers_.find "buf" = some 3 ∧
    (testDevice (fun _ => (1, 1)) (fun _ _ => 0) (fun _ => [])).genBuffers = 10 := by
  decide

/-! ## Bindings -/

/-- C11: when the storage-buffer identifier is absent from `created_buffers_`,
`VisitBindStorageBuffer` dies on `unordered_map::at` without having issued any device call;
when it is present the handler returns `true` and its only device call is
`glBindBufferBase(GL_SHADER_STORAGE_BUFFER, binding, handle)` with the stored handle and the
binding index of the command. -/
theorem bind_storage_buffer_lookup (ex : Executor) (cmd : CommandBindStorageBuffer) :
    (ex.created_buffers_.find cmd.storage_buffer_identifier = none →
      VisitBindStorageBuffer ex cmd = ⟨.fatal .outOfRange, []⟩) ∧
    (∀ buffer, ex.created_buffers_.find cmd.storage_buffer_identifier = some buffer →
      VisitBindStorageBuffer ex cmd
        = ⟨.returned true, [.glBindBufferBase GL_SHADER_STORAGE_BUFFER cmd.binding buffer]⟩) := by
  constructor
  · intro h
    simp [VisitBindStorageBuffer, h]
  · intro buffer h
    simp [VisitBindStorageBuffer, h]

theorem bind_storage_buffer_lookup_witness :
    VisitBindStorageBuffer testExecutor ⟨"line 1", "missing", 2⟩ = ⟨.fatal .outOfRange, []⟩ ∧
    VisitBindStorageBuffer testExecutor ⟨"line 2", "buf2", 7⟩
      = ⟨.returned true, [.glBindBufferBase GL_SHADER_STORAGE_BUFFER 7 4]⟩ :=
  ⟨(bind_storage_buffer_lookup testExecutor ⟨"line 1", "missing", 2⟩).1 (by decide),
   (bind_storage_buffer_lookup testExecutor ⟨"line 2", "buf2", 7⟩).2 4 (by decide)⟩

/-! ## Registry monotonicity -/

theorem lookup_append_of_some {α : Type} (l l1 : List (String × α)) (id : String) (value : α)
    (h : List.lookup id l = some value) : List.lookup id (l ++ l1) = some value := by
  induction l with
  | nil => simp [List.lookup] at h
  | cons e l ih =>
    obtain ⟨k, v⟩ := e
    by_cases hk : (id == k) = true
    · rw [List.cons_append, List.lookup_cons, hk]
      rw [List.lookup_cons, hk] at h
      exact h
    · have hbeq : (id == k) = false := by simpa using hk
      rw [List.cons_append, List.lookup_cons, hbeq]
      rw [List.lookup_cons, hbeq] at h
      exact ih h

theorem Table.keptIn_refl {α : Type} (t : Table α) : t.KeptIn t :=
  fun _ _ h => h

theorem Table.keptIn_trans {α : Type} (t t1 t2 : Table α) (h1 : t.KeptIn t1)
    (h2 : t1.KeptIn t2) : t.KeptIn t2 :=
  fun id value h => h2 id value (h1 id value h)

theorem Table.keptIn_insert {α : Type} (t : Table α) (id : String) (value : α) :
    t.KeptIn (t.insert id value) := by
  intro id1 value1 h
  unfold Table.insert
  split_ifs
  · exact h
  · exact lookup_append_of_some _ _ _ _ h

theorem registryKept_refl (ex : Executor) : registryKept ex ex :=
  ⟨Table.keptIn_refl _, Table.keptIn_refl _, Table.keptIn_refl _, Table.keptIn_refl _,
    Table.keptIn_refl _, Table.keptIn_refl _, Table.keptIn_refl _⟩

theorem registryKept_trans (ex ex1 ex2 : Executor) (h1 : registryKept ex ex1)
    (h2 : registryKept ex1 ex2) : registryKept ex ex2 :=
  ⟨Table.keptIn_trans _ _ _ h1.1 h2.1,
   Table.keptIn_trans _ _ _ h1.2.1 h2.2.1,
   Table.keptIn_trans _ _ _ h1.2.2.1 h2.2.2.1,
   Table.keptIn_trans _ _ _ h1.2.2.2.1 h2.2.2.2.1,
   Table.keptIn_trans _ _ _ h1.2.2.2.2.1 h2.2.2.2.2.1,
   Table.keptIn_trans _ _ _ h1.2.2.2.2.2.1 h2.2.2.2.2.2.1,
   Table.keptIn_trans _ _ _ h1.2.2.2.2.2.2 h2.2.2.2.2.2.2⟩

theorem registryKept_declareShader (ex : Executor) (cmd : CommandDeclareShader) :
    registryKept ex (VisitDeclareShader ex cmd).executor := by
  unfold VisitDeclareShader
  split_ifs
  · exact registryKept_refl ex
  · exact ⟨Table.keptIn_insert _ _ _, Table.keptIn_refl _, Table.keptIn_refl _,
      Table.keptIn_refl _, Table.keptIn_refl _, Table.keptIn_refl _, Table.keptIn_refl _⟩

theorem registryKept_compileShader (ex : Executor) (dev : Device) (cmd : CommandCompileShader) :
    registryKept ex (VisitCompileShader ex dev cmd).executor := by
  unfold VisitCompileShader
  split_ifs
  · exact registryKept_refl ex
  · exact registryKept_refl ex
  · split
    · exact registryKept_refl ex
    · dsimp only
      split_ifs
      · exact registryKept_refl ex
      · exact ⟨Table.keptIn_refl _, Table.keptIn_insert _ _ _, Table.keptIn_refl _,
          Table.keptIn_refl _, Table.keptIn_refl _, Table.keptIn_refl _, Table.keptIn_refl _⟩

theorem registryKept_createProgram (ex : Executor) (dev : Device) (cmd : CommandCreateProgram) :
    registryKept ex (VisitCreateProgram ex dev cmd).executor := by
  unfold VisitCreateProgram
  split_ifs
  · exact registryKept_refl ex
  · dsimp only
    split_ifs
    · exact registryKept_refl ex
    · split
      · exact registryKept_refl ex
      · split_ifs
        · exact registryKept_refl ex
        · exact ⟨Table.keptIn_refl _, Table.keptIn_refl _, Table.keptIn_insert _ _ _,
            Table.keptIn_refl _, Table.keptIn_refl _, Table.keptIn_refl _, Table.keptIn_refl _⟩

theorem registryKept_Accept (to_string : Dbl → String) (ex : Executor) (dev : Device)
    (cmd : Command) : registryKept ex (Accept to_string ex dev cmd).executor := by
  cases cmd with
  | compileShader c => exact registryKept_compileShader ex dev c
  | createProgram c => exact registryKept_createProgram ex dev c
  | declareShader c => exact registryKept_declareShader ex c
  | createBuffer c =>
    exact ⟨Table.keptIn_refl _, Table.keptIn_refl _, Table.keptIn_refl _,
      Table.keptIn_insert _ _ _, Table.keptIn_refl _, Table.keptIn_refl _, Table.keptIn_refl _⟩
  | createRenderbuffer c =>
    exact ⟨Table.keptIn_refl _, Table.keptIn_refl _, Table.keptIn_refl _,
      Table.keptIn_refl _, Table.keptIn_insert _ _ _, Table.keptIn_refl _, Table.keptIn_refl _⟩
  | createSampler c =>
    exact ⟨Table.keptIn_refl _, Table.keptIn_refl _, Table.keptIn_refl _,
      Table.keptIn_refl _, Table.keptIn_refl _, Table.keptIn_insert _ _ _, Table.keptIn_refl _⟩
  | createEmptyTexture2D c =>
    exact ⟨Table.keptIn_refl _, Table.keptIn_refl _, Table.keptIn_refl _,
      Table.keptIn_refl _, Table.keptIn_refl _, Table.keptIn_refl _, Table.keptIn_insert _ _ _⟩
  | _ => exact registryKept_refl ex

theorem registryKept_runCommands (to_string : Dbl → String) (cmds : List (Device × Command)) :
    ∀ ex, registryKept ex (runCommands to_string ex cmds) := by
  induction cmds with
  | nil => intro ex; exact registryKept_refl ex
  | cons step rest ih =>
    intro ex
    obtain ⟨dev, cmd⟩ := step
    have hstep := registryKept_Accept to_string ex dev cmd
    unfold runCommands
    split
    · rename_i b ex1 heq
      rw [heq] at hstep
      exact registryKept_trans _ _ _ hstep (ih ex1)
    · rename_i why ex1 heq
      rw [heq] at hstep
      exact hstep

theorem registryKept_create (ex : Executor) (dev : Device) :
    (∀ cmd, registryKept ex (VisitCreateBuffer ex dev cmd).executor) ∧
    (∀ cmd, registryKept ex (VisitCreateSampler ex dev cmd).executor) ∧
    (∀ cmd, registryKept ex (VisitCreateEmptyTexture2D ex dev cmd).executor) ∧
    (∀ cmd, registryKept ex (VisitCreateRenderbuffer ex dev cmd).executor) :=
  ⟨fun cmd => registryKept_Accept (fun _ => "") ex dev (.createBuffer cmd),
   fun cmd => registryKept_Accept (fun _ => "") ex dev (.createSampler cmd),
   fun cmd => registryKept_Accept (fun _ => "") ex dev (.createEmptyTexture2D cmd),
   fun cmd => registryKept_Accept (fun _ => "") ex dev (.createRenderbuffer cmd)⟩

/-- C12: each of the seven handlers that write to a table (`VisitDeclareShader`,
`VisitCompileShader`, `VisitCreateProgram`, `VisitCreateBuffer`, `VisitCreateSampler`,
`VisitCreateEmptyTexture2D`, `VisitCreateRenderbuffer`) leaves every `(kind, identifier)`
entry that was present in place with the same value, the other handlers do not write at all;
so every command, and every run of a command list, keeps all entries: no command removes or
overwrites one. -/
theorem registry_is_monotone (to_string : Dbl → String) (ex : Executor) :
    (∀ cmd, registryKept ex (VisitDeclareShader ex cmd).executor) ∧
    (∀ dev cmd, registryKept ex (VisitCompileShader ex dev cmd).executor) ∧
    (∀ dev cmd, registryKept ex (VisitCreateProgram ex dev cmd).executor) ∧
    (∀ dev cmd, registryKept ex (VisitCreateBuffer ex dev cmd).executor) ∧
    (∀ dev cmd, registryKept ex (VisitCreateSampler ex dev cmd).executor) ∧
    (∀ dev cmd, registryKept ex (VisitCreateEmptyTexture2D ex dev cmd).executor) ∧
    (∀ dev cmd, registryKept ex (VisitCreateRenderbuffer ex dev cmd).executor) ∧
    (∀ dev cmd, registryKept ex (Accept to_string ex dev cmd).executor) ∧
    (∀ cmds, registryKept ex (runCommands to_string ex cmds)) :=
  ⟨registryKept_declareShader ex,
   registryKept_compileShader ex,
   registryKept_createProgram ex,
   fun dev => (registryKept_create ex dev).1,
   fun dev => (registryKept_create ex dev).2.1,
   fun dev => (registryKept_create ex dev).2.2.1,
   fun dev => (registryKept_create ex dev).2.2.2,
   fun dev cmd => registryKept_Accept to_string ex dev cmd,
   fun cmds => registryKept_runCommands to_string cmds ex⟩

/-! ## Uniforms -/

theorem take_eq_getD {α : Type} (l : List α) (d : α) :
    (1 ≤ l.length → l.take 1 = [l.getD 0 d]) ∧
    (2 ≤ l.length → l.take 2 = [l.getD 0 d, l.getD 1 d]) ∧
    (3 ≤ l.length → l.take 3 = [l.getD 0 d, l.getD 1 d, l.getD 2 d]) ∧
    (4 ≤ l.length → l.take 4 = [l.getD 0 d, l.getD 1 d, l.getD 2 d, l.getD 3 d]) := by
  refine ⟨?_, ?_, ?_, ?_⟩
  · intro h
    match l, h with
    | a :: _, _ => simp
  · intro h
    match l, h with
    | a :: b :: _, _ => simp
  · intro h
    match l, h with
    | a :: b :: c :: _, _ => simp
  · intro h
    match l, h with
    | a :: b :: c :: e :: _, _ => simp

/-- C13: for a program that is in `created_programs_`, `VisitSetUniform` returns `true` and
issues exactly one device call, for that program and the location of the command.  The
entry point is decided by the element shape and the array flag: an array value goes to the
vector/array entry point of its shape with `count` equal to the array size and the whole
flat data; a value that is no array goes to the scalar entry point of its shape with the
first arity-many elements of the data.  A `vec3` array holding three floats with array size
`1` goes to `glProgramUniform3fv` with count `1`, a `float` that is no array to
`glProgramUniform1f`. -/
theorem set_uniform_entry_point (ex : Executor) (cmd : CommandSetUniform) (program : GLuint)
    (hfind : ex.created_programs_.find cmd.program_identifier = some program) :
    VisitSetUniform ex cmd
      = ⟨.returned true, [uniformCall program cmd.location cmd.value]⟩ ∧
    (uniformCall program cmd.location cmd.value).uniformTarget = some (program, cmd.location) ∧
    (cmd.value.is_array = true →
      (uniformCall program cmd.location cmd.value).uniformEntryPoint
        = some (.vector cmd.value.element_type) ∧
      (uniformCall program cmd.location cmd.value).uniformCount = some cmd.value.array_size ∧
      (cmd.value.element_type ≠ .kInt →
        (uniformCall program cmd.location cmd.value).uniformFloats = cmd.value.float_data) ∧
      (cmd.value.element_type = .kInt →
        (uniformCall program cmd.location cmd.value).uniformInts = cmd.value.int_data)) ∧
    (cmd.value.is_array = false →
      (uniformCall program cmd.location cmd.value).uniformEntryPoint
        = some (.scalar cmd.value.element_type) ∧
      (cmd.value.HasElement → cmd.value.element_type ≠ .kInt →
        (uniformCall program cmd.location cmd.value).uniformFloats
          = cmd.value.float_data.take cmd.value.element_type.arity) ∧
      (cmd.value.HasElement → cmd.value.element_type = .kInt →
        (uniformCall program cmd.location cmd.value).uniformInts
          = cmd.value.int_data.take 1)) ∧
    (∀ (a b c : Dbl) (location : Nat),
      uniformCall program location ⟨.kVec3, true, 1, [a, b, c], []⟩
        = .glProgramUniform3fv program location 1 [a, b, c]) ∧
    (∀ (a : Dbl) (location size : Nat),
      uniformCall program location ⟨.kFloat, false, size, [a], []⟩
        = .glProgramUniform1f program location a) := by
  obtain ⟨program_identifier, location, value⟩ := cmd
  obtain ⟨shape, is_array, array_size, float_data, int_data⟩ := value
  have hf := take_eq_getD float_data (Dbl.fin 0)
  have hi := take_eq_getD int_data (0 : Int)
  dsimp only at hfind ⊢
  refine ⟨?_, ?_, ?_, ?_, ?_, ?_⟩
  · simp [VisitSetUniform, hfind]
  · cases shape <;> cases is_array <;> rfl
  · intro harr
    subst harr
    cases shape <;> simp [uniformCall, GLCall.uniformEntryPoint, GLCall.uniformCount,
      GLCall.uniformFloats, GLCall.uniformInts]
  · intro harr
    subst harr
    cases shape <;>
      simp only [uniformCall, GLCall.uniformEntryPoint, GLCall.uniformFloats,
        GLCall.uniformInts, UniformValue.HasElement, ElementType.arity, UniformValue.floatAt,
        UniformValue.intAt, Bool.false_eq_true, if_false, if_true, ne_eq, not_true_eq_false,
        not_false_eq_true, true_and, reduceCtorEq, false_implies, implies_true, and_true,
        true_implies] <;>
      intro h
    · exact (hf.1 h).symm
    · exact (hf.2.1 h).symm
    · exact (hf.2.2.1 h).symm
    · exact (hf.2.2.2 h).symm
    · exact (hi.1 h).symm
  · intro a b c location1
    rfl
  · intro a location1 size
    rfl

theorem set_uniform_entry_point_witness :
    VisitSetUniform { testExecutor with created_programs_ := ⟨[("prog", 5)]⟩ }
        ⟨"prog", 3, ⟨.kVec3, true, 1, [Dbl.fin 1, Dbl.fin 2, Dbl.fin 3], []⟩⟩
      = ⟨.returned true,
          [uniformCall 5 3 ⟨.kVec3, true, 1, [Dbl.fin 1, Dbl.fin 2, Dbl.fin 3], []⟩]⟩ :=
  (set_uniform_entry_point { testExecutor with created_programs_ := ⟨[("prog", 5)]⟩ }
    ⟨"prog", 3, ⟨.kVec3, true, 1, [Dbl.fin 1, Dbl.fin 2, Dbl.fin 3], []⟩⟩ 5 (by decide)).1

/-! ## Draw targets of `run-graphics` -/

theorem attachStep_ok (ex : Executor) (atts : SlotMap String) (hres : attachmentsResolve ex atts)
    (calls : List GLCall) (draw_buffers : List Nat) (i : Nat) :
    attachStep ex atts ⟨calls, draw_buffers, false⟩ i
      = ⟨calls ++ (attachCall ex atts i).toList, draw_buffers ++ [drawTarget atts i], false⟩ := by
  unfold attachStep attachCall drawTarget
  cases hfind : atts.find i with
  | none => simp [SlotMap.count, hfind]
  | some output_buffer =>
    cases hrb : ex.created_renderbuffers_.find output_buffer with
    | some renderbuffer => simp [SlotMap.count, Table.count, hfind, hrb]
    | none =>
      cases htex : ex.created_textures_.find output_buffer with
      | some texture => simp [SlotMap.count, Table.count, hfind, hrb, htex]
      | none =>
        rcases hres i output_buffer hfind with h | h
        · simp [hrb] at h
        · simp [htex] at h

theorem attach_fold (ex : Executor) (atts : SlotMap String) (hres : attachmentsResolve ex atts)
    (n : Nat) :
    (List.range n).foldl (attachStep ex atts) ⟨[], [], false⟩
      = ⟨(List.range n).filterMap (attachCall ex atts), (List.range n).map (drawTarget atts),
          false⟩ := by
  induction n with
  | zero => rfl
  | succ n ih =>
    rw [foldl_range_succ, ih, attachStep_ok ex atts hres, List.range_succ,
      List.filterMap_append, List.map_append]
    cases h : attachCall ex atts n <;> simp [List.filterMap, h]

theorem foldl_max_key {α : Type} (l : List (Nat × α)) :
    ∀ init : Nat,
      init ≤ l.foldl (fun m e => Max.max m e.1) init ∧
      (∀ e, e ∈ l → e.1 ≤ l.foldl (fun m e => Max.max m e.1) init) ∧
      (l.foldl (fun m e => Max.max m e.1) init = init ∨
        ∃ e, e ∈ l ∧ e.1 = l.foldl (fun m e => Max.max m e.1) init) := by
  induction l with
  | nil => intro init; simp
  | cons a l ih =>
    intro init
    obtain ⟨h1, h2, h3⟩ := ih (Max.max init a.1)
    rw [List.foldl_cons]
    refine ⟨le_trans (le_max_left _ _) h1, ?_, ?_⟩
    · intro e he
      rcases List.mem_cons.mp he with rfl | he
      · exact le_trans (le_max_right _ _) h1
      · exact h2 e he
    · rcases h3 with h | ⟨e, he, hval⟩
      · rcases max_choice init a.1 with hm | hm
        · left; rw [h, hm]
        · right; exact ⟨a, List.mem_cons_self a l, by rw [h, hm]⟩
      · right; exact ⟨e, List.mem_cons_of_mem a he, hval⟩

theorem run_graphics_passes_draw_buffers (ex : Executor) (dev : Device)
    (cmd : CommandRunGraphics)
    (hret : (VisitRunGraphics ex dev cmd).outcome = .returned true) :
    GLCall.glDrawBuffers (attachLoop ex cmd.framebuffer_attachments).draw_buffers.length
        (attachLoop ex cmd.framebuffer_attachments).draw_buffers
      ∈ (VisitRunGraphics ex dev cmd).calls := by
  unfold VisitRunGraphics at hret ⊢
  split at hret
  · simp at hret
  · split at hret
    · simp at hret
    · dsimp only at hret ⊢
      split_ifs at hret with h1 h2 h3
      all_goals first
        | (exfalso; simp at hret; done)
        | (rw [if_neg (not_not.mpr h1), if_neg h2, if_neg h3]
           split at hret
           · simp at hret
           · simp)

/-- C14: with `m = max_location` the largest slot of the attachment map (`0` for an empty
map), and every attached identifier naming a renderbuffer or a texture, the loop of
`VisitRunGraphics` ends without a throw; `draw_buffers` has length `m + 1` and its entry `i`
is `GL_COLOR_ATTACHMENT0 + i` when slot `i` has an entry and `GL_NONE` otherwise; the
attachment calls are, slot by slot, a renderbuffer attachment when the identifier is in
`created_renderbuffers_` and a texture attachment otherwise.  A `VisitRunGraphics` that
returns has passed exactly this list to `glDrawBuffers`. -/
theorem draw_buffers_cover_slots (ex : Executor) (atts : SlotMap String)
    (hres : attachmentsResolve ex atts) :
    (attachLoop ex atts).failed = false ∧
    (attachLoop ex atts).draw_buffers.length = maxLocation atts + 1 ∧
    (attachLoop ex atts).draw_buffers
      = (List.range (maxLocation atts + 1)).map (fun i =>
          if (atts.find i).isSome then GL_COLOR_ATTACHMENT0 + i else GL_NONE) ∧
    (∀ i, i ≤ maxLocation atts → ∀ d,
      (attachLoop ex atts).draw_buffers.getD i d
        = if (atts.find i).isSome then GL_COLOR_ATTACHMENT0 + i else GL_NONE) ∧
    (attachLoop ex atts).calls
      = (List.range (maxLocation atts + 1)).filterMap (attachCall ex atts) ∧
    (∀ i output_buffer renderbuffer, atts.find i = some output_buffer →
      ex.created_renderbuffers_.find output_buffer = some renderbuffer →
      attachCall ex atts i
        = some (.glFramebufferRenderbuffer (GL_COLOR_ATTACHMENT0 + i) renderbuffer)) ∧
    (∀ i output_buffer texture, atts.find i = some output_buffer →
      ex.created_renderbuffers_.find output_buffer = none →
      ex.created_textures_.find output_buffer = some texture →
      attachCall ex atts i = some (.glFramebufferTexture (GL_COLOR_ATTACHMENT0 + i) texture 0)) ∧
    (∀ e, e ∈ atts.entries → e.1 ≤ maxLocation atts) ∧
    (atts.entries ≠ [] → ∃ e, e ∈ atts.entries ∧ e.1 = maxLocation atts) ∧
    (∀ dev cmd, cmd.framebuffer_attachments = atts →
      (VisitRunGraphics ex dev cmd).outcome = .returned true →
      GLCall.glDrawBuffers (maxLocation atts + 1)
          ((List.range (maxLocation atts + 1)).map (fun i =>
            if (atts.find i).isSome then GL_COLOR_ATTACHMENT0 + i else GL_NONE))
        ∈ (VisitRunGraphics ex dev cmd).calls) := by
  have hloop : attachLoop ex atts
      = ⟨(List.range (maxLocation atts + 1)).filterMap (attachCall ex atts),
          (List.range (maxLocation atts + 1)).map (drawTarget atts), false⟩ :=
    attach_fold ex atts hres _
  obtain ⟨_, hmax, hattained⟩ := foldl_max_key atts.entries 0
  have hrun : ∀ dev cmd, cmd.framebuffer_attachments = atts →
      (VisitRunGraphics ex dev cmd).outcome = .returned true →
      GLCall.glDrawBuffers (maxLocation atts + 1)
          ((List.range (maxLocation atts + 1)).map (fun i =>
            if (atts.find i).isSome then GL_COLOR_ATTACHMENT0 + i else GL_NONE))
        ∈ (VisitRunGraphics ex dev cmd).calls := by
    intro dev cmd hatts hret
    have hmem := run_graphics_passes_draw_buffers ex dev cmd hret
    rw [hatts, hloop] at hmem
    simpa [drawTarget] using hmem
  rw [hloop]
  refine ⟨rfl, by simp, rfl, ?_, rfl, ?_, ?_, hmax, ?_, hrun⟩
  · intro i hi d
    have hlt : i < ((List.range (maxLocation atts + 1)).map (drawTarget atts)).length := by
      simp; omega
    show ((List.range (maxLocation atts + 1)).map (drawTarget atts)).getD i d = _
    rw [List.getD_eq_getElem _ _ hlt]
    simp [drawTarget]
  · intro i output_buffer renderbuffer hfind hrb
    simp [attachCall, hfind, hrb]
  · intro i output_buffer texture hfind hrb htex
    simp [attachCall, hfind, hrb, htex]
  · intro hne
    rcases hattained with h | h
    · cases hl : atts.entries with
      | nil => exact absurd hl hne
      | cons a l =>
        have hle : a.1 ≤ maxLocation atts := hmax a (by rw [hl]; exact List.mem_cons_self a l)
        have hzero : maxLocation atts = 0 := h
        exact ⟨a, List.mem_cons_self a l, by omega⟩
    · exact h

theorem draw_buffers_cover_slots_witness :
    (attachLoop testExecutor ⟨[(2, "a"), (0, "b")]⟩).draw_buffers
      = (List.range (maxLocation ⟨[(2, "a"), (0, "b")]⟩ + 1)).map (fun i =>
          if ((⟨[(2, "a"), (0, "b")]⟩ : SlotMap String).find i).isSome
          then GL_COLOR_ATTACHMENT0 + i else GL_NONE) :=
  (draw_buffers_cover_slots testExecutor ⟨[(2, "a"), (0, "b")]⟩ (by
    intro i output_buffer h
    have hmem : output_buffer = "a" ∨ output_buffer = "b" := by
      simp only [SlotMap.find, List.lookup] at h
      split at h
      · left; exact (Option.some.inj h).symm
      · split at h
        · right; exact (Option.some.inj h).symm
        · cases h
    rcases hmem with rfl | rfl
    · left; decide
    · left; decide)).2.2.1

/-! ## Buffer equality: lengths and mapping -/

/-- C15 (amended): `CheckEqualBuffers` compares the lengths first: when they differ it
returns `false` with exactly the length message.  When they are equal and mapping the first
buffer, or the first succeeds and the second, yields a null pointer, no message is emitted;
the handler returns `false` when the error check after the failed map finds no pending error,
and the process ends there when it finds one. -/
theorem buffers_length_then_map (ex : Executor) (dev : Device) (cmd : CommandAssertEqual)
    (b0 b1 : GLuint)
    (h1 : ex.created_buffers_.find cmd.buffer_identifier_1 = some b0)
    (h2 : ex.created_buffers_.find cmd.buffer_identifier_2 = some b1) :
    (dev.bufferSize b0 ≠ dev.bufferSize b1 →
      CheckEqualBuffers ex dev cmd
        = ⟨.returned false, [⟨.kError, cmd.start_token,
            lengthsText cmd.buffer_identifier_1 cmd.buffer_identifier_2
              (dev.bufferSize b0) (dev.bufferSize b1)⟩]⟩) ∧
    (dev.bufferSize b0 = dev.bufferSize b1 → dev.mapBufferRange b0 = none →
      CheckEqualBuffers ex dev cmd
        = ⟨if dev.mapBufferError b0 then .fatal (.crash "glMapBufferRange")
            else .returned false, []⟩) ∧
    (dev.bufferSize b0 = dev.bufferSize b1 →
      ∀ mapped0, dev.mapBufferRange b0 = some mapped0 → dev.mapBufferRange b1 = none →
      CheckEqualBuffers ex dev cmd
        = ⟨if dev.mapBufferError b1 then .fatal (.crash "glMapBufferRange")
            else .returned false, []⟩) := by
  have hc1 := Table.count_of_find _ _ _ h1
  have hc2 := Table.count_of_find _ _ _ h2
  refine ⟨fun hne => ?_, fun heq hmap => ?_, fun heq mapped0 hmap0 hmap1 => ?_⟩
  · unfold CheckEqualBuffers
    simp [hc1, hc2, h1, h2, hne]
  · unfold CheckEqualBuffers
    simp only [hc1, hc2, h1, h2, heq, hmap]
    by_cases herr : dev.mapBufferError b0 = true <;> simp [herr]
  · unfold CheckEqualBuffers
    simp only [hc1, hc2, h1, h2, heq, hmap0, hmap1]
    by_cases herr : dev.mapBufferError b1 = true <;> simp [herr]

theorem buffers_length_then_map_witness :
    CheckEqualBuffers testExecutor
        (testDevice (fun _ => (1, 1)) (fun _ _ => 0) (fun b => if b = 3 then [1, 2] else [1]))
        ⟨"line 1", "buf", "buf2"⟩
      = ⟨.returned false, [⟨.kError, "line 1", lengthsText "buf" "buf2" 2 1⟩]⟩ :=
  (buffers_length_then_map testExecutor
    (testDevice (fun _ => (1, 1)) (fun _ _ => 0) (fun b => if b = 3 then [1, 2] else [1]))
    ⟨"line 1", "buf", "buf2"⟩ 3 4 (by decide) (by decide)).1 (by decide)

/-- C15 (as stated) fails when the driver reports an error for the failed map: with two
buffers of length `2`, a null pointer from `glMapBufferRange` and a pending error, the
handler does not return `false`; `GL_CHECKERR` ends the process. -/
theorem buffers_map_failure_can_crash :
    CheckEqualBuffers testExecutor
        { testDevice (fun _ => (1, 1)) (fun _ _ => 0) (fun _ => [1, 2]) with
          mapBufferRange := fun _ => none, mapBufferError := fun _ => true }
        ⟨"line 1", "buf", "buf2"⟩
      = ⟨.fatal (.crash "glMapBufferRange"), []⟩ := by
  decide

/-! ## The shader state machine -/

theorem attachShaders_some (ex : Executor) (ids : List String) :
    ∀ attached, attachShaders ex ids = some attached →
      ∀ id, id ∈ ids → (ex.compiled_shaders_.find id).isSome = true := by
  induction ids with
  | nil => intro _ _ id hid; cases hid
  | cons a rest ih =>
    intro attached h id hid
    unfold attachShaders at h
    split_ifs at h with hcount
    cases hfa : ex.compiled_shaders_.find a with
    | none => simp [hfa] at h
    | some shader =>
      cases hrest : attachShaders ex rest with
      | none => simp [hfa, hrest] at h
      | some l =>
        rcases List.mem_cons.mp hid with rfl | hmem
        · simp [hfa]
        · exact ih l hrest id hmem

/-- C16: `VisitCompileShader` returns only when its shader identifier is in
`declared_shaders_`, and `VisitCreateProgram` returns only when every compiled-shader
identifier it lists is in `compiled_shaders_`.  With an undeclared shader, or with a listed
shader that is not compiled, the handler ends the process and the executor tables,
`compiled_shaders_` and `created_programs_` among them, are as before. -/
theorem shader_state_machine (ex : Executor) (dev : Device) :
    (∀ (cmd : CommandCompileShader),
      (∀ b, (VisitCompileShader ex dev cmd).outcome = .returned b →
        (ex.declared_shaders_.find cmd.shader_identifier).isSome = true) ∧
      (ex.declared_shaders_.find cmd.shader_identifier = none →
        (VisitCompileShader ex dev cmd).outcome = .fatal (.assertFailed "Shader not declared.") ∧
        (VisitCompileShader ex dev cmd).executor.compiled_shaders_.entries
          = ex.compiled_shaders_.entries ∧
        (VisitCompileShader ex dev cmd).executor.created_programs_.entries
          = ex.created_programs_.entries)) ∧
    (∀ (cmd : CommandCreateProgram),
      (∀ b, (VisitCreateProgram ex dev cmd).outcome = .returned b →
        ∀ id, id ∈ cmd.compiled_shader_identifiers →
          (ex.compiled_shaders_.find id).isSome = true) ∧
      ((∃ id, id ∈ cmd.compiled_shader_identifiers ∧ ex.compiled_shaders_.find id = none) →
        (∃ why, (VisitCreateProgram ex dev cmd).outcome = .fatal why) ∧
        (VisitCreateProgram ex dev cmd).executor.compiled_shaders_.entries
          = ex.compiled_shaders_.entries ∧
        (VisitCreateProgram ex dev cmd).executor.created_programs_.entries
          = ex.created_programs_.entries)) := by
  have hcompile : ∀ (cmd : CommandCompileShader) b,
      (VisitCompileShader ex dev cmd).outcome = .returned b →
      (ex.declared_shaders_.find cmd.shader_identifier).isSome = true := by
    intro cmd b hret
    by_contra hnone
    have hcount : ex.declared_shaders_.count cmd.shader_identifier ≠ 1 := by
      simp [Table.count, hnone]
    simp [VisitCompileShader, hcount] at hret
  have hprogram : ∀ (cmd : CommandCreateProgram) b,
      (VisitCreateProgram ex dev cmd).outcome = .returned b →
      ∀ id, id ∈ cmd.compiled_shader_identifiers →
        (ex.compiled_shaders_.find id).isSome = true := by
    intro cmd b hret
    cases hatt : attachShaders ex cmd.compiled_shader_identifiers with
    | some attached => exact attachShaders_some ex _ attached hatt
    | none =>
      exfalso
      unfold VisitCreateProgram at hret
      simp only [hatt] at hret
      split_ifs at hret
  refine ⟨fun cmd => ⟨hcompile cmd, fun hnone => ?_⟩, fun cmd => ⟨hprogram cmd, ?_⟩⟩
  · have hcount : ex.declared_shaders_.count cmd.shader_identifier ≠ 1 := by
      simp [Table.count, hnone]
    simp [VisitCompileShader, hcount]
  · rintro ⟨id, hid, hnone⟩
    have hnot : ∀ b, (VisitCreateProgram ex dev cmd).outcome ≠ .returned b := by
      intro b hret
      have := hprogram cmd b hret id hid
      simp [hnone] at this
    have hex : (VisitCreateProgram ex dev cmd).executor = ex := by
      cases hatt : attachShaders ex cmd.compiled_shader_identifiers with
      | some attached =>
        have := attachShaders_some ex _ attached hatt id hid
        simp [hnone] at this
      | none =>
        unfold VisitCreateProgram
        simp only [hatt]
        split_ifs <;> rfl
    refine ⟨?_, by rw [hex], by rw [hex]⟩
    cases hout : (VisitCreateProgram ex dev cmd).outcome with
    | returned b => exact absurd hout (hnot b)
    | fatal why => exact ⟨why, rfl⟩

theorem shader_state_machine_witness :
    (VisitCompileShader testExecutor (testDevice (fun _ => (1, 1)) (fun _ _ => 0) (fun _ => []))
        ⟨"vs_compiled", "vs"⟩).outcome = .fatal (.assertFailed "Shader not declared.") ∧
    (∃ why, (VisitCreateProgram testExecutor
        (testDevice (fun _ => (1, 1)) (fun _ _ => 0) (fun _ => []))
        ⟨"prog", ["vs_compiled"]⟩).outcome = .fatal why) :=
  ⟨(((shader_state_machine testExecutor
      (testDevice (fun _ => (1, 1)) (fun _ _ => 0) (fun _ => []))).1 ⟨"vs_compiled", "vs"⟩).2
      (by decide)).1,
   (((shader_state_machine testExecutor
      (testDevice (fun _ => (1, 1)) (fun _ _ => 0) (fun _ => []))).2 ⟨"prog", ["vs_compiled"]⟩).2
      ⟨"vs_compiled", by decide, by decide⟩).1⟩

/-! ## Bounds of the reads of `assert-pixels` -/

/-- When the rectangle is inside the `width × height` image the handler allocated its vector
for, every index the loops read is below the length `width * height * CHANNELS` of the
vector, and `height - y - 1` does not wrap. -/
theorem assertPixelReads_in_bounds (cmd : CommandAssertPixels) (width height : Nat)
    (hx : cmd.rectangle_x + cmd.rectangle_width ≤ width)
    (hy : cmd.rectangle_y + cmd.rectangle_height ≤ height)
    (hsize : width * height * CHANNELS < 2 ^ 64) :
    ∀ i, i ∈ assertPixelReads cmd width height → i < width * height * CHANNELS := by
  intro i hi
  simp only [assertPixelReads, List.mem_flatMap, List.mem_map, List.mem_range,
    List.mem_range'_1] at hi
  obtain ⟨y, ⟨hy0, hy1⟩, x, ⟨hx0, hx1⟩, k, hk, rfl⟩ := hi
  have hrow : height - y - 1 + 1 ≤ height := by omega
  have hmul : (height - y - 1 + 1) * width ≤ height * width := Nat.mul_le_mul_right width hrow
  have hsucc : (height - y - 1 + 1) * width = (height - y - 1) * width + width :=
    Nat.succ_mul _ _
  have hcomm : width * height = height * width := Nat.mul_comm width height
  have hidx : (((height : ℤ) - (y : ℤ) - 1) * (width : ℤ) * 4 + (x : ℤ) * 4)
      = (((height - y - 1) * width * 4 + x * 4 : ℕ) : ℤ) := by
    have hcast : ((height - y - 1 : ℕ) : ℤ) = (height : ℤ) - (y : ℤ) - 1 := by omega
    push_cast
    rw [hcast]
  simp only [CHANNELS] at hsize ⊢
  have hlt : (height - y - 1) * width * 4 + x * 4 < 2 ^ 64 := by omega
  have hval : startOfPixelIndex width height x y = (height - y - 1) * width * 4 + x * 4 := by
    unfold startOfPixelIndex sizeT
    rw [hidx]
    have h64 : ((2 : ℤ) ^ 64) = ((2 ^ 64 : ℕ) : ℤ) := by norm_num
    rw [h64, ← Int.natCast_mod, Int.toNat_natCast, Nat.mod_eq_of_lt hlt]
  rw [hval]
  omega

/-- C17 (code defect): the vector `data` of `VisitAssertPixels` has the size of the
renderbuffer bound to `GL_RENDERBUFFER`, not of the renderbuffer it was given.  With `a`
(2 × 2) and `b` (1 × 1) created in that order, `b` is bound: for the rectangle
`(0, 0, 2, 2)`, which is inside `a`, the handler allocates `1 * 1 * 4 = 4` bytes and reads
the indexes `4` to `7` for pixel `(1, 0)`; for the row `y = 1` the subtraction
`height - y - 1 = 1 - 1 - 1` wraps around, and pixel `(0, 1)` is read at the indexes
`2 ^ 64 - 4` to `2 ^ 64 - 1`. -/
theorem assert_pixels_reads_out_of_bounds :
    (0 + 2 ≤ lastCreatedBoundDevice.renderbufferWidth 1 ∧
      0 + 2 ≤ lastCreatedBoundDevice.renderbufferHeight 1) ∧
    assertPixelsAccesses testExecutor lastCreatedBoundDevice
        ⟨"line 1", 8, 9, 10, 11, "a", 0, 0, 2, 2⟩
      = some (4, [0, 1, 2, 3, 4, 5, 6, 7,
          18446744073709551612, 18446744073709551613, 18446744073709551614,
          18446744073709551615, 0, 1, 2, 3]) ∧
    ¬ (∀ i, i ∈ assertPixelReads ⟨"line 1", 8, 9, 10, 11, "a", 0, 0, 2, 2⟩
        (lastCreatedBoundDevice.renderbufferWidth lastCreatedBoundDevice.boundRenderbuffer)
        (lastCreatedBoundDevice.renderbufferHeight lastCreatedBoundDevice.boundRenderbuffer) →
      i < 4) ∧
    (lastCreatedBoundDevice.renderbufferHeight lastCreatedBoundDevice.boundRenderbuffer : ℤ)
      - 1 - 1 < 0 ∧
    assertPixelsAccesses testExecutor namedBoundDevice
        ⟨"line 1", 8, 9, 10, 11, "a", 0, 0, 2, 2⟩
      = some (16, [8, 9, 10, 11, 12, 13, 14, 15, 0, 1, 2, 3, 4, 5, 6, 7]) := by
  refine ⟨by decide, by decide, ?_, by decide, by decide⟩
  intro h
  exact absurd (h 4 (by decide)) (by decide)

/-! ## Symmetry and zero of the histogram metric -/

end shadertrap
